import Mathlib

/-!
# Kubeconfig merge engine of k3d (`pkg/cluster/kubeconfig.go`)

A shallow embedding of the kubeconfig functions of `pkg/cluster/kubeconfig.go`
(`GetKubeconfig`, `UpdateKubeConfig`, `WriteKubeConfig`, `WriteKubeConfigToPath`,
`GetAndWriteKubeConfig`, `RemoveClusterFromKubeConfig`), of `startContainer`,
`createServer` and `createWorker` of `cli/container.go`, of `importImage` and
`ctrImageImport` of `cli/image.go`, of `GetRuntime`, of the stop-cluster command
and of `TranslateNodeToContainer`.

* A Go `map[string]V` is a list of key/value entries; the order of the list is
  the order in which a `range` loop visits the entries, so a statement proved
  for every list holds for every iteration order Go may choose.
* A Go pointer `*T` stored in a map is an `Option T` (`none` is `nil`).
* Functions that mutate `*existingKubeConfig` in place return the new value of
  the object next to their error result.
* The file system is explicit state; a run of a writing function yields the
  list of file-system states it passes through, one per elementary step
  (create/truncate, one more byte written, rename).
* The container engine, the runtime and helpers defined outside the modelled
  files are arguments that give the result of each call; a run records the
  requests sent to the engine, in order.
-/

namespace K3d

/-! ## Go maps -/

/-- A Go `map[string]V`: its entries, in iteration order. -/
abbrev GoMap (V : Type) := List (String × V)

namespace GoMap

variable {V : Type}

/-- Map index `v, ok := m[k]`: `some v` when `ok`, `none` otherwise. -/
def index : GoMap V → String → Option V
  | [], _ => none
  | (k', v) :: rest, k => if k' = k then some v else index rest k

/-- Map assignment `m[k] = v`. -/
def assign : GoMap V → String → V → GoMap V
  | [], k, v => [(k, v)]
  | (k', v') :: rest, k, v =>
    if k' = k then (k, v) :: rest else (k', v') :: assign rest k v

/-- Builtin `delete(m, k)`. -/
def del (m : GoMap V) (k : String) : GoMap V :=
  m.filter (fun e => decide (e.1 ≠ k))

/-- The keys of a map, in iteration order. -/
def keys (m : GoMap V) : List String := m.map Prod.fst

/-- A list of entries represents a Go map when no key occurs twice. -/
def WF (m : GoMap V) : Prop := (keys m).Nodup

instance decidableWF (m : GoMap V) : Decidable (WF m) :=
  inferInstanceAs (Decidable (keys m).Nodup)

end GoMap

/-! ## Kubeconfig data model (`clientcmdapi`) -/

/-- The `clientcmdapi.Cluster` fields of a cluster entry. -/
structure Cluster where
  Server : String
  CertificateAuthorityData : List Nat
deriving DecidableEq, Repr

/-- The `clientcmdapi.AuthInfo` fields of a user entry. -/
structure AuthInfo where
  ClientCertificateData : List Nat
  ClientKeyData : List Nat
  Username : String
  Password : String
deriving DecidableEq, Repr

/-- The `clientcmdapi.Context` fields of a context entry. -/
structure Context where
  Cluster : String
  AuthInfo : String
  Namespace : String
deriving DecidableEq, Repr

/-- The `clientcmdapi.Config` object: three maps of pointers and the
current-context. -/
structure Config where
  Clusters : GoMap (Option Cluster)
  AuthInfos : GoMap (Option AuthInfo)
  Contexts : GoMap (Option Context)
  CurrentContext : String
deriving DecidableEq, Repr

/-- The kind of entry an "already exists" error speaks about: the word the
error message starts with. -/
inductive EntryKind where
  | cluster
  | authInfo
  | context
deriving DecidableEq, Repr

/-- An error that comes from the operating system or a library: whether
`os.IsNotExist` holds for it, and its message. -/
structure OSErr where
  notExist : Bool
  msg : String
deriving DecidableEq, Repr

/-- Errors returned by the kubeconfig functions. -/
inductive Err where
  /-- The error `fmt.Errorf("<Kind> '%s' already exists in target KubeConfig", k)`. -/
  | nameConflict (kind : EntryKind) (name : String)
  /-- Another error made with `fmt.Errorf`, with its message. -/
  | other (msg : String)
  /-- An error passed on from the operating system or a library. -/
  | os (e : OSErr)
deriving DecidableEq, Repr

/-- The word for an entry kind in an error message. -/
def EntryKind.word : EntryKind → String
  | .cluster => "Cluster"
  | .authInfo => "AuthInfo"
  | .context => "Context"

/-- The text of an error. -/
def Err.message : Err → String
  | .nameConflict kind name => kind.word ++ " '" ++ name ++ "' already exists in target KubeConfig"
  | .other msg => msg
  | .os e => e.msg

/-- Whether an error is a name conflict. -/
def Err.isNameConflict : Err → Bool
  | .nameConflict _ _ => true
  | _ => false

/-- The test `os.IsNotExist(err)`. -/
def Err.isNotExist : Err → Bool
  | .os e => e.notExist
  | _ => false

/-! ## File system and environment -/

/-- File contents. -/
abbrev Bytes := List Nat

/-- The part of the operating-system state the kubeconfig functions touch:
the regular files by path, and what has been written to standard output. -/
structure FS where
  files : GoMap Bytes
  stdout : Bytes
deriving DecidableEq, Repr

/-- An open `*os.File`: standard output or a file that was just created. -/
inductive Handle where
  | stdout
  | file (path : String)
deriving DecidableEq, Repr

/-- State after a handle has received `written` since it was opened. -/
def FS.put (fs : FS) : Handle → Bytes → FS
  | .stdout, written => { fs with stdout := fs.stdout ++ written }
  | .file path, written => { fs with files := fs.files.assign path written }

/-- State after `os.Rename(src, dst)` has succeeded. -/
def FS.rename (fs : FS) (src dst : String) : FS :=
  match fs.files.index src with
  | some content => { fs with files := (fs.files.del src).assign dst content }
  | none => fs

/-- Everything outside the program that its calls depend on: the clock, the
`clientcmd` serialiser, loader and loading rules, `path.Dir`, and which
system calls fail. -/
structure Env where
  /-- Result of `time.Now().Format("20060102_150405.000000")`. -/
  now : String
  /-- Result of `clientcmd.Write`. -/
  encode : Config → Except OSErr Bytes
  /-- Result of `clientcmd.LoadFromFile` in a given state. -/
  loadFromFile : FS → String → Except OSErr Config
  /-- Result of `path.Dir`. -/
  dir : String → String
  /-- Result of `GetLoadingPrecedence` of the default loading rules. -/
  loadingPrecedence : List String
  /-- Result of `GetDefaultFilename` of the default loading rules. -/
  defaultFilename : String
  /-- Error of `os.MkdirAll` on a directory, if it fails. -/
  mkdirAllErr : String → Option OSErr
  /-- Error of creating (or truncating) the file at a path, if it fails. -/
  createErr : String → Option OSErr
  /-- Failure of a write to the named file: the number of bytes that still
  get written, and the error. -/
  writeErr : String → Option (Nat × OSErr)
  /-- Error of `os.Rename`, if it fails. -/
  renameErr : String → String → Option OSErr

/-- A run of a function that works on the file system: the states it passes
through, one after each elementary step, and the error it returns. -/
structure Run where
  trace : List FS
  err : Option Err
deriving DecidableEq, Repr

/-- State in which a run that started in `init` ends. -/
def Run.final (r : Run) (init : FS) : FS := r.trace.getLastD init

/-- The states passed through while the first `n` bytes of `content` arrive at
a handle, one byte at a time. -/
def writeStates (fs : FS) (h : Handle) (content : Bytes) (n : Nat) : List FS :=
  (List.range n).map (fun i => fs.put h (content.take (i + 1)))

/-- Method `(*os.File).Write(content)` on a handle opened in state `fs`. -/
def fileWrite (env : Env) (h : Handle) (name : String) (content : Bytes) (fs : FS) : Run :=
  match env.writeErr name with
  | some (n, e) => ⟨writeStates fs h content (min n content.length), some (.os e)⟩
  | none => ⟨writeStates fs h content content.length, none⟩

/-- Library function `clientcmd.WriteToFile`: serialise, then write the file
(create or truncate it, then write the content). -/
def WriteToFile (env : Env) (config : Config) (filename : String) (fs : FS) : Run :=
  match env.encode config with
  | .error e => ⟨[], some (.os e)⟩
  | .ok content =>
    match env.createErr filename with
    | some e => ⟨[], some (.os e)⟩
    | none =>
      let fs1 := fs.put (.file filename) []
      let w := fileWrite env (.file filename) filename content fs1
      ⟨fs1 :: w.trace, w.err⟩

/-! ## `pkg/cluster/kubeconfig.go` -/

/-- Options for writing a kubeconfig file. -/
structure WriteKubeConfigOptions where
  UpdateExisting : Bool
  UpdateCurrentContext : Bool
  OverwriteExisting : Bool
deriving DecidableEq, Repr

/-- The `k3d.Cluster` fields read by the kubeconfig functions. -/
structure K3dCluster where
  Name : String
deriving DecidableEq, Repr

/-- Function `WriteKubeConfigToPath`: write a kubeconfig to a path, which can
be `-` for standard output. -/
def WriteKubeConfigToPath (env : Env) (kubeconfig : Config) (path : String) (fs : FS) : Run :=
  if path = "-" then
    match env.encode kubeconfig with
    | .error e => ⟨[], some (.os e)⟩
    | .ok kubeconfigBytes => fileWrite env .stdout "/dev/stdout" kubeconfigBytes fs
  else
    match env.createErr path with
    | some e => ⟨[], some (.os e)⟩
    | none =>
      let fs1 := fs.put (.file path) []
      match env.encode kubeconfig with
      | .error e => ⟨[fs1], some (.os e)⟩
      | .ok kubeconfigBytes =>
        let w := fileWrite env (.file path) path kubeconfigBytes fs1
        ⟨fs1 :: w.trace, w.err⟩

/-- Function `WriteKubeConfig`: write to a temporary file next to `path`, then
rename it over `path`. -/
def WriteKubeConfig (env : Env) (kubeconfig : Config) (path : String) (fs : FS) : Run :=
  let tempPath := path ++ ".k3d_" ++ env.now
  let w := WriteToFile env kubeconfig tempPath fs
  match w.err with
  | some e => ⟨w.trace, some e⟩
  | none =>
    match env.renameErr tempPath path with
    | some e => ⟨w.trace, some (.os e)⟩
    | none => ⟨w.trace ++ [(w.final fs).rename tempPath path], none⟩

/-- First loop of `UpdateKubeConfig`, over the entries of
`newKubeConfig.Clusters` still to visit: the target object after the loop and
the error with which the function returns from inside it, if it does. -/
def mergeClusters (overwriteConflicting : Bool) :
    List (String × Option Cluster) → Config → Config × Option Err
  | [], existing => (existing, none)
  | (k, v) :: rest, existing =>
    if (existing.Clusters.index k).isSome && !overwriteConflicting then
      (existing, some (.nameConflict .cluster k))
    else
      mergeClusters overwriteConflicting rest
        { existing with Clusters := existing.Clusters.assign k v }

/-- Second loop of `UpdateKubeConfig`, over `newKubeConfig.AuthInfos`. -/
def mergeAuthInfos (overwriteConflicting : Bool) :
    List (String × Option AuthInfo) → Config → Config × Option Err
  | [], existing => (existing, none)
  | (k, v) :: rest, existing =>
    if (existing.AuthInfos.index k).isSome && !overwriteConflicting then
      (existing, some (.nameConflict .authInfo k))
    else
      mergeAuthInfos overwriteConflicting rest
        { existing with AuthInfos := existing.AuthInfos.assign k v }

/-- Third loop of `UpdateKubeConfig`, over `newKubeConfig.Contexts`: it looks
the context name up in `existingKubeConfig.Clusters` and reports a cluster. -/
def mergeContexts (overwriteConflicting : Bool) :
    List (String × Option Context) → Config → Config × Option Err
  | [], existing => (existing, none)
  | (k, v) :: rest, existing =>
    if (existing.Clusters.index k).isSome && !overwriteConflicting then
      (existing, some (.nameConflict .cluster k))
    else
      mergeContexts overwriteConflicting rest
        { existing with Contexts := existing.Contexts.assign k v }

/-- What a call of `UpdateKubeConfig` leaves behind: the object
`*existingKubeConfig` as it is after the call, and the file-system run with
the returned error. -/
structure UpdateRun where
  existing : Config
  run : Run
deriving DecidableEq, Repr

/-- Function `UpdateKubeConfig`: merge a new kubeconfig into an existing one
and write the result to `outPath`. -/
def UpdateKubeConfig (env : Env) (newKubeConfig existingKubeConfig : Config) (outPath : String)
    (overwriteConflicting updateCurrentContext : Bool) (fs : FS) : UpdateRun :=
  match mergeClusters overwriteConflicting newKubeConfig.Clusters existingKubeConfig with
  | (ex1, some e) => ⟨ex1, ⟨[], some e⟩⟩
  | (ex1, none) =>
    match mergeAuthInfos overwriteConflicting newKubeConfig.AuthInfos ex1 with
    | (ex2, some e) => ⟨ex2, ⟨[], some e⟩⟩
    | (ex2, none) =>
      match mergeContexts overwriteConflicting newKubeConfig.Contexts ex2 with
      | (ex3, some e) => ⟨ex3, ⟨[], some e⟩⟩
      | (ex3, none) =>
        let updateCurrentContext :=
          if ex3.CurrentContext = "" then true else updateCurrentContext
        let ex4 :=
          if updateCurrentContext then
            { ex3 with CurrentContext := newKubeConfig.CurrentContext }
          else ex3
        ⟨ex4, WriteKubeConfig env ex4 outPath fs⟩

/-- Function `GetDefaultKubeConfigPath`: the path of the default kubeconfig,
or an error if the loading rules name more than one file. -/
def GetDefaultKubeConfigPath (env : Env) : Except Err String :=
  if env.loadingPrecedence.length > 1 then
    .error (.other "Multiple kubeconfigs specified via KUBECONFIG env var: Please reduce to one entry, unset KUBECONFIG or explicitly choose an output")
  else .ok env.defaultFilename

/-- The load loop of `GetAndWriteKubeConfig`, with `fuel` bounding the number
of iterations: the states passed through so far (`trace`) extended by the
loop, and the loaded kubeconfig or the error returned. `none` when the fuel
runs out. -/
def loadLoop (env : Env) (output : String) :
    Nat → Bool → FS → List FS → Option (List FS × Except Err Config)
  | 0, _, _, _ => none
  | fuel + 1, firstRun, fs, trace =>
    match env.loadFromFile fs output with
    | .ok existingKubeConfig => some (trace, .ok existingKubeConfig)
    | .error err =>
      if (Err.os err).isNotExist && firstRun then
        match env.mkdirAllErr (env.dir output) with
        | some e => some (trace, .error (.os e))
        | none =>
          match env.createErr output with
          | some e => some (trace, .error (.os e))
          | none =>
            let fs1 := fs.put (.file output) []
            loadLoop env output fuel false fs1 (trace ++ [fs1])
      else some (trace, .error (.os err))

/-- Function `GetAndWriteKubeConfig`, from the result of its call of
`GetKubeconfig` on: choose the output, then write directly or load the
existing file and merge. `none` when the fuel of the load loop runs out. -/
def GetAndWriteKubeConfig (env : Env) (fuel : Nat) (fetched : Except Err Config)
    (output : String) (writeKubeConfigOptions : WriteKubeConfigOptions) (fs : FS) :
    Option Run :=
  match fetched with
  | .error e => some ⟨[], some e⟩
  | .ok kubeconfig =>
    let chosen : Except Err String :=
      if output = "" then GetDefaultKubeConfigPath env else .ok output
    match chosen with
    | .error e => some ⟨[], some e⟩
    | .ok output =>
      if writeKubeConfigOptions.OverwriteExisting || output = "-" then
        some (WriteKubeConfigToPath env kubeconfig output fs)
      else
        match loadLoop env output fuel true fs [] with
        | none => none
        | some (trace, .error e) => some ⟨trace, some e⟩
        | some (trace, .ok existingKubeConfig) =>
          let u := UpdateKubeConfig env kubeconfig existingKubeConfig output
            writeKubeConfigOptions.UpdateExisting
            writeKubeConfigOptions.UpdateCurrentContext (trace.getLastD fs)
          some ⟨trace ++ u.run.trace, u.run.err⟩

/-- Function `RemoveClusterFromKubeConfig`; the constant
`k3d.DefaultObjectNamePrefix` of `pkg/types` is the first argument. -/
def RemoveClusterFromKubeConfig ( DefaultObjectNamePrefix : String) (cluster : K3dCluster)
    (kubeconfig : Config) : Config :=
  let clusterName := DefaultObjectNamePrefix ++ "-" ++ cluster.Name
  let contextName := DefaultObjectNamePrefix ++ "-" ++ cluster.Name
  let authInfoName := "admin@" ++ DefaultObjectNamePrefix ++ "-" ++ cluster.Name
  let kc1 : Config :=
    { kubeconfig with
      Contexts := kubeconfig.Contexts.del contextName
      Clusters := kubeconfig.Clusters.del clusterName
      AuthInfos := kubeconfig.AuthInfos.del authInfoName }
  if kc1.CurrentContext = contextName then
    let kc2 : Config :=
      match kc1.Contexts with
      | (k, _) :: _ => { kc1 with CurrentContext := k }
      | [] => kc1
    if kc2.CurrentContext = contextName then { kc2 with CurrentContext := "" } else kc2
  else kc1

/-! ## Specification vocabulary and sample inputs -/

/-- Map `old` overridden by map `new`, read at key `k`: the value of `new` if
`new` has the key, the value of `old` otherwise. -/
def GoMap.override {V : Type} (old new : GoMap V) (k : String) : Option V :=
  match new.index k with
  | some v => some v
  | none => old.index k

/-- A kubeconfig without entries and without current-context. -/
def emptyConfig : Config := ⟨[], [], [], ""⟩

/-- A kubeconfig of the shape `GetKubeconfig` returns for a cluster named `c`
under the name `k3d`: cluster and context share the name `k3d-c`. -/
def fetchedSample : Config :=
  { Clusters := [("k3d-c", some ⟨"https://0.0.0.0:6443", [1]⟩)]
    AuthInfos := [("admin@k3d-c", some ⟨[2], [3], "admin", "secret"⟩)]
    Contexts := [("k3d-c", some ⟨"k3d-c", "admin@k3d-c", ""⟩)]
    CurrentContext := "k3d-c" }

/-- A target kubeconfig that belongs to another tool. -/
def otherSample : Config :=
  { Clusters := [("prod", some ⟨"https://prod:443", [7]⟩)]
    AuthInfos := [("alice", some ⟨[8], [9], "alice", "pw"⟩)]
    Contexts := [("prod", some ⟨"prod", "alice", "default"⟩)]
    CurrentContext := "prod" }

/-- A kubeconfig whose current-context is `k3d-c` and which also holds a
context whose name is the empty string. -/
def emptyNameSample : Config :=
  { Clusters := [("k3d-c", some ⟨"https://0.0.0.0:6443", [1]⟩)]
    AuthInfos := [("admin@k3d-c", some ⟨[2], [3], "admin", "secret"⟩)]
    Contexts := [("k3d-c", some ⟨"k3d-c", "admin@k3d-c", ""⟩), ("", some ⟨"prod", "alice", ""⟩)]
    CurrentContext := "k3d-c" }

/-- A kubeconfig without any entry of cluster `c` whose current-context still
names the context `k3d-c`. -/
def danglingSample : Config :=
  { Clusters := [("prod", some ⟨"https://prod:443", [7]⟩)]
    AuthInfos := [("alice", some ⟨[8], [9], "alice", "pw"⟩)]
    Contexts := [("prod", some ⟨"prod", "alice", "default"⟩)]
    CurrentContext := "k3d-c" }

/-- A target kubeconfig whose only entry is a context named `dev`. -/
def contextOldSample : Config :=
  { Clusters := []
    AuthInfos := []
    Contexts := [("dev", some ⟨"old-cluster", "old-user", "old"⟩)]
    CurrentContext := "dev" }

/-- A new kubeconfig whose only entry is a context named `dev`. -/
def contextNewSample : Config :=
  { Clusters := []
    AuthInfos := []
    Contexts := [("dev", some ⟨"new-cluster", "new-user", "new"⟩)]
    CurrentContext := "dev" }

/-- A target kubeconfig whose only entry is a context named `k3d-c`. -/
def staleContextSample : Config :=
  { Clusters := []
    AuthInfos := []
    Contexts := [("k3d-c", some ⟨"gone", "nobody", ""⟩)]
    CurrentContext := "" }

/-- A file system whose file `/kube/config` holds three bytes. -/
def fsSample : FS :=
  { files := [("/kube/config", [9, 9, 9])]
    stdout := [] }

/-- An environment in which no call fails; a kubeconfig is serialised to the
sizes of its three maps followed by the characters of its current-context, and
every existing file loads as `otherSample`. -/
def quietEnv : Env :=
  { now := "20200101_000000.000000"
    encode := fun c =>
      .ok (c.Clusters.length :: c.AuthInfos.length :: c.Contexts.length ::
        c.CurrentContext.toList.map Char.toNat)
    loadFromFile := fun fs path =>
      match fs.files.index path with
      | some _ => .ok otherSample
      | none => .error ⟨true, "no such file or directory"⟩
    dir := fun path => path
    loadingPrecedence := []
    defaultFilename := "/home/user/.kube/config"
    mkdirAllErr := fun _ => none
    createErr := fun _ => none
    writeErr := fun _ => none
    renameErr := fun _ _ => none }

/-! ## `GetKubeconfig` (`pkg/cluster/kubeconfig.go`) -/

/-- How a Go function call ends: with a value, with an error result, with the
process exited by `log.Fatal`, or with a run-time panic. -/
inductive Outcome (ε α : Type) where
  | ok (a : α)
  | error (e : ε)
  | fatal (msg : String)
  | panic (msg : String)
deriving DecidableEq, Repr

/-- The `k3d.Node` fields read by the functions modelled here. -/
structure Node where
  Name : String
  Image : String
  Volumes : List String
  Env : List String
  Cmd : List String
  Args : List String
  Ports : List String
  Restart : Bool
  Labels : GoMap String
  Network : String
deriving DecidableEq, Repr

/-- The methods of the `runtimes.Runtime` interface that `GetKubeconfig` calls.
A reader returned by `GetKubeconfig` is given by what `ioutil.ReadAll` gets
from it. -/
structure Runtime where
  GetNodesByLabel : GoMap String → Except Err (List Node)
  GetKubeconfig : Node → Except Err (Except Err Bytes)

/-- Library function `bytes.Trim(b, "\x00")`: drop the NUL bytes at both ends. -/
def trimNul (b : Bytes) : Bytes :=
  ((b.dropWhile (fun x => x == 0)).reverse.dropWhile (fun x => x == 0)).reverse

/-- The loop of `GetKubeconfig` that prefers a master node with the API port
exposed, over the nodes still to visit: the chosen node (if any), `APIPort`
and `APIHost`. -/
def chooseMaster (DefaultAPIPort DefaultAPIHost : String) :
    List Node → Option Node × String × String
  | [] => (none, DefaultAPIPort, DefaultAPIHost)
  | master :: rest =>
    match master.Labels.index "k3d.master.api.port" with
    | some port =>
      match master.Labels.index "k3d.master.api.host" with
      | some host => (some master, port, host)
      | none => (some master, port, DefaultAPIHost)
    | none => chooseMaster DefaultAPIPort DefaultAPIHost rest

/-- The part "Modify the kubeconfig" of `GetKubeconfig` after parsing (lines
171 to 194): set the server URL, rename user, cluster and context from
`default`, point the context to the new names, set the current-context.
Writing through a `nil` entry panics. -/
def modifyKubeconfig ( DefaultObjectNamePrefix : String) (APIHost APIPort : String)
    (cluster : K3dCluster) (kc : Config) : Outcome Err Config :=
  match kc.Clusters.index "default" with
  | some (some dflt) =>
    let served : Cluster := { dflt with Server := "https://" ++ APIHost ++ ":" ++ APIPort }
    let kc1 : Config := { kc with Clusters := kc.Clusters.assign "default" (some served) }
    let newAuthInfoName := "admin@" ++ DefaultObjectNamePrefix ++ "-" ++ cluster.Name
    let users := kc1.AuthInfos.assign newAuthInfoName (kc1.AuthInfos.index "default").join
    let kc2 : Config := { kc1 with AuthInfos := users.del "default" }
    let newClusterName := DefaultObjectNamePrefix ++ "-" ++ cluster.Name
    let clusters := kc2.Clusters.assign newClusterName (kc2.Clusters.index "default").join
    let kc3 : Config := { kc2 with Clusters := clusters.del "default" }
    let newContextName := DefaultObjectNamePrefix ++ "-" ++ cluster.Name
    let contexts := kc3.Contexts.assign newContextName (kc3.Contexts.index "default").join
    let kc4 : Config := { kc3 with Contexts := contexts.del "default" }
    match kc4.Contexts.index newContextName with
    | some (some ctx) =>
      let pointed : Context := { ctx with AuthInfo := newAuthInfoName, Cluster := newClusterName }
      let kc5 : Config :=
        { kc4 with Contexts := kc4.Contexts.assign newContextName (some pointed) }
      .ok { kc5 with CurrentContext := newContextName }
    | _ => .panic "invalid memory address or nil pointer dereference"
  | _ => .panic "invalid memory address or nil pointer dereference"

/-- A call of `GetKubeconfig`: the nodes on which `runtime.GetKubeconfig` was
called, and how the call ends. -/
structure KubeconfigRun where
  fetchedFrom : List Node
  result : Outcome Err Config

/-- Function `GetKubeconfig`; `Load` is `clientcmd.Load`, and the constants
`DefaultObjectNamePrefix`, `MasterRole`, `DefaultAPIPort` and `DefaultAPIHost`
of `pkg/types` are arguments. -/
def GetKubeconfig (runtime : Runtime) (Load : Bytes → Except OSErr Config)
    ( DefaultObjectNamePrefix : String) (MasterRole DefaultAPIPort DefaultAPIHost : String)
    (cluster : K3dCluster) : KubeconfigRun :=
  match runtime.GetNodesByLabel [("k3d.cluster", cluster.Name), ("k3d.role", MasterRole)] with
  | .error e => ⟨[], .error e⟩
  | .ok masterNodes =>
    match masterNodes with
    | [] => ⟨[], .error (.other "Didn't find any master node")⟩
    | first :: _ =>
      match chooseMaster DefaultAPIPort DefaultAPIHost masterNodes with
      | (chosen, APIPort, APIHost) =>
        let chosenMaster := chosen.getD first
        match runtime.GetKubeconfig chosenMaster with
        | .error e => ⟨[chosenMaster], .error e⟩
        | .ok (.error e) => ⟨[chosenMaster], .error e⟩
        | .ok (.ok readBytes) =>
          if readBytes.length < 512 then
            ⟨[chosenMaster], .panic "slice bounds out of range"⟩
          else
            let trimBytes := trimNul (readBytes.drop 512)
            match Load trimBytes with
            | .error e => ⟨[chosenMaster], .error (.os e)⟩
            | .ok kc =>
              ⟨[chosenMaster],
                modifyKubeconfig DefaultObjectNamePrefix APIHost APIPort cluster kc⟩

/-- The first node of a list that carries the label `k3d.master.api.port`. -/
def firstWithAPIPort (nodes : List Node) : Option Node :=
  nodes.find? (fun n => (n.Labels.index "k3d.master.api.port").isSome)

/-- The server URL of the amended claim C12: host and port of the first node
that carries the label `k3d.master.api.port` (the default host if that node has
no label `k3d.master.api.host`), or the default host and the default port if no
node carries the port label, whatever host label the nodes carry. -/
def expectedServerURL (DefaultAPIPort DefaultAPIHost : String) (nodes : List Node) : String :=
  match firstWithAPIPort nodes with
  | some n =>
    "https://" ++ (n.Labels.index "k3d.master.api.host").getD DefaultAPIHost ++ ":" ++
      (n.Labels.index "k3d.master.api.port").getD DefaultAPIPort
  | none => "https://" ++ DefaultAPIHost ++ ":" ++ DefaultAPIPort

/-- A kubeconfig as k3s writes it: every entry is named `default`. -/
def defaultSample : Config :=
  { Clusters := [("default", some ⟨"https://127.0.0.1:6443", [1]⟩)]
    AuthInfos := [("default", some ⟨[2], [3], "admin", "secret"⟩)]
    Contexts := [("default", some ⟨"default", "default", ""⟩)]
    CurrentContext := "default" }

/-- A master node without API labels. -/
def plainMaster : Node :=
  { Name := "k3d-c-master-0", Image := "rancher/k3s", Volumes := [], Env := [], Cmd := [],
    Args := [], Ports := [], Restart := false,
    Labels := [("k3d.cluster", "c"), ("k3d.role", "master")], Network := "k3d-c" }

/-- A master node that exposes the API on `example.org:6550`. -/
def exposedMaster : Node :=
  { Name := "k3d-c-master-1", Image := "rancher/k3s", Volumes := [], Env := [], Cmd := [],
    Args := [], Ports := [], Restart := false,
    Labels := [("k3d.cluster", "c"), ("k3d.role", "master"),
      ("k3d.master.api.port", "6550"), ("k3d.master.api.host", "example.org")],
    Network := "k3d-c" }

/-- A runtime with the two sample masters; every node delivers a payload of
512 header bytes followed by three bytes. -/
def sampleRuntime : Runtime :=
  { GetNodesByLabel := fun _ => .ok [plainMaster, exposedMaster]
    GetKubeconfig := fun _ => .ok (.ok (List.replicate 512 0 ++ [7, 7, 7])) }

/-- A loader that parses every payload to `defaultSample`. -/
def sampleLoad : Bytes → Except OSErr Config := fun _ => .ok defaultSample

/-! ## Containers (`docker` API types) and `cli/container.go` -/

/-- A `nat.PortBinding`: host address and host port; the host port is `none`
when it is unset (the empty string). -/
structure PortBinding where
  HostIP : String
  HostPort : Option Int
deriving DecidableEq, Repr

/-- A `nat.PortMap`: container port (such as `6443/tcp`) to host bindings. -/
abbrev PortMap := GoMap (List PortBinding)

/-- The `container.Config` fields set by the functions modelled here;
`ExposedPorts` lists the keys of the port set. -/
structure ContainerConfig where
  Hostname : String
  Image : String
  Cmd : List String
  Env : List String
  Labels : GoMap String
  ExposedPorts : List String
deriving DecidableEq, Repr

/-- The `container.HostConfig` fields set by the functions modelled here;
`RestartPolicy` is the name of the restart policy. -/
structure HostConfig where
  PortBindings : PortMap
  Privileged : Bool
  RestartPolicy : String
  Binds : List String
  Tmpfs : GoMap String
  NetworkMode : String
deriving DecidableEq, Repr

/-- The `network.EndpointSettings` fields set by the functions modelled here. -/
structure EndpointSettings where
  Aliases : List String
deriving DecidableEq, Repr

/-- A `network.NetworkingConfig`: network name to endpoint settings. -/
structure NetworkingConfig where
  EndpointsConfig : GoMap EndpointSettings
deriving DecidableEq, Repr

/-- An error of the container engine: whether `client.IsErrNotFound` holds for
it, and its message. -/
structure DockerErr where
  notFound : Bool
  msg : String
deriving DecidableEq, Repr

/-- Errors returned by the functions of `cli/container.go`. -/
inductive RunErr where
  /-- An error made with `fmt.Errorf`, with its text. -/
  | errorf (text : String)
  /-- An error of the engine or of a helper, returned as it is. -/
  | engine (e : DockerErr)
deriving DecidableEq, Repr

/-- The text of an error, as `%+v` prints it. -/
def RunErr.text : RunErr → String
  | .errorf text => text
  | .engine e => e.msg

/-- The behaviour of the container engine seen through the `docker` client:
the result of each call. Container creation is given per attempt (0 for the
first `ContainerCreate` of a call of `startContainer`, 1 for the second). -/
structure Docker where
  newClientErr : Option DockerErr
  containerCreate : Nat → Except DockerErr String
  imagePull : String → Option DockerErr
  containerStart : String → Option DockerErr
  /-- Labels of the inspected container (`inspectResponse.Config.Labels`). -/
  containerInspect : String → Except DockerErr (GoMap String)
  /-- Names of the networks that match a label filter, in the order listed. -/
  networkList : String → Except DockerErr (List String)

/-- A request sent to the container engine. -/
inductive DockerCall where
  | create (containerName : String)
  | pull (image : String)
  | start (id : String)
  | inspect (name : String)
  | networkList (label : String)
deriving DecidableEq, Repr

/-- A call of `startContainer`: the requests sent to the engine, in order, and
the returned container ID or error. -/
structure StartRun where
  calls : List DockerCall
  result : Except RunErr String
deriving Repr

/-- The end of `startContainer`: start the created container. -/
def startCreated (docker : Docker) (calls : List DockerCall) (id : String) : StartRun :=
  match docker.containerStart id with
  | some e => ⟨calls ++ [.start id], .error (.engine e)⟩
  | none => ⟨calls ++ [.start id], .ok id⟩

/-- Function `startContainer`: create the container, pulling the image and
creating again if the image was not found, then start it. -/
def startContainer (docker : Docker) (_verbose : Bool) (config : ContainerConfig)
    (_hostConfig : HostConfig) (_networkingConfig : NetworkingConfig)
    (containerName : String) : StartRun :=
  match docker.newClientErr with
  | some e => ⟨[], .error (.errorf ("ERROR: couldn't create docker client\n" ++ e.msg))⟩
  | none =>
    match docker.containerCreate 0 with
    | .error err =>
      if err.notFound then
        match docker.imagePull config.Image with
        | some e =>
          ⟨[.create containerName, .pull config.Image],
            .error (.errorf ("ERROR: couldn't pull image " ++ config.Image ++ "\n" ++ e.msg))⟩
        | none =>
          match docker.containerCreate 1 with
          | .error e =>
            ⟨[.create containerName, .pull config.Image, .create containerName],
              .error (.errorf ("ERROR: couldn't create container after pull " ++
                containerName ++ "\n" ++ e.msg))⟩
          | .ok id =>
            startCreated docker
              [.create containerName, .pull config.Image, .create containerName] id
      else
        ⟨[.create containerName],
          .error (.errorf ("ERROR: couldn't create container " ++ containerName ++ "\n" ++
            err.msg))⟩
    | .ok id => startCreated docker [.create containerName] id

/-- The type `apiPort` of the `cli` package. -/
structure apiPort where
  Host : String
  HostIP : String
  Port : String
deriving DecidableEq, Repr

/-- The type `ClusterSpec`. -/
structure ClusterSpec where
  AgentArgs : List String
  APIPort : apiPort
  AutoRestart : Bool
  ClusterName : String
  Env : List String
  Image : String
  NodeToPortSpecMap : GoMap (List String)
  PortAutoOffset : Int
  ServerArgs : List String
  Verbose : Bool
  Volumes : List String
  AgentOnly : Bool
  ServerURL : String
deriving DecidableEq, Repr

/-- The type `PublishedPorts` of the `cli` package. -/
structure PublishedPorts where
  ExposedPorts : List String
  PortBindings : PortMap
deriving DecidableEq, Repr

/-- An offsetting of published ports for the sample environment: every host
port that is set is increased by the offset; container ports and unset host
ports stay. -/
def offsetHostPorts (p : PublishedPorts) (offset : Int) : PublishedPorts :=
  { ExposedPorts := p.ExposedPorts
    PortBindings := p.PortBindings.map (fun e =>
      (e.1, e.2.map (fun b => { b with HostPort := b.HostPort.map (fun n => n + offset) }))) }

/-- What `createServer` and `createWorker` use from outside `container.go`: the
clock, the helpers `GetContainerName`, `MergePortSpecs`, `CreatePublishedPorts`,
`k3dNetworkName` and the method `PublishedPorts.Offset` of the `cli` package,
and the container engine. -/
structure CliEnv where
  /-- Result of `time.Now().Format("2006-01-02 15:04:05")`. -/
  now : String
  GetContainerName : String → String → Int → String
  MergePortSpecs : GoMap (List String) → String → String → Except RunErr (List String)
  CreatePublishedPorts : List String → Except RunErr PublishedPorts
  Offset : PublishedPorts → Int → PublishedPorts
  k3dNetworkName : String → String
  docker : Docker

/-- The arguments with which `startContainer` is called. -/
structure ContainerRequest where
  config : ContainerConfig
  hostConfig : HostConfig
  networkingConfig : NetworkingConfig
  containerName : String
deriving DecidableEq, Repr

/-- A call of `createServer` or `createWorker`: the container it asked
`startContainer` for (if it got that far), the requests sent to the engine,
and how the call ends. -/
structure CreateRun where
  request : Option ContainerRequest
  calls : List DockerCall
  result : Outcome RunErr String
deriving Repr

/-- The value of `hostConfig.Binds` after
`if len(spec.Volumes) > 0 && spec.Volumes[0] != ""`. -/
def bindsOf (volumes : List String) : List String :=
  match volumes with
  | first :: _ => if first ≠ "" then volumes else []
  | [] => []

/-- Function `createServer`. -/
def createServer (env : CliEnv) (spec : ClusterSpec) : CreateRun :=
  let made : GoMap String := []
  let containerLabels : GoMap String :=
    (((made.assign "app" "k3d").assign "component" "server").assign "created" env.now).assign
      "cluster" spec.ClusterName
  let containerName := env.GetContainerName "server" spec.ClusterName (-1)
  match env.MergePortSpecs spec.NodeToPortSpecMap "server" containerName with
  | .error err => ⟨none, [], .error err⟩
  | .ok serverPorts =>
    let hostIP := if spec.APIPort.Host ≠ "" then spec.APIPort.HostIP else "0.0.0.0"
    let containerLabels :=
      if spec.APIPort.Host ≠ "" then
        (containerLabels.assign "apihost" "localhost").assign "apihost" spec.APIPort.Host
      else containerLabels.assign "apihost" "localhost"
    let apiPortSpec := hostIP ++ ":" ++ spec.APIPort.Port ++ ":" ++ spec.APIPort.Port ++ "/tcp"
    let serverPorts := serverPorts ++ [apiPortSpec]
    match env.CreatePublishedPorts serverPorts with
    | .error err =>
      ⟨none, [], .fatal ("Error: failed to parse port specs \n" ++ err.text)⟩
    | .ok serverPublishedPorts =>
      let hostConfig : HostConfig :=
        { PortBindings := serverPublishedPorts.PortBindings
          Privileged := true
          RestartPolicy := if spec.AutoRestart then "unless-stopped" else ""
          Binds := bindsOf spec.Volumes
          Tmpfs := []
          NetworkMode := "" }
      let networkingConfig : NetworkingConfig :=
        { EndpointsConfig := [(env.k3dNetworkName spec.ClusterName, ⟨[containerName]⟩)] }
      let config : ContainerConfig :=
        { Hostname := containerName
          Image := spec.Image
          Cmd := ["server"] ++ spec.ServerArgs
          ExposedPorts := serverPublishedPorts.ExposedPorts
          Env := spec.Env
          Labels := containerLabels }
      let started := startContainer env.docker spec.Verbose config hostConfig networkingConfig
        containerName
      match started.result with
      | .error err =>
        ⟨some ⟨config, hostConfig, networkingConfig, containerName⟩, started.calls,
          .error (.errorf ("ERROR: couldn't create container " ++ containerName ++ "\n" ++
            err.text))⟩
      | .ok id =>
        ⟨some ⟨config, hostConfig, networkingConfig, containerName⟩, started.calls, .ok id⟩

/-- The part of a string before its first colon: `strings.Split(s, ":")[0]`. -/
def beforeColon (s : String) : String :=
  String.mk (s.data.takeWhile (fun c => c ≠ ':'))

/-- The network part of `createWorker`: the engine requests made, and the
environment and networking configuration for the container, or the error or
panic with which `createWorker` ends. -/
def workerNetwork (env : CliEnv) (spec : ClusterSpec) (containerName : String) :
    List DockerCall × Outcome RunErr (List String × NetworkingConfig) :=
  if spec.AgentOnly && spec.ServerURL ≠ "" then
    match env.docker.newClientErr with
    | some err => ([], .error (.engine err))
    | none =>
      let serverName := beforeColon spec.ServerURL
      match env.docker.containerInspect serverName with
      | .error err => ([.inspect serverName], .error (.engine err))
      | .ok labels =>
        let serverClusterName := (labels.index "cluster").getD ""
        match env.docker.networkList ("cluster=" ++ serverClusterName) with
        | .error err =>
          ([.inspect serverName, .networkList ("cluster=" ++ serverClusterName)],
            .error (.engine err))
        | .ok serverNetworks =>
          match serverNetworks with
          | [] =>
            ([.inspect serverName, .networkList ("cluster=" ++ serverClusterName)],
              .panic "index out of range [0] with length 0")
          | network :: _ =>
            ([.inspect serverName, .networkList ("cluster=" ++ serverClusterName)],
              .ok (spec.Env, ⟨[(network, ⟨[]⟩)]⟩))
  else
    ([], .ok (spec.Env ++
        ["K3S_URL=https://k3d-" ++ spec.ClusterName ++ "-server:" ++ spec.APIPort.Port],
      ⟨[(env.k3dNetworkName spec.ClusterName, ⟨[containerName]⟩)]⟩))

/-- The value a Go `int` of 64 bits holds for the result of an arithmetic
operation whose mathematical value is `n`: `n` wrapped into the range from
`-2^63` to `2^63 - 1`. -/
def wrapInt64 (n : Int) : Int :=
  (n + 9223372036854775808) % 18446744073709551616 - 9223372036854775808

/-- Function `createWorker`: create and start the agent node with ordinal
`suffix`. The sum `postfix + spec.PortAutoOffset` is a sum of Go `int`s. -/
def createWorker (env : CliEnv) (spec : ClusterSpec) (suffix : Int) : CreateRun :=
  let made : GoMap String := []
  let containerLabels : GoMap String :=
    (((made.assign "app" "k3d").assign "component" "worker").assign "created" env.now).assign
      "cluster" spec.ClusterName
  let containerName := env.GetContainerName "worker" spec.ClusterName suffix
  match env.MergePortSpecs spec.NodeToPortSpecMap "worker" containerName with
  | .error err => ⟨none, [], .error err⟩
  | .ok workerPorts =>
    match env.CreatePublishedPorts workerPorts with
    | .error err => ⟨none, [], .error err⟩
    | .ok resolved =>
      let workerPublishedPorts :=
        if spec.PortAutoOffset > 0 then
          env.Offset resolved (wrapInt64 (suffix + spec.PortAutoOffset))
        else resolved
      let hostConfig : HostConfig :=
        { Tmpfs := [("/run", ""), ("/var/run", "")]
          PortBindings := workerPublishedPorts.PortBindings
          Privileged := true
          RestartPolicy := if spec.AutoRestart then "unless-stopped" else ""
          Binds := bindsOf spec.Volumes
          NetworkMode := "" }
      match workerNetwork env spec containerName with
      | (calls, .error err) => ⟨none, calls, .error err⟩
      | (calls, .fatal msg) => ⟨none, calls, .fatal msg⟩
      | (calls, .panic msg) => ⟨none, calls, .panic msg⟩
      | (calls, .ok (workerEnv, networkingConfig)) =>
        let config : ContainerConfig :=
          { Hostname := containerName
            Image := spec.Image
            Env := workerEnv
            Cmd := ["agent"] ++ spec.AgentArgs
            Labels := containerLabels
            ExposedPorts := workerPublishedPorts.ExposedPorts }
        let started := startContainer env.docker spec.Verbose config hostConfig
          networkingConfig containerName
        match started.result with
        | .error err =>
          ⟨some ⟨config, hostConfig, networkingConfig, containerName⟩,
            calls ++ started.calls,
            .error (.errorf ("ERROR: couldn't start container " ++ containerName ++ "\n" ++
              err.text))⟩
        | .ok id =>
          ⟨some ⟨config, hostConfig, networkingConfig, containerName⟩,
            calls ++ started.calls, .ok id⟩

/-! ## `pkg/runtimes/runtime.go`, `cmd/stop/stopCluster.go`, `pkg/runtimes/docker/translate.go` -/

/-- The implementations of the `Runtime` interface that are registered in the
map `Runtimes`. -/
inductive RuntimeImpl where
  | Docker
  | Containerd
  | K3c
deriving DecidableEq, Repr

/-- The map `Runtimes` of implemented k3d runtimes. -/
def Runtimes : GoMap RuntimeImpl :=
  [("docker", .Docker), ("containerd", .Containerd), ("k3c", .K3c)]

/-- Function `GetRuntime`: the runtime registered under a name, or an error. -/
def GetRuntime (rt : String) : Except Err RuntimeImpl :=
  match Runtimes.index rt with
  | some runtime => .ok runtime
  | none => .error (.other ("Runtime '" ++ rt ++ "' not supported"))

/-- A run of the stop-cluster command: the clusters on which `StopCluster` was
invoked, in order, and the error with which `log.Fatalln` ended the process,
if it did. The command makes no other call that touches a cluster. -/
structure StopRun where
  invoked : List K3dCluster
  fatal : Option Err
deriving DecidableEq, Repr

/-- The loop of the `Run` function of `NewCmdStopCluster` over the clusters
still to stop; `StopCluster` gives the result of `cluster.StopCluster(c,
runtime)`. -/
def stopLoop (StopCluster : K3dCluster → Option Err) : List K3dCluster → StopRun
  | [] => ⟨[], none⟩
  | c :: rest =>
    match StopCluster c with
    | some err => ⟨[c], some err⟩
    | none => ⟨c :: (stopLoop StopCluster rest).invoked, (stopLoop StopCluster rest).fatal⟩

/-- The `Run` function of `NewCmdStopCluster`, from the parsed clusters on. -/
def stopClusterRun (StopCluster : K3dCluster → Option Err) (clusters : List K3dCluster) :
    StopRun :=
  if clusters.length = 0 then ⟨[], none⟩ else stopLoop StopCluster clusters

/-- The type `NodeInDocker`: a node as the three parts of a container. -/
structure NodeInDocker where
  ContainerConfig : ContainerConfig
  HostConfig : HostConfig
  NetworkingConfig : NetworkingConfig
deriving DecidableEq, Repr

/-- What `TranslateNodeToContainer` uses from outside `translate.go`: the
library function `nat.ParsePortSpecs` (exposed ports and bindings, or an
error), the function `GetNetwork` of the package (the driver of the network,
or an error) and the constant `k3d.DefaultTmpfsMounts`. -/
structure TranslateEnv where
  ParsePortSpecs : List String → Except Err (List String × PortMap)
  GetNetwork : String → Except Err String
  DefaultTmpfsMounts : List String

/-- Function `TranslateNodeToContainer`. -/
def TranslateNodeToContainer (env : TranslateEnv) (node : Node) : Except Err NodeInDocker :=
  let noCmd : List String := []
  let noTmpfs : GoMap String := []
  let tmpfs := env.DefaultTmpfsMounts.foldl (fun m mnt => m.assign mnt "") noTmpfs
  match env.ParsePortSpecs node.Ports with
  | .error err => .error err
  | .ok (exposedPorts, portBindings) =>
    let networkMode :=
      match env.GetNetwork node.Network with
      | .error _ => ""
      | .ok driver => if driver = "host" then "host" else ""
    .ok
      { ContainerConfig :=
          { Hostname := node.Name
            Image := node.Image
            Cmd := (noCmd ++ node.Cmd) ++ node.Args
            Env := node.Env
            Labels := node.Labels
            ExposedPorts := exposedPorts }
        HostConfig :=
          { RestartPolicy := if node.Restart then "unless-stopped" else ""
            Tmpfs := tmpfs
            Privileged := true
            Binds := node.Volumes
            PortBindings := portBindings
            NetworkMode := networkMode }
        NetworkingConfig := { EndpointsConfig := [(node.Network, ⟨[]⟩)] } }

/-! ## Sample inputs for the container functions -/

/-- An engine on which creation, pull and start succeed; the created container
has the ID `id-1`; the only container that can be inspected is
`k3d-other-server`, of cluster `other`, and the only network listed, for the
label `cluster=other`, is `k3d-other`. -/
def sampleDocker : Docker :=
  { newClientErr := none
    containerCreate := fun _ => .ok "id-1"
    imagePull := fun _ => none
    containerStart := fun _ => none
    containerInspect := fun name =>
      if name = "k3d-other-server" then .ok [("cluster", "other")]
      else .error ⟨true, "No such container"⟩
    networkList := fun label => if label = "cluster=other" then .ok ["k3d-other"] else .ok [] }

/-- An environment with simple helpers: the container name is
`k3d-<cluster>-<role>`, the port specs of the role are resolved, every port
spec is bound to host port 8080, and offsetting adds to the host ports. -/
def sampleCliEnv : CliEnv :=
  { now := "2020-01-01 00:00:00"
    GetContainerName := fun role cluster _ => "k3d-" ++ cluster ++ "-" ++ role
    MergePortSpecs := fun m role _ => .ok ((m.index role).getD [])
    CreatePublishedPorts := fun specs =>
      .ok ⟨specs, specs.map (fun s => (s, [⟨"0.0.0.0", some 8080⟩]))⟩
    Offset := offsetHostPorts
    k3dNetworkName := fun cluster => "k3d-" ++ cluster
    docker := sampleDocker }

/-- A cluster specification with one worker port and no port offset. -/
def sampleSpec : ClusterSpec :=
  { AgentArgs := []
    APIPort := ⟨"", "", "6443"⟩
    AutoRestart := false
    ClusterName := "c"
    Env := ["A=1"]
    Image := "rancher/k3s"
    NodeToPortSpecMap := [("worker", ["8080:80"])]
    PortAutoOffset := 0
    ServerArgs := []
    Verbose := false
    Volumes := []
    AgentOnly := false
    ServerURL := "" }

/-- An environment for translating nodes in which every port list parses to
no ports. -/
def sampleTranslateEnv : TranslateEnv :=
  { ParsePortSpecs := fun _ => .ok ([], [])
    GetNetwork := fun _ => .ok "bridge"
    DefaultTmpfsMounts := ["/run", "/var/run"] }

/-- Whether a request is a container creation. -/
def DockerCall.isCreate : DockerCall → Bool
  | .create _ => true
  | _ => false

/-- Whether a request is an image pull. -/
def DockerCall.isPull : DockerCall → Bool
  | .pull _ => true
  | _ => false

/-- The number of container creations among a list of requests. -/
def creations (calls : List DockerCall) : Nat := (calls.filter DockerCall.isCreate).length

/-- The number of image pulls among a list of requests. -/
def pulls (calls : List DockerCall) : Nat := (calls.filter DockerCall.isPull).length

/-- An engine on which the first creation fails because the image is missing,
and the pull and the second creation succeed. -/
def missingImageDocker : Docker :=
  { newClientErr := none
    containerCreate := fun n => if n = 0 then .error ⟨true, "No such image"⟩ else .ok "id-2"
    imagePull := fun _ => none
    containerStart := fun _ => none
    containerInspect := fun _ => .ok []
    networkList := fun _ => .ok [] }

/-- The sample container of the witnesses. -/
def sampleContainerConfig : ContainerConfig :=
  { Hostname := "k3d-c-server", Image := "rancher/k3s", Cmd := ["server"], Env := [],
    Labels := [], ExposedPorts := [] }

/-- The sample host configuration of the witnesses. -/
def sampleHostConfig : HostConfig :=
  { PortBindings := [], Privileged := true, RestartPolicy := "", Binds := [], Tmpfs := [],
    NetworkMode := "" }

/-- The sample specification with a port offset of 100. -/
def offsetSpec : ClusterSpec := { sampleSpec with PortAutoOffset := 100 }

/-- The sample specification of an agent that joins the server at
`k3d-other-server:6443`. -/
def agentOnlySpec : ClusterSpec :=
  { sampleSpec with AgentOnly := true, ServerURL := "k3d-other-server:6443" }

/-- The sample specification of an agent that names a server container which
the sample engine does not know. -/
def unknownServerSpec : ClusterSpec :=
  { sampleSpec with AgentOnly := true, ServerURL := "k3d-gone-server:6443" }

/-- The sample environment with an engine that lists no network. -/
def noNetworkCliEnv : CliEnv :=
  { sampleCliEnv with docker := { sampleDocker with networkList := fun _ => .ok [] } }

/-- The sample environment resolves the worker port spec `8080:80` to this. -/
def resolvedSample : PublishedPorts :=
  ⟨["8080:80"], [("8080:80", [⟨"0.0.0.0", some 8080⟩])]⟩

/-- A master node with a command, arguments, volumes and auto-restart. -/
def restartNode : Node :=
  { Name := "k3d-c-master-0", Image := "rancher/k3s", Volumes := ["/tmp:/data"],
    Env := ["A=1"], Cmd := ["server"], Args := ["--tls-san", "0.0.0.0"], Ports := [],
    Restart := true, Labels := [("k3d.role", "master")], Network := "k3d-c" }

/-! ## Sample inputs for the last claims -/

/-- A runtime whose master node delivers a payload of three bytes. -/
def shortPayloadRuntime : Runtime :=
  { GetNodesByLabel := fun _ => .ok [plainMaster]
    GetKubeconfig := fun _ => .ok (.ok [1, 2, 3]) }

/-- A loader that parses every payload to a kubeconfig without entries, as
`clientcmd.Load` does for an empty payload. -/
def emptyLoad : Bytes → Except OSErr Config := fun _ => .ok emptyConfig

/-- A new kubeconfig with a cluster `staging`, which `otherSample` does not
have, and a user `alice`, which `otherSample` has. -/
def conflictingUserSample : Config :=
  { Clusters := [("staging", some ⟨"https://staging:443", [4]⟩)]
    AuthInfos := [("alice", some ⟨[5], [6], "alice", "other"⟩)]
    Contexts := []
    CurrentContext := "" }

/-- A file system without files. -/
def noFileFS : FS := { files := [], stdout := [] }

/-- A master node that carries the API host label but not the port label. -/
def hostOnlyMaster : Node :=
  { Name := "k3d-c-master-0", Image := "rancher/k3s", Volumes := [], Env := [], Cmd := [],
    Args := [], Ports := [], Restart := false,
    Labels := [("k3d.cluster", "c"), ("k3d.role", "master"),
      ("k3d.master.api.host", "example.org")],
    Network := "k3d-c" }

/-- A runtime whose only master is `hostOnlyMaster`, with a payload of 512
header bytes followed by three bytes. -/
def hostOnlyRuntime : Runtime :=
  { GetNodesByLabel := fun _ => .ok [hostOnlyMaster]
    GetKubeconfig := fun _ => .ok (.ok (List.replicate 512 0 ++ [7, 7, 7])) }

/-! ## `UpdateKubeConfig` on a target whose maps may be nil -/

/-- A `clientcmdapi.Config` object whose maps may be `nil` (`none`), as in the
zero value `Config{}`; `clientcmd.LoadFromFile` and `NewConfig` return objects
with the three maps allocated. -/
structure NilableConfig where
  Clusters : Option (GoMap (Option Cluster))
  AuthInfos : Option (GoMap (Option AuthInfo))
  Contexts : Option (GoMap (Option Context))
  CurrentContext : String
deriving DecidableEq, Repr

/-- A kubeconfig with its three maps allocated. -/
def NilableConfig.ofConfig (c : Config) : NilableConfig :=
  { Clusters := some c.Clusters
    AuthInfos := some c.AuthInfos
    Contexts := some c.Contexts
    CurrentContext := c.CurrentContext }

/-- The entries of a kubeconfig, as reading and serialising see them: a nil map
has no entries. -/
def NilableConfig.toConfig (c : NilableConfig) : Config :=
  { Clusters := c.Clusters.getD []
    AuthInfos := c.AuthInfos.getD []
    Contexts := c.Contexts.getD []
    CurrentContext := c.CurrentContext }

/-- Map index `v, ok := m[k]` on a map that may be nil: a nil map has no key. -/
def nilIndex {V : Type} (m : Option (GoMap V)) (k : String) : Option V :=
  match m with
  | some entries => entries.index k
  | none => none

/-- First loop of `UpdateKubeConfig` on a target whose maps may be nil: the
assignment `existingKubeConfig.Clusters[k] = v` panics on a nil map. -/
def mergeClustersNilable (overwriteConflicting : Bool) :
    List (String × Option Cluster) → NilableConfig → NilableConfig × Outcome Err Unit
  | [], existing => (existing, .ok ())
  | (k, v) :: rest, existing =>
    if (nilIndex existing.Clusters k).isSome && !overwriteConflicting then
      (existing, .error (.nameConflict .cluster k))
    else
      match existing.Clusters with
      | none => (existing, .panic "assignment to entry in nil map")
      | some entries =>
        mergeClustersNilable overwriteConflicting rest
          { existing with Clusters := some (entries.assign k v) }

/-- Second loop of `UpdateKubeConfig` on a target whose maps may be nil. -/
def mergeAuthInfosNilable (overwriteConflicting : Bool) :
    List (String × Option AuthInfo) → NilableConfig → NilableConfig × Outcome Err Unit
  | [], existing => (existing, .ok ())
  | (k, v) :: rest, existing =>
    if (nilIndex existing.AuthInfos k).isSome && !overwriteConflicting then
      (existing, .error (.nameConflict .authInfo k))
    else
      match existing.AuthInfos with
      | none => (existing, .panic "assignment to entry in nil map")
      | some entries =>
        mergeAuthInfosNilable overwriteConflicting rest
          { existing with AuthInfos := some (entries.assign k v) }

/-- Third loop of `UpdateKubeConfig` on a target whose maps may be nil; like
`mergeContexts` it looks the context name up in the clusters. -/
def mergeContextsNilable (overwriteConflicting : Bool) :
    List (String × Option Context) → NilableConfig → NilableConfig × Outcome Err Unit
  | [], existing => (existing, .ok ())
  | (k, v) :: rest, existing =>
    if (nilIndex existing.Clusters k).isSome && !overwriteConflicting then
      (existing, .error (.nameConflict .cluster k))
    else
      match existing.Contexts with
      | none => (existing, .panic "assignment to entry in nil map")
      | some entries =>
        mergeContextsNilable overwriteConflicting rest
          { existing with Contexts := some (entries.assign k v) }

/-- What a call of `UpdateKubeConfig` on a target whose maps may be nil leaves
behind: the target object after the call, the file-system states passed
through, and how the call ends. -/
structure NilableUpdateRun where
  existing : NilableConfig
  trace : List FS
  result : Outcome Err Unit
deriving DecidableEq, Repr

/-- How a function that returns only an error ends. -/
def Outcome.ofErr (err : Option Err) : Outcome Err Unit :=
  match err with
  | some e => .error e
  | none => .ok ()

/-- Function `UpdateKubeConfig` on a target whose maps may be nil. A nil map of
the new kubeconfig is ranged over like an empty one, so the new kubeconfig is
given by its entries. -/
def UpdateKubeConfigNilable (env : Env) (newKubeConfig : Config)
    (existingKubeConfig : NilableConfig) (outPath : String)
    (overwriteConflicting updateCurrentContext : Bool) (fs : FS) : NilableUpdateRun :=
  match mergeClustersNilable overwriteConflicting newKubeConfig.Clusters existingKubeConfig with
  | (ex1, .ok _) =>
    match mergeAuthInfosNilable overwriteConflicting newKubeConfig.AuthInfos ex1 with
    | (ex2, .ok _) =>
      match mergeContextsNilable overwriteConflicting newKubeConfig.Contexts ex2 with
      | (ex3, .ok _) =>
        let updateCurrentContext :=
          if ex3.CurrentContext = "" then true else updateCurrentContext
        let ex4 :=
          if updateCurrentContext then
            { ex3 with CurrentContext := newKubeConfig.CurrentContext }
          else ex3
        let written := WriteKubeConfig env ex4.toConfig outPath fs
        ⟨ex4, written.trace, Outcome.ofErr written.err⟩
      | (ex3, stopped) => ⟨ex3, [], stopped⟩
    | (ex2, stopped) => ⟨ex2, [], stopped⟩
  | (ex1, stopped) => ⟨ex1, [], stopped⟩

/-- The zero value `Config{}`: every map is nil. -/
def zeroConfig : NilableConfig :=
  { Clusters := none, AuthInfos := none, Contexts := none, CurrentContext := "" }

/-! ## `cli/image.go` -/

/-- The `types.Container` fields read by `importImage` and `ctrImageImport`. -/
structure Container where
  ID : String
  Names : List String
deriving DecidableEq, Repr

/-- The fields of the type `cluster` of the `cli` package read by
`importImage`. -/
structure ClusterContainers where
  server : Container
  workers : List Container
deriving DecidableEq, Repr

/-- What `importImage` and `ctrImageImport` use from outside `image.go`: the
clock, the helpers `getClusterDir` and `getClusters` of the `cli` package (with
the message of their error), the file system calls, and the container engine.
An attached exec connection is given by the output `ioutil.ReadAll` reads from
it and the error of that read, if any; when `ContainerExecAttach` fails the
client returns the zero `HijackedResponse`, whose `Reader` and `Conn` are nil. -/
structure ImportEnv where
  newEnvClientErr : Option DockerErr
  getClusterDir : String → Except String String
  imageSaveErr : List String → Option DockerErr
  /-- Result of `time.Now().Format("20060102150405")`. -/
  now : String
  createErr : String → Option OSErr
  copyErr : Option OSErr
  getClusters : String → Except String (GoMap ClusterContainers)
  /-- Error of `client.NewEnvClient` in the import unit of a container. -/
  unitClientErr : String → Option DockerErr
  execCreate : String → Except DockerErr String
  execAttach : String → Except DockerErr (String × Option OSErr)
  execStartErr : String → Option DockerErr
  removeErr : String → Option OSErr

/-- Library function `strings.Contains`. -/
def stringsContains (s substr : String) : Bool :=
  s.data.tails.any (fun t => substr.data.isPrefixOf t)

/-- The constant `imageBasePathRemote`. -/
def imageBasePathRemote : String := "/images/"

/-- Function `ctrImageImport`, one import unit: the errors it logs, or the
panic with which it ends. Every error is only logged and the function goes on;
after a failed `ContainerExecAttach` it goes on with the zero connection, and
`ioutil.ReadAll(containerConnection.Reader)` dereferences the nil reader. -/
def ctrImageImport (env : ImportEnv) (container : Container) (imageTarPath : String)
    (_images : List String) : Outcome Err (List String) :=
  let clientLog : List String :=
    match env.unitClientErr container.ID with
    | some e => ["ERROR: couldn't create docker client\n" ++ e.msg]
    | none => []
  let _cmd := ["ctr", "image", "import", imageTarPath]
  match container.Names with
  | [] => .panic "index out of range [0] with length 0"
  | name :: _ =>
    if name = "" then .panic "slice bounds out of range [1:0]"
    else
      let containerName := String.mk (name.data.drop 1)
      match env.unitClientErr container.ID with
      | some _ => .panic "invalid memory address or nil pointer dereference"
      | none =>
        let created : String × List String :=
          match env.execCreate container.ID with
          | .error e =>
            ("", ["ERROR: Failed to create exec command for container [" ++ containerName ++
              "]\n" ++ e.msg])
          | .ok execID => (execID, [])
        match env.execAttach created.1 with
        | .error _ => .panic "invalid memory address or nil pointer dereference"
        | .ok (content, readErr) =>
          let startLog : List String :=
            match env.execStartErr created.1 with
            | some e =>
              ["ERROR: couldn't execute command in container [" ++ containerName ++ "]\n" ++
                e.msg]
            | none => []
          let readLog : List String :=
            match readErr with
            | some e =>
              ["ERROR: couldn't read output from container [" ++ containerName ++ "]\n" ++
                e.msg]
            | none => []
          let markerLog : List String :=
            if !stringsContains content "done" then
              ["ERROR: seems like something went wrong using `ctr image import` in container [" ++
                containerName ++ "]. Full output below:\n" ++ content]
            else []
          .ok (clientLog ++ created.2 ++ startLog ++ readLog ++ markerLog)

/-- Whether a call ended with a panic. -/
def Outcome.isPanic {ε α : Type} : Outcome ε α → Bool
  | .panic _ => true
  | _ => false

/-- The message of a panic. -/
def Outcome.panicMsg {ε α : Type} : Outcome ε α → String
  | .panic msg => msg
  | _ => ""

/-- A call of `importImage`: the outcome of the import unit of each container,
by container ID; whether `os.Remove` was called on the archive; and how the
call ends. -/
structure ImportRun where
  units : List (String × Outcome Err (List String))
  removed : Bool
  result : Outcome Err Unit
deriving DecidableEq, Repr

/-- Function `importImage`. The import units run as goroutines that share
nothing and are joined by `waitGroup.Wait()`; here they run one after another
in list order. A panic in a goroutine ends the process, so `waitGroup.Wait()`
does not return and the clean-up is not reached. -/
def importImage (env : ImportEnv) (clusterName : String) (images : List String) : ImportRun :=
  match env.newEnvClientErr with
  | some e => ⟨[], false, .error (.other ("ERROR: couldn't create docker client\n" ++ e.msg))⟩
  | none =>
    match env.getClusterDir clusterName with
    | .error msg =>
      ⟨[], false, .error (.other ("ERROR: couldn't get cluster directory for cluster [" ++
        clusterName ++ "]\n" ++ msg))⟩
    | .ok dir =>
      let imageBasePathLocal := dir ++ "/images/"
      match env.imageSaveErr images with
      | some e =>
        ⟨[], false, .error (.other ("ERROR: failed to save images locally\n" ++ e.msg))⟩
      | none =>
        let imageTarName := "k3d-" ++ clusterName ++ "-images-" ++ env.now ++ ".tar"
        match env.createErr (imageBasePathLocal ++ imageTarName) with
        | some e => ⟨[], false, .error (.os e)⟩
        | none =>
          match env.copyErr with
          | some e =>
            ⟨[], false, .error (.other ("ERROR: couldn't save image to file [" ++
              imageBasePathLocal ++ imageTarName ++ "]\n" ++ e.msg))⟩
          | none =>
            match env.getClusters clusterName with
            | .error msg =>
              ⟨[], false, .error (.other ("ERROR: couldn't get cluster by name [" ++
                clusterName ++ "]\n" ++ msg))⟩
            | .ok clusters =>
              let found := (clusters.index clusterName).getD ⟨⟨"", []⟩, []⟩
              let containerList := [found.server] ++ found.workers
              let units := containerList.map (fun container =>
                (container.ID,
                  ctrImageImport env container (imageBasePathRemote ++ imageTarName) images))
              match units.find? (fun u => u.2.isPanic) with
              | some u => ⟨units, false, .panic u.2.panicMsg⟩
              | none =>
                match env.removeErr (imageBasePathLocal ++ imageTarName) with
                | some e =>
                  ⟨units, true, .error (.other ("ERROR: Couldn't remove tarball [" ++
                    imageBasePathLocal ++ imageTarName ++ "]\n" ++ e.msg))⟩
                | none => ⟨units, true, .ok ()⟩

/-- An environment for `importImage` in which every call succeeds and every
unpack output ends with `done`, except that attaching to the exec of the worker
`w1` fails. The cluster `c` has the server `s1` and the worker `w1`. -/
def attachFailsEnv : ImportEnv :=
  { newEnvClientErr := none
    getClusterDir := fun name => .ok ("/home/user/.config/k3d/" ++ name)
    imageSaveErr := fun _ => none
    now := "20200101000000"
    createErr := fun _ => none
    copyErr := none
    getClusters := fun _ =>
      .ok [("c", ⟨⟨"s1", ["/k3d-c-server"]⟩, [⟨"w1", ["/k3d-c-worker-0"]⟩]⟩)]
    unitClientErr := fun _ => none
    execCreate := fun id => .ok ("exec-" ++ id)
    execAttach := fun execID =>
      if execID = "exec-w1" then .error ⟨false, "connection refused"⟩
      else .ok ("unpacking image...done", none)
    execStartErr := fun _ => none
    removeErr := fun _ => none }

/-- The same environment, except that the unpack output of the worker `w1`
lacks the completion marker and its exec start fails. -/
def markerMissingEnv : ImportEnv :=
  { attachFailsEnv with
    execAttach := fun execID =>
      if execID = "exec-w1" then .ok ("unpacking image...failed", none)
      else .ok ("unpacking image...done", none)
    execStartErr := fun execID =>
      if execID = "exec-w1" then some ⟨false, "exec failed"⟩ else none }

/-! ## Go maps: lemmas -/

namespace GoMap

variable {V : Type}

theorem index_assign_self (m : GoMap V) (k : String) (v : V) :
    (m.assign k v).index k = some v := by
  induction m with
  | nil => simp [assign, index]
  | cons e rest ih =>
    obtain ⟨k', v'⟩ := e
    by_cases h : k' = k
    · simp [assign, index, h]
    · simp [assign, index, h, ih]

theorem index_assign_ne (m : GoMap V) {k k' : String} (v : V) (h : k ≠ k') :
    (m.assign k v).index k' = m.index k' := by
  induction m with
  | nil => simp [assign, index, h]
  | cons e rest ih =>
    obtain ⟨k0, v0⟩ := e
    by_cases h0 : k0 = k
    · subst h0
      simp [assign, index, h]
    · by_cases h1 : k0 = k'
      · subst h1
        simp [assign, index, h0]
      · simp [assign, index, h0, h1, ih]

theorem index_del_self (m : GoMap V) (k : String) : (m.del k).index k = none := by
  induction m with
  | nil => simp [del, index]
  | cons e rest ih =>
    obtain ⟨k0, v0⟩ := e
    by_cases h0 : k0 = k
    · simpa [del, List.filter_cons, h0] using ih
    · simpa [del, List.filter_cons, h0, index] using ih

theorem index_del_ne (m : GoMap V) {k k' : String} (h : k' ≠ k) :
    (m.del k).index k' = m.index k' := by
  induction m with
  | nil => simp [del, index]
  | cons e rest ih =>
    obtain ⟨k0, v0⟩ := e
    by_cases h0 : k0 = k
    · subst h0
      have h1 : ¬ k0 = k' := fun hh => h hh.symm
      simpa [del, List.filter_cons, index, h1] using ih
    · by_cases h1 : k0 = k'
      · subst h1
        simp [del, List.filter_cons, h0, index]
      · simpa [del, List.filter_cons, h0, index, h1] using ih

theorem index_eq_none_iff (m : GoMap V) (k : String) : m.index k = none ↔ k ∉ m.keys := by
  induction m with
  | nil => simp [index, keys]
  | cons e rest ih =>
    obtain ⟨k0, v0⟩ := e
    by_cases h0 : k0 = k
    · simp [index, keys, h0]
    · have h1 : ¬ k = k0 := fun hh => h0 hh.symm
      simpa [index, keys, h0, h1] using ih

theorem del_eq_self (m : GoMap V) (k : String) (h : m.index k = none) : m.del k = m := by
  induction m with
  | nil => simp [del]
  | cons e rest ih =>
    obtain ⟨k0, v0⟩ := e
    by_cases h0 : k0 = k
    · simp [index, h0] at h
    · simp only [index, h0, if_false] at h
      have := ih h
      simp only [del] at this ⊢
      rw [List.filter_cons]
      simp only [ne_eq, h0, not_false_eq_true, decide_True, if_true]
      rw [this]

theorem assign_eq_self (m : GoMap V) (k : String) (v : V) (h : m.index k = some v) :
    m.assign k v = m := by
  induction m with
  | nil => simp [index] at h
  | cons e rest ih =>
    obtain ⟨k0, v0⟩ := e
    by_cases h0 : k0 = k
    · subst h0
      simp [index] at h
      simp [assign, h]
    · simp only [index, h0, if_false] at h
      simp [assign, h0, ih h]

theorem not_mem_keys_del (m : GoMap V) (k : String) : k ∉ (m.del k).keys :=
  (index_eq_none_iff _ _).1 (index_del_self m k)

end GoMap

/-! ## `RemoveClusterFromKubeConfig` -/

theorem qualified_ne_empty (p c : String) : p ++ "-" ++ c ≠ "" := by
  intro h
  have := congrArg String.length h
  simp only [String.length_append] at this
  have h1 : "-".length = 1 := by decide
  have h0 : "".length = 0 := by decide
  omega

theorem removeCluster_Clusters (p : String) (cluster : K3dCluster) (kc : Config) :
    (RemoveClusterFromKubeConfig p cluster kc).Clusters
      = kc.Clusters.del (p ++ "-" ++ cluster.Name) := by
  unfold RemoveClusterFromKubeConfig
  simp only
  split_ifs <;> first | rfl | (split <;> rfl)

theorem removeCluster_Contexts (p : String) (cluster : K3dCluster) (kc : Config) :
    (RemoveClusterFromKubeConfig p cluster kc).Contexts
      = kc.Contexts.del (p ++ "-" ++ cluster.Name) := by
  unfold RemoveClusterFromKubeConfig
  simp only
  split_ifs <;> first | rfl | (split <;> rfl)

theorem removeCluster_AuthInfos (p : String) (cluster : K3dCluster) (kc : Config) :
    (RemoveClusterFromKubeConfig p cluster kc).AuthInfos
      = kc.AuthInfos.del ("admin@" ++ p ++ "-" ++ cluster.Name) := by
  unfold RemoveClusterFromKubeConfig
  simp only
  split_ifs <;> first | rfl | (split <;> rfl)

theorem removeCluster_CurrentContext_of_ne (p : String) (cluster : K3dCluster) (kc : Config)
    (h : kc.CurrentContext ≠ p ++ "-" ++ cluster.Name) :
    (RemoveClusterFromKubeConfig p cluster kc).CurrentContext = kc.CurrentContext := by
  unfold RemoveClusterFromKubeConfig
  simp only
  rw [if_neg h]

/-- The current-context after a removal that started with the current-context
on the removed context: the first remaining context name, or the empty
string. -/
theorem removeCluster_CurrentContext_of_eq (p : String) (cluster : K3dCluster) (kc : Config)
    (h : kc.CurrentContext = p ++ "-" ++ cluster.Name) :
    (RemoveClusterFromKubeConfig p cluster kc).CurrentContext
      = ((kc.Contexts.del (p ++ "-" ++ cluster.Name)).keys.head?).getD "" := by
  have hnot := GoMap.not_mem_keys_del kc.Contexts (p ++ "-" ++ cluster.Name)
  unfold RemoveClusterFromKubeConfig
  simp only
  rw [if_pos h]
  cases hc : kc.Contexts.del (p ++ "-" ++ cluster.Name) with
  | nil => simp [h, GoMap.keys]
  | cons e rest =>
    obtain ⟨k, v⟩ := e
    rw [hc] at hnot
    have hk : k ≠ p ++ "-" ++ cluster.Name := by
      intro hh
      apply hnot
      simp [GoMap.keys, hh]
    simp [hk, GoMap.keys]

/-! ## The three loops of `UpdateKubeConfig` -/

theorem GoMap.index_of_mem {V : Type} (m : GoMap V) (hm : m.WF) {k : String} {v : V}
    (h : (k, v) ∈ m) : m.index k = some v := by
  induction m with
  | nil => simp at h
  | cons e rest ih =>
    obtain ⟨k0, v0⟩ := e
    have hnd : k0 ∉ GoMap.keys rest ∧ (GoMap.keys rest).Nodup := by
      simpa [GoMap.WF, GoMap.keys] using hm
    rcases List.mem_cons.1 h with heq | hmem
    · cases heq
      simp [GoMap.index]
    · have hne : k0 ≠ k := by
        intro hh
        apply hnd.1
        subst hh
        exact List.mem_map_of_mem Prod.fst hmem
      simp only [GoMap.index, hne, if_false]
      exact ih hnd.2 hmem

theorem mergeClusters_frame (ow : Bool) (new : List (String × Option Cluster)) (ex : Config) :
    (mergeClusters ow new ex).1.AuthInfos = ex.AuthInfos ∧
    (mergeClusters ow new ex).1.Contexts = ex.Contexts ∧
    (mergeClusters ow new ex).1.CurrentContext = ex.CurrentContext := by
  induction new generalizing ex with
  | nil => simp [mergeClusters]
  | cons e rest ih =>
    obtain ⟨k, v⟩ := e
    unfold mergeClusters
    split_ifs
    · simp
    · exact ih _

theorem mergeAuthInfos_frame (ow : Bool) (new : List (String × Option AuthInfo)) (ex : Config) :
    (mergeAuthInfos ow new ex).1.Clusters = ex.Clusters ∧
    (mergeAuthInfos ow new ex).1.Contexts = ex.Contexts ∧
    (mergeAuthInfos ow new ex).1.CurrentContext = ex.CurrentContext := by
  induction new generalizing ex with
  | nil => simp [mergeAuthInfos]
  | cons e rest ih =>
    obtain ⟨k, v⟩ := e
    unfold mergeAuthInfos
    split_ifs
    · simp
    · exact ih _

theorem mergeContexts_frame (ow : Bool) (new : List (String × Option Context)) (ex : Config) :
    (mergeContexts ow new ex).1.Clusters = ex.Clusters ∧
    (mergeContexts ow new ex).1.AuthInfos = ex.AuthInfos ∧
    (mergeContexts ow new ex).1.CurrentContext = ex.CurrentContext := by
  induction new generalizing ex with
  | nil => simp [mergeContexts]
  | cons e rest ih =>
    obtain ⟨k, v⟩ := e
    unfold mergeContexts
    split_ifs
    · simp
    · exact ih _

theorem GoMap.override_cons_self {V : Type} (old rest : GoMap V) (k : String) (v : V) :
    GoMap.override old ((k, v) :: rest) k = some v := by
  simp [GoMap.override, GoMap.index]

theorem GoMap.override_cons_ne {V : Type} (old rest : GoMap V) {k k' : String} (v : V)
    (h : k ≠ k') :
    GoMap.override old ((k, v) :: rest) k' = GoMap.override (old.assign k v) rest k' := by
  simp [GoMap.override, GoMap.index, h, GoMap.index_assign_ne old v h]

theorem GoMap.override_assign_fresh {V : Type} (old rest : GoMap V) (k : String) (v : V)
    (h : k ∉ GoMap.keys rest) :
    GoMap.override (old.assign k v) rest k = some v := by
  have := (GoMap.index_eq_none_iff rest k).2 h
  simp [GoMap.override, this, GoMap.index_assign_self]

theorem mergeClusters_index (ow : Bool) (new : List (String × Option Cluster)) (ex : Config)
    (hnew : GoMap.WF new) (hok : (mergeClusters ow new ex).2 = none) (k : String) :
    (mergeClusters ow new ex).1.Clusters.index k = GoMap.override ex.Clusters new k := by
  induction new generalizing ex with
  | nil => simp [mergeClusters, GoMap.override, GoMap.index]
  | cons e rest ih =>
    obtain ⟨k0, v0⟩ := e
    have hnd : k0 ∉ GoMap.keys rest ∧ (GoMap.keys rest).Nodup := by
      simpa [GoMap.WF, GoMap.keys] using hnew
    unfold mergeClusters at hok ⊢
    split_ifs at hok ⊢ with hc
    rw [ih _ hnd.2 hok]
    by_cases hk : k0 = k
    · subst hk
      rw [GoMap.override_cons_self]
      exact GoMap.override_assign_fresh _ _ _ _ hnd.1
    · rw [GoMap.override_cons_ne _ _ _ hk]

theorem mergeAuthInfos_index (ow : Bool) (new : List (String × Option AuthInfo)) (ex : Config)
    (hnew : GoMap.WF new) (hok : (mergeAuthInfos ow new ex).2 = none) (k : String) :
    (mergeAuthInfos ow new ex).1.AuthInfos.index k = GoMap.override ex.AuthInfos new k := by
  induction new generalizing ex with
  | nil => simp [mergeAuthInfos, GoMap.override, GoMap.index]
  | cons e rest ih =>
    obtain ⟨k0, v0⟩ := e
    have hnd : k0 ∉ GoMap.keys rest ∧ (GoMap.keys rest).Nodup := by
      simpa [GoMap.WF, GoMap.keys] using hnew
    unfold mergeAuthInfos at hok ⊢
    split_ifs at hok ⊢ with hc
    rw [ih _ hnd.2 hok]
    by_cases hk : k0 = k
    · subst hk
      rw [GoMap.override_cons_self]
      exact GoMap.override_assign_fresh _ _ _ _ hnd.1
    · rw [GoMap.override_cons_ne _ _ _ hk]

theorem mergeContexts_index (ow : Bool) (new : List (String × Option Context)) (ex : Config)
    (hnew : GoMap.WF new) (hok : (mergeContexts ow new ex).2 = none) (k : String) :
    (mergeContexts ow new ex).1.Contexts.index k = GoMap.override ex.Contexts new k := by
  induction new generalizing ex with
  | nil => simp [mergeContexts, GoMap.override, GoMap.index]
  | cons e rest ih =>
    obtain ⟨k0, v0⟩ := e
    have hnd : k0 ∉ GoMap.keys rest ∧ (GoMap.keys rest).Nodup := by
      simpa [GoMap.WF, GoMap.keys] using hnew
    unfold mergeContexts at hok ⊢
    split_ifs at hok ⊢ with hc
    rw [ih _ hnd.2 hok]
    by_cases hk : k0 = k
    · subst hk
      rw [GoMap.override_cons_self]
      exact GoMap.override_assign_fresh _ _ _ _ hnd.1
    · rw [GoMap.override_cons_ne _ _ _ hk]

/-- With overwrite requested the first loop never returns an error. -/
theorem mergeClusters_overwrite (new : List (String × Option Cluster)) (ex : Config) :
    (mergeClusters true new ex).2 = none := by
  induction new generalizing ex with
  | nil => simp [mergeClusters]
  | cons e rest ih =>
    obtain ⟨k, v⟩ := e
    unfold mergeClusters
    simpa using ih _

theorem mergeAuthInfos_overwrite (new : List (String × Option AuthInfo)) (ex : Config) :
    (mergeAuthInfos true new ex).2 = none := by
  induction new generalizing ex with
  | nil => simp [mergeAuthInfos]
  | cons e rest ih =>
    obtain ⟨k, v⟩ := e
    unfold mergeAuthInfos
    simpa using ih _

theorem mergeContexts_overwrite (new : List (String × Option Context)) (ex : Config) :
    (mergeContexts true new ex).2 = none := by
  induction new generalizing ex with
  | nil => simp [mergeContexts]
  | cons e rest ih =>
    obtain ⟨k, v⟩ := e
    unfold mergeContexts
    simpa using ih _

/-- A loop that assigns only values the target already holds leaves it as it is. -/
theorem mergeClusters_fixed (new : List (String × Option Cluster)) (ex : Config)
    (h : ∀ e ∈ new, ex.Clusters.index e.1 = some e.2) :
    mergeClusters true new ex = (ex, none) := by
  induction new with
  | nil => simp [mergeClusters]
  | cons e rest ih =>
    obtain ⟨k, v⟩ := e
    have hk : ex.Clusters.index k = some v := h (k, v) (List.mem_cons_self _ _)
    unfold mergeClusters
    simp only [Bool.not_true, Bool.and_false, Bool.false_eq_true, if_false]
    rw [GoMap.assign_eq_self _ _ _ hk]
    exact ih (fun e he => h e (List.mem_cons_of_mem _ he))

theorem mergeAuthInfos_fixed (new : List (String × Option AuthInfo)) (ex : Config)
    (h : ∀ e ∈ new, ex.AuthInfos.index e.1 = some e.2) :
    mergeAuthInfos true new ex = (ex, none) := by
  induction new with
  | nil => simp [mergeAuthInfos]
  | cons e rest ih =>
    obtain ⟨k, v⟩ := e
    have hk : ex.AuthInfos.index k = some v := h (k, v) (List.mem_cons_self _ _)
    unfold mergeAuthInfos
    simp only [Bool.not_true, Bool.and_false, Bool.false_eq_true, if_false]
    rw [GoMap.assign_eq_self _ _ _ hk]
    exact ih (fun e he => h e (List.mem_cons_of_mem _ he))

theorem mergeContexts_fixed (new : List (String × Option Context)) (ex : Config)
    (h : ∀ e ∈ new, ex.Contexts.index e.1 = some e.2) :
    mergeContexts true new ex = (ex, none) := by
  induction new with
  | nil => simp [mergeContexts]
  | cons e rest ih =>
    obtain ⟨k, v⟩ := e
    have hk : ex.Contexts.index k = some v := h (k, v) (List.mem_cons_self _ _)
    unfold mergeContexts
    simp only [Bool.not_true, Bool.and_false, Bool.false_eq_true, if_false]
    rw [GoMap.assign_eq_self _ _ _ hk]
    exact ih (fun e he => h e (List.mem_cons_of_mem _ he))

theorem GoMap.override_of_mem {V : Type} (old new : GoMap V) (hnew : new.WF) {k : String}
    {v : V} (h : (k, v) ∈ new) : GoMap.override old new k = some v := by
  simp [GoMap.override, GoMap.index_of_mem new hnew h]

/-! ## `UpdateKubeConfig`: shape of a call -/

/-- A call whose three loops run to their end sets the current-context and
hands the target object to `WriteKubeConfig`. -/
theorem UpdateKubeConfig_of_merges (env : Env) (new ex : Config) (out : String)
    (ow upd : Bool) (fs : FS) {ex1 ex2 ex3 : Config}
    (h1 : mergeClusters ow new.Clusters ex = (ex1, none))
    (h2 : mergeAuthInfos ow new.AuthInfos ex1 = (ex2, none))
    (h3 : mergeContexts ow new.Contexts ex2 = (ex3, none)) :
    UpdateKubeConfig env new ex out ow upd fs =
      ⟨if ex3.CurrentContext = "" ∨ upd = true then
          { ex3 with CurrentContext := new.CurrentContext } else ex3,
        WriteKubeConfig env
          (if ex3.CurrentContext = "" ∨ upd = true then
            { ex3 with CurrentContext := new.CurrentContext } else ex3) out fs⟩ := by
  simp only [UpdateKubeConfig, h1, h2, h3]
  by_cases hc : ex3.CurrentContext = ""
  · simp [hc]
  · cases upd <;> simp [hc]

/-- A call that returns no error ran its three loops to their end. -/
theorem UpdateKubeConfig_ok (env : Env) (new ex : Config) (out : String)
    (ow upd : Bool) (fs : FS)
    (h : (UpdateKubeConfig env new ex out ow upd fs).run.err = none) :
    ∃ ex1 ex2 ex3, mergeClusters ow new.Clusters ex = (ex1, none) ∧
      mergeAuthInfos ow new.AuthInfos ex1 = (ex2, none) ∧
      mergeContexts ow new.Contexts ex2 = (ex3, none) := by
  rcases h1 : mergeClusters ow new.Clusters ex with ⟨ex1, _ | e1⟩
  · rcases h2 : mergeAuthInfos ow new.AuthInfos ex1 with ⟨ex2, _ | e2⟩
    · rcases h3 : mergeContexts ow new.Contexts ex2 with ⟨ex3, _ | e3⟩
      · exact ⟨ex1, ex2, ex3, rfl, h2, h3⟩
      · simp [UpdateKubeConfig, h1, h2, h3] at h
    · simp [UpdateKubeConfig, h1, h2] at h
  · simp [UpdateKubeConfig, h1] at h

/-- The merged maps and current-context of a call that returns no error. -/
theorem UpdateKubeConfig_ok_existing (env : Env) (new ex : Config) (out : String)
    (ow upd : Bool) (fs : FS)
    (hC : GoMap.WF new.Clusters) (hA : GoMap.WF new.AuthInfos) (hX : GoMap.WF new.Contexts)
    (h : (UpdateKubeConfig env new ex out ow upd fs).run.err = none) :
    (∀ k, (UpdateKubeConfig env new ex out ow upd fs).existing.Clusters.index k
        = GoMap.override ex.Clusters new.Clusters k) ∧
    (∀ k, (UpdateKubeConfig env new ex out ow upd fs).existing.AuthInfos.index k
        = GoMap.override ex.AuthInfos new.AuthInfos k) ∧
    (∀ k, (UpdateKubeConfig env new ex out ow upd fs).existing.Contexts.index k
        = GoMap.override ex.Contexts new.Contexts k) ∧
    (UpdateKubeConfig env new ex out ow upd fs).existing.CurrentContext
        = (if ex.CurrentContext = "" ∨ upd = true then new.CurrentContext
            else ex.CurrentContext) ∧
    (UpdateKubeConfig env new ex out ow upd fs).run
        = WriteKubeConfig env (UpdateKubeConfig env new ex out ow upd fs).existing out fs := by
  obtain ⟨ex1, ex2, ex3, h1, h2, h3⟩ := UpdateKubeConfig_ok env new ex out ow upd fs h
  rw [UpdateKubeConfig_of_merges env new ex out ow upd fs h1 h2 h3]
  have f1 := mergeClusters_frame ow new.Clusters ex
  have f2 := mergeAuthInfos_frame ow new.AuthInfos ex1
  have f3 := mergeContexts_frame ow new.Contexts ex2
  have i1 := mergeClusters_index ow new.Clusters ex hC (by rw [h1])
  have i2 := mergeAuthInfos_index ow new.AuthInfos ex1 hA (by rw [h2])
  have i3 := mergeContexts_index ow new.Contexts ex2 hX (by rw [h3])
  rw [h1] at f1 i1
  rw [h2] at f2 i2
  rw [h3] at f3 i3
  simp only at f1 f2 f3 i1 i2 i3
  have hcc : ex3.CurrentContext = ex.CurrentContext := by
    rw [f3.2.2, f2.2.2, f1.2.2]
  refine ⟨?_, ?_, ?_, ?_, rfl⟩
  · intro k
    have : ex3.Clusters.index k = GoMap.override ex.Clusters new.Clusters k := by
      rw [f3.1, f2.1, i1 k]
    split_ifs <;> simpa using this
  · intro k
    have : ex3.AuthInfos.index k = GoMap.override ex.AuthInfos new.AuthInfos k := by
      rw [f3.2.1, i2 k, f1.1]
    split_ifs <;> simpa using this
  · intro k
    have : ex3.Contexts.index k = GoMap.override ex.Contexts new.Contexts k := by
      rw [i3 k, f2.2.1, f1.2.1]
    split_ifs <;> simpa using this
  · rw [hcc]
    split_ifs <;> simp [hcc]

/-! ## Writing files -/

theorem FS.put_file_index_self (fs : FS) (p : String) (b : Bytes) :
    (fs.put (.file p) b).files.index p = some b := by
  simp [FS.put, GoMap.index_assign_self]

theorem FS.put_file_index_ne (fs : FS) {p q : String} (b : Bytes) (h : p ≠ q) :
    (fs.put (.file p) b).files.index q = fs.files.index q := by
  simp [FS.put, GoMap.index_assign_ne _ _ h]

theorem mem_writeStates {fs : FS} {h : Handle} {content : Bytes} {n : Nat} {s : FS}
    (hs : s ∈ writeStates fs h content n) :
    ∃ i, i < n ∧ s = fs.put h (content.take (i + 1)) := by
  simp only [writeStates, List.mem_map, List.mem_range] at hs
  obtain ⟨i, hi, rfl⟩ := hs
  exact ⟨i, hi, rfl⟩

theorem writeStates_last (fs0 fs1 : FS) (f : String) (content : Bytes) (n : Nat)
    (h1 : fs1.files.index f = some []) :
    ((fs1 :: writeStates fs1 (.file f) content n).getLastD fs0).files.index f
      = some (content.take n) := by
  cases n with
  | zero => simpa [writeStates] using h1
  | succ m =>
    simp only [writeStates, List.range_succ, List.map_append, List.map_cons, List.map_nil]
    rw [← List.cons_append, List.getLastD_concat]
    exact FS.put_file_index_self _ _ _

/-- Writing a file leaves every other path as it was, at every step. -/
theorem WriteToFile_trace_frame (env : Env) (config : Config) (f : String) (fs : FS)
    {s : FS} (hs : s ∈ (WriteToFile env config f fs).trace) {q : String} (hq : f ≠ q) :
    s.files.index q = fs.files.index q := by
  unfold WriteToFile at hs
  split at hs
  · simp at hs
  · split at hs
    · simp at hs
    · simp only [List.mem_cons] at hs
      rcases hs with rfl | hs
      · exact FS.put_file_index_ne fs [] hq
      · unfold fileWrite at hs
        split at hs
        all_goals
          obtain ⟨i, _, rfl⟩ := mem_writeStates hs
          rw [FS.put_file_index_ne _ _ hq, FS.put_file_index_ne _ _ hq]

/-- After a successful write the file holds the complete serialised content. -/
theorem WriteToFile_ok (env : Env) (config : Config) (f : String) (fs : FS)
    (h : (WriteToFile env config f fs).err = none) :
    ∃ content, env.encode config = .ok content ∧
      ((WriteToFile env config f fs).final fs).files.index f = some content := by
  cases hc : env.encode config with
  | error e => simp [WriteToFile, hc] at h
  | ok content =>
    cases hcr : env.createErr f with
    | some e => simp [WriteToFile, hc, hcr] at h
    | none =>
      cases hw : env.writeErr f with
      | some ne => simp [WriteToFile, hc, hcr, fileWrite, hw] at h
      | none =>
        refine ⟨content, rfl, ?_⟩
        simp only [WriteToFile, hc, hcr, fileWrite, hw, Run.final]
        rw [writeStates_last fs _ f content content.length (FS.put_file_index_self fs f [])]
        simp

theorem tempPath_ne (path now : String) : path ++ ".k3d_" ++ now ≠ path := by
  intro h
  have := congrArg String.length h
  simp only [String.length_append] at this
  have h1 : ".k3d_".length = 5 := by decide
  omega

theorem FS.rename_index_dst (fs : FS) (src dst : String) (content : Bytes)
    (h : fs.files.index src = some content) :
    (fs.rename src dst).files.index dst = some content := by
  simp [FS.rename, h, GoMap.index_assign_self]

/-- At every step of `WriteKubeConfig` the target path holds what it held
before the call or the complete serialised kubeconfig. -/
theorem WriteKubeConfig_trace (env : Env) (kubeconfig : Config) (path : String) (fs : FS)
    {s : FS} (hs : s ∈ (WriteKubeConfig env kubeconfig path fs).trace) :
    s.files.index path = fs.files.index path ∨
      ∃ content, env.encode kubeconfig = .ok content ∧ s.files.index path = some content := by
  unfold WriteKubeConfig at hs
  simp only at hs
  split at hs
  · exact Or.inl (WriteToFile_trace_frame env kubeconfig _ fs hs (tempPath_ne path env.now))
  · rename_i hok
    split at hs
    · exact Or.inl (WriteToFile_trace_frame env kubeconfig _ fs hs (tempPath_ne path env.now))
    · rcases List.mem_append.1 hs with hs | hs
      · exact Or.inl (WriteToFile_trace_frame env kubeconfig _ fs hs (tempPath_ne path env.now))
      · obtain ⟨content, hc, hidx⟩ := WriteToFile_ok env kubeconfig _ fs hok
        simp only [List.mem_singleton] at hs
        subst hs
        exact Or.inr ⟨content, hc, FS.rename_index_dst _ _ _ _ hidx⟩

/-- After a successful `WriteKubeConfig` the target path holds the complete
serialised kubeconfig. -/
theorem WriteKubeConfig_ok (env : Env) (kubeconfig : Config) (path : String) (fs : FS)
    (h : (WriteKubeConfig env kubeconfig path fs).err = none) :
    ∃ content, env.encode kubeconfig = .ok content ∧
      ((WriteKubeConfig env kubeconfig path fs).final fs).files.index path = some content := by
  unfold WriteKubeConfig at h ⊢
  simp only at h ⊢
  split at h
  · simp at h
  · rename_i hok
    split at h
    · simp at h
    · rename_i hr
      obtain ⟨content, hc, hidx⟩ := WriteToFile_ok env kubeconfig _ fs hok
      refine ⟨content, hc, ?_⟩
      simp only [hok, hr, Run.final, List.getLastD_concat]
      exact FS.rename_index_dst _ _ _ _ hidx

/-- An error of `clientcmd.WriteToFile` comes from the operating system or the
library. -/
theorem WriteToFile_err (env : Env) (config : Config) (f : String) (fs : FS) {e : Err}
    (h : (WriteToFile env config f fs).err = some e) : ∃ o, e = .os o := by
  cases hc : env.encode config with
  | error o =>
    simp only [WriteToFile, hc, Option.some.injEq] at h
    exact ⟨o, h.symm⟩
  | ok content =>
    cases hcr : env.createErr f with
    | some o =>
      simp only [WriteToFile, hc, hcr, Option.some.injEq] at h
      exact ⟨o, h.symm⟩
    | none =>
      cases hw : env.writeErr f with
      | some ne =>
        obtain ⟨n, o⟩ := ne
        simp only [WriteToFile, hc, hcr, fileWrite, hw, Option.some.injEq] at h
        exact ⟨o, h.symm⟩
      | none => simp [WriteToFile, hc, hcr, fileWrite, hw] at h

/-- An error of `WriteKubeConfig` is never a name conflict. -/
theorem WriteKubeConfig_err (env : Env) (kubeconfig : Config) (path : String) (fs : FS)
    {e : Err} (h : (WriteKubeConfig env kubeconfig path fs).err = some e) :
    e.isNameConflict = false := by
  cases hw : (WriteToFile env kubeconfig (path ++ ".k3d_" ++ env.now) fs).err with
  | some e' =>
    simp only [WriteKubeConfig, hw, Option.some.injEq] at h
    subst h
    obtain ⟨o, rfl⟩ := WriteToFile_err env kubeconfig _ fs hw
    rfl
  | none =>
    cases hr : env.renameErr (path ++ ".k3d_" ++ env.now) path with
    | some o =>
      simp only [WriteKubeConfig, hw, hr, Option.some.injEq] at h
      subst h
      rfl
    | none => simp [WriteKubeConfig, hw, hr] at h

/-! ## `GetAndWriteKubeConfig`: the merge path -/

/-- The target object after `UpdateKubeConfig` does not depend on the
environment or on the file system. -/
theorem UpdateKubeConfig_existing_indep (env env' : Env) (new ex : Config) (out : String)
    (ow upd : Bool) (fs fs' : FS) :
    (UpdateKubeConfig env new ex out ow upd fs).existing
      = (UpdateKubeConfig env' new ex out ow upd fs').existing := by
  rcases h1 : mergeClusters ow new.Clusters ex with ⟨ex1, _ | e1⟩
  · rcases h2 : mergeAuthInfos ow new.AuthInfos ex1 with ⟨ex2, _ | e2⟩
    · rcases h3 : mergeContexts ow new.Contexts ex2 with ⟨ex3, _ | e3⟩
      · rw [UpdateKubeConfig_of_merges env new ex out ow upd fs h1 h2 h3,
          UpdateKubeConfig_of_merges env' new ex out ow upd fs' h1 h2 h3]
      · simp [UpdateKubeConfig, h1, h2, h3]
    · simp [UpdateKubeConfig, h1, h2]
  · simp [UpdateKubeConfig, h1]

/-- At every step of `UpdateKubeConfig` the output path holds what it held
before the call or the complete serialised merged kubeconfig. -/
theorem UpdateKubeConfig_trace (env : Env) (new ex : Config) (out : String)
    (ow upd : Bool) (fs : FS) {s : FS}
    (hs : s ∈ (UpdateKubeConfig env new ex out ow upd fs).run.trace) :
    s.files.index out = fs.files.index out ∨
      ∃ content,
        env.encode (UpdateKubeConfig env new ex out ow upd fs).existing = .ok content ∧
        s.files.index out = some content := by
  rcases h1 : mergeClusters ow new.Clusters ex with ⟨ex1, _ | e1⟩
  · rcases h2 : mergeAuthInfos ow new.AuthInfos ex1 with ⟨ex2, _ | e2⟩
    · rcases h3 : mergeContexts ow new.Contexts ex2 with ⟨ex3, _ | e3⟩
      · rw [UpdateKubeConfig_of_merges env new ex out ow upd fs h1 h2 h3] at hs ⊢
        exact WriteKubeConfig_trace env _ out fs hs
      · simp [UpdateKubeConfig, h1, h2, h3] at hs
    · simp [UpdateKubeConfig, h1, h2] at hs
  · simp [UpdateKubeConfig, h1] at hs

/-- The load loop ends within two iterations: either it touched nothing and
its result is that of loading in the initial state, or the first load
reported a missing file, the file was created empty, and its result is that
of loading in the state after the creation. -/
theorem loadLoop_two (env : Env) (output : String) (fuel : Nat) (fs : FS) :
    ∃ trace res, loadLoop env output (fuel + 2) true fs [] = some (trace, res) ∧
      ((trace = [] ∧ ∀ cfg, res = .ok cfg → env.loadFromFile fs output = .ok cfg) ∨
       (trace = [fs.put (.file output) []] ∧
         (∃ e, env.loadFromFile fs output = .error e ∧ e.notExist = true) ∧
         ∀ cfg, res = .ok cfg →
           env.loadFromFile (fs.put (.file output) []) output = .ok cfg)) := by
  cases h0 : env.loadFromFile fs output with
  | ok cfg0 =>
    refine ⟨[], .ok cfg0, ?_, Or.inl ⟨rfl, ?_⟩⟩
    · simp [loadLoop, h0]
    · intro cfg hcfg
      cases hcfg
      rfl
  | error e0 =>
    by_cases hne : e0.notExist = true
    · cases hm : env.mkdirAllErr (env.dir output) with
      | some em =>
        refine ⟨[], .error (.os em), ?_, Or.inl ⟨rfl, ?_⟩⟩
        · simp [loadLoop, h0, Err.isNotExist, hne, hm]
        · intro cfg hcfg
          cases hcfg
      | none =>
        cases hc : env.createErr output with
        | some ec =>
          refine ⟨[], .error (.os ec), ?_, Or.inl ⟨rfl, ?_⟩⟩
          · simp [loadLoop, h0, Err.isNotExist, hne, hm, hc]
          · intro cfg hcfg
            cases hcfg
        | none =>
          cases h1 : env.loadFromFile (fs.put (.file output) []) output with
          | ok cfg1 =>
            refine ⟨[fs.put (.file output) []], .ok cfg1, ?_,
              Or.inr ⟨rfl, ⟨e0, rfl, hne⟩, ?_⟩⟩
            · simp [loadLoop, h0, Err.isNotExist, hne, hm, hc, h1]
            · intro cfg hcfg
              cases hcfg
              rfl
          | error e1 =>
            refine ⟨[fs.put (.file output) []], .error (.os e1), ?_,
              Or.inr ⟨rfl, ⟨e0, rfl, hne⟩, ?_⟩⟩
            · simp [loadLoop, h0, Err.isNotExist, hne, hm, hc, h1]
            · intro cfg hcfg
              cases hcfg
    · refine ⟨[], .error (.os e0), ?_, Or.inl ⟨rfl, ?_⟩⟩
      · simp [loadLoop, h0, Err.isNotExist, hne]
      · intro cfg hcfg
        cases hcfg

/-! ## The claims -/

/-- Claim C1, the code as it is: without overwrite, merging a kubeconfig of the
shape `GetKubeconfig` returns (cluster and context both named `k3d-c`) is
refused with a name conflict whatever the target holds; into a target without
any entry the error is "Cluster 'k3d-c' already exists". -/
theorem updateKubeConfig_fetched_always_conflicts (env : Env) (out : String) (upd : Bool)
    (fs : FS) :
    (∀ existing : Config, ∃ e,
      (UpdateKubeConfig env fetchedSample existing out false upd fs).run.err = some e ∧
      e.isNameConflict = true) ∧
    (UpdateKubeConfig env fetchedSample emptyConfig out false upd fs).run.err
      = some (.nameConflict .cluster "k3d-c") := by
  constructor
  · intro existing
    by_cases c1 : (existing.Clusters.index "k3d-c").isSome = true
    · exact ⟨.nameConflict .cluster "k3d-c", by
        simp [UpdateKubeConfig, fetchedSample, mergeClusters, c1], rfl⟩
    · by_cases c2 : (existing.AuthInfos.index "admin@k3d-c").isSome = true
      · exact ⟨.nameConflict .authInfo "admin@k3d-c", by
          simp [UpdateKubeConfig, fetchedSample, mergeClusters, mergeAuthInfos, c1, c2], rfl⟩
      · exact ⟨.nameConflict .cluster "k3d-c", by
          simp [UpdateKubeConfig, fetchedSample, mergeClusters, mergeAuthInfos, mergeContexts,
            c1, c2, GoMap.index_assign_self], rfl⟩
  · rfl

/-- Claim C2: when `UpdateKubeConfig` returns no error, the output path holds
the complete serialisation of the merged kubeconfig, and each of its three maps
is the map of the target overridden by the map of the new kubeconfig: a name
of the new kubeconfig has the new value, any other name its original value. -/
theorem updateKubeConfig_written_maps (env : Env) (new existing : Config) (out : String)
    (ow upd : Bool) (fs : FS)
    (hC : GoMap.WF new.Clusters) (hA : GoMap.WF new.AuthInfos) (hX : GoMap.WF new.Contexts)
    (hok : (UpdateKubeConfig env new existing out ow upd fs).run.err = none) :
    ∃ written content,
      written = (UpdateKubeConfig env new existing out ow upd fs).existing ∧
      env.encode written = .ok content ∧
      (((UpdateKubeConfig env new existing out ow upd fs).run.final fs).files.index out
        = some content) ∧
      (∀ k, written.Clusters.index k = GoMap.override existing.Clusters new.Clusters k) ∧
      (∀ k, written.AuthInfos.index k = GoMap.override existing.AuthInfos new.AuthInfos k) ∧
      (∀ k, written.Contexts.index k = GoMap.override existing.Contexts new.Contexts k) := by
  obtain ⟨h1, h2, h3, _, hrun⟩ :=
    UpdateKubeConfig_ok_existing env new existing out ow upd fs hC hA hX hok
  rw [hrun] at hok
  obtain ⟨content, hc, hidx⟩ := WriteKubeConfig_ok env _ out fs hok
  refine ⟨_, content, rfl, hc, ?_, h1, h2, h3⟩
  rw [hrun]
  exact hidx

theorem updateKubeConfig_written_maps_witness :
    ∃ written content,
      written = (UpdateKubeConfig quietEnv fetchedSample otherSample "/kube/config"
        true false fsSample).existing ∧
      quietEnv.encode written = .ok content ∧
      (((UpdateKubeConfig quietEnv fetchedSample otherSample "/kube/config"
        true false fsSample).run.final fsSample).files.index "/kube/config" = some content) ∧
      (∀ k, written.Clusters.index k
        = GoMap.override otherSample.Clusters fetchedSample.Clusters k) ∧
      (∀ k, written.AuthInfos.index k
        = GoMap.override otherSample.AuthInfos fetchedSample.AuthInfos k) ∧
      (∀ k, written.Contexts.index k
        = GoMap.override otherSample.Contexts fetchedSample.Contexts k) :=
  updateKubeConfig_written_maps quietEnv fetchedSample otherSample "/kube/config" true false
    fsSample (by decide) (by decide) (by decide) (by decide)

/-- Claim C3, the code as it is: without overwrite, a target whose context `dev`
exists is merged with a new kubeconfig that also has a context `dev`; the call
reports no name conflict, succeeds when no write fails, and the context `dev`
of the target is replaced by the new one. -/
theorem updateKubeConfig_replaces_context_without_overwrite (env : Env) (out : String)
    (upd : Bool) (fs : FS) :
    contextOldSample.Contexts.index "dev" = some (some ⟨"old-cluster", "old-user", "old"⟩) ∧
    (UpdateKubeConfig env contextNewSample contextOldSample out false upd fs).existing.Contexts.index
      "dev" = some (some ⟨"new-cluster", "new-user", "new"⟩) ∧
    (UpdateKubeConfig quietEnv contextNewSample contextOldSample "/kube/config" false upd
      fsSample).run.err = none := by
  refine ⟨rfl, ?_, ?_⟩
  · cases upd <;> rfl
  · cases upd <;> rfl

/-- Claim C4: when `UpdateKubeConfig` returns no error, the output path holds
the serialisation of the merged kubeconfig, whose current-context is that of
the new kubeconfig if the current-context of the target was empty or
`updateCurrentContext` is set, and the original one of the target otherwise. -/
theorem updateKubeConfig_currentContext (env : Env) (new existing : Config) (out : String)
    (ow upd : Bool) (fs : FS)
    (hok : (UpdateKubeConfig env new existing out ow upd fs).run.err = none) :
    (∃ content,
      env.encode (UpdateKubeConfig env new existing out ow upd fs).existing = .ok content ∧
      ((UpdateKubeConfig env new existing out ow upd fs).run.final fs).files.index out
        = some content) ∧
    (UpdateKubeConfig env new existing out ow upd fs).existing.CurrentContext
      = (if existing.CurrentContext = "" ∨ upd = true then new.CurrentContext
          else existing.CurrentContext) := by
  obtain ⟨ex1, ex2, ex3, h1, h2, h3⟩ := UpdateKubeConfig_ok env new existing out ow upd fs hok
  have f1 := mergeClusters_frame ow new.Clusters existing
  have f2 := mergeAuthInfos_frame ow new.AuthInfos ex1
  have f3 := mergeContexts_frame ow new.Contexts ex2
  rw [h1] at f1
  rw [h2] at f2
  rw [h3] at f3
  simp only at f1 f2 f3
  have hcc : ex3.CurrentContext = existing.CurrentContext := by
    rw [f3.2.2, f2.2.2, f1.2.2]
  rw [UpdateKubeConfig_of_merges env new existing out ow upd fs h1 h2 h3] at hok ⊢
  constructor
  · obtain ⟨content, hc, hidx⟩ := WriteKubeConfig_ok env _ out fs hok
    exact ⟨content, hc, hidx⟩
  · simp only [hcc]
    split_ifs <;> simp [hcc]

theorem updateKubeConfig_currentContext_witness :
    (∃ content,
      quietEnv.encode (UpdateKubeConfig quietEnv fetchedSample otherSample "/kube/config"
        true false fsSample).existing = .ok content ∧
      ((UpdateKubeConfig quietEnv fetchedSample otherSample "/kube/config"
        true false fsSample).run.final fsSample).files.index "/kube/config" = some content) ∧
    (UpdateKubeConfig quietEnv fetchedSample otherSample "/kube/config"
        true false fsSample).existing.CurrentContext
      = (if otherSample.CurrentContext = "" ∨ false = true then fetchedSample.CurrentContext
          else otherSample.CurrentContext) :=
  updateKubeConfig_currentContext quietEnv fetchedSample otherSample "/kube/config" true false
    fsSample (by decide)

/-- Idempotence on kubeconfigs given by their entries: with overwrite requested,
merging the new kubeconfig into the result of a first merge leaves that result
as it is (same clusters, auth-infos, contexts and current-context), neither
merge returns a name conflict, and when both writes succeed the output path
holds the same content after each. -/
theorem updateKubeConfig_overwrite_idempotent (env : Env) (new existing : Config)
    (out : String) (upd : Bool) (fs₁ fs₂ : FS)
    (hC : GoMap.WF new.Clusters) (hA : GoMap.WF new.AuthInfos) (hX : GoMap.WF new.Contexts) :
    (UpdateKubeConfig env new
        (UpdateKubeConfig env new existing out true upd fs₁).existing out true upd fs₂).existing
      = (UpdateKubeConfig env new existing out true upd fs₁).existing ∧
    (∀ e, (UpdateKubeConfig env new existing out true upd fs₁).run.err = some e →
      e.isNameConflict = false) ∧
    (∀ e, (UpdateKubeConfig env new
        (UpdateKubeConfig env new existing out true upd fs₁).existing out true upd fs₂).run.err
        = some e → e.isNameConflict = false) ∧
    ((UpdateKubeConfig env new existing out true upd fs₁).run.err = none →
      (UpdateKubeConfig env new
        (UpdateKubeConfig env new existing out true upd fs₁).existing out true upd fs₂).run.err
        = none →
      ((UpdateKubeConfig env new
        (UpdateKubeConfig env new existing out true upd fs₁).existing out true upd
          fs₂).run.final fs₂).files.index out
        = ((UpdateKubeConfig env new existing out true upd fs₁).run.final fs₁).files.index
            out) := by
  -- the three loops of the first merge
  have h1 : mergeClusters true new.Clusters existing
      = ((mergeClusters true new.Clusters existing).1, none) :=
    Prod.ext rfl (mergeClusters_overwrite _ _)
  have h2 : mergeAuthInfos true new.AuthInfos (mergeClusters true new.Clusters existing).1
      = ((mergeAuthInfos true new.AuthInfos (mergeClusters true new.Clusters existing).1).1,
          none) :=
    Prod.ext rfl (mergeAuthInfos_overwrite _ _)
  have h3 : mergeContexts true new.Contexts
        (mergeAuthInfos true new.AuthInfos (mergeClusters true new.Clusters existing).1).1
      = ((mergeContexts true new.Contexts
          (mergeAuthInfos true new.AuthInfos (mergeClusters true new.Clusters existing).1).1).1,
          none) :=
    Prod.ext rfl (mergeContexts_overwrite _ _)
  generalize (mergeClusters true new.Clusters existing).1 = ex1 at h1 h2 h3
  generalize (mergeAuthInfos true new.AuthInfos ex1).1 = ex2 at h2 h3
  generalize (mergeContexts true new.Contexts ex2).1 = ex3 at h3
  have f2 := mergeAuthInfos_frame true new.AuthInfos ex1
  have f3 := mergeContexts_frame true new.Contexts ex2
  have i1 := mergeClusters_index true new.Clusters existing hC (by rw [h1])
  have i2 := mergeAuthInfos_index true new.AuthInfos ex1 hA (by rw [h2])
  have i3 := mergeContexts_index true new.Contexts ex2 hX (by rw [h3])
  rw [h1] at i1
  rw [h2] at f2 i2
  rw [h3] at f3 i3
  simp only at f2 f3 i1 i2 i3
  have e1 := UpdateKubeConfig_of_merges env new existing out true upd fs₁ h1 h2 h3
  -- the merged object, and the three loops of the second merge on it
  generalize hm : (if ex3.CurrentContext = "" ∨ upd = true then
      ({ ex3 with CurrentContext := new.CurrentContext } : Config) else ex3) = merged at e1
  have mC : merged.Clusters = ex3.Clusters := by
    rw [← hm]; split_ifs <;> rfl
  have mA : merged.AuthInfos = ex3.AuthInfos := by
    rw [← hm]; split_ifs <;> rfl
  have mX : merged.Contexts = ex3.Contexts := by
    rw [← hm]; split_ifs <;> rfl
  have g1 : mergeClusters true new.Clusters merged = (merged, none) := by
    apply mergeClusters_fixed
    intro e he
    rw [mC, f3.1, f2.1, i1 e.1]
    exact GoMap.override_of_mem _ _ hC he
  have g2 : mergeAuthInfos true new.AuthInfos merged = (merged, none) := by
    apply mergeAuthInfos_fixed
    intro e he
    rw [mA, f3.2.1, i2 e.1]
    exact GoMap.override_of_mem _ _ hA he
  have g3 : mergeContexts true new.Contexts merged = (merged, none) := by
    apply mergeContexts_fixed
    intro e he
    rw [mX, i3 e.1]
    exact GoMap.override_of_mem _ _ hX he
  have e2 := UpdateKubeConfig_of_merges env new merged out true upd fs₂ g1 g2 g3
  have hfix : (if merged.CurrentContext = "" ∨ upd = true then
      ({ merged with CurrentContext := new.CurrentContext } : Config) else merged) = merged := by
    rw [← hm]
    by_cases hu : upd = true
    · simp [hu]
    · by_cases hc : ex3.CurrentContext = ""
      · simp [hc]
      · simp [hu, hc]
  rw [hfix] at e2
  rw [e1]
  simp only
  rw [e2]
  simp only
  refine ⟨trivial, ?_, ?_, ?_⟩
  · intro e he
    exact WriteKubeConfig_err env merged out fs₁ he
  · intro e he
    exact WriteKubeConfig_err env merged out fs₂ he
  · intro hok1 hok2
    obtain ⟨c1, hc1, hi1⟩ := WriteKubeConfig_ok env merged out fs₁ hok1
    obtain ⟨c2, hc2, hi2⟩ := WriteKubeConfig_ok env merged out fs₂ hok2
    rw [hi1, hi2]
    rw [hc1] at hc2
    cases hc2
    rfl

/-- Claim C6, the code as it is: without overwrite, a target whose only entry is
a context `k3d-c` is merged with a kubeconfig that has a cluster and a context
`k3d-c`; the collision of the two contexts is reported as a conflict of kind
cluster, with the message "Cluster 'k3d-c' already exists in target
KubeConfig", although the target has no cluster of that name. -/
theorem updateKubeConfig_context_collision_reported_as_cluster (env : Env) (out : String)
    (upd : Bool) (fs : FS) :
    (UpdateKubeConfig env fetchedSample staleContextSample out false upd fs).run.err
      = some (.nameConflict .cluster "k3d-c") ∧
    (Err.nameConflict .cluster "k3d-c").message
      = "Cluster 'k3d-c' already exists in target KubeConfig" ∧
    staleContextSample.Clusters.index "k3d-c" = none ∧
    (staleContextSample.Contexts.index "k3d-c").isSome = true ∧
    (fetchedSample.Contexts.index "k3d-c").isSome = true := by
  refine ⟨rfl, by decide, rfl, rfl, rfl⟩

/-- Claim C7 as stated fails on the direct-overwrite path: with
`OverwriteExisting` set, the first step of `GetAndWriteKubeConfig` on an
existing target leaves the target path empty, which is neither its previous
content nor the new content. -/
theorem getAndWrite_overwrite_truncates_target :
    ∃ r s, GetAndWriteKubeConfig quietEnv 2 (.ok fetchedSample) "/kube/config"
        ⟨false, false, true⟩ fsSample = some r ∧
      s ∈ r.trace ∧
      s.files.index "/kube/config" = some [] ∧
      fsSample.files.index "/kube/config" = some [9, 9, 9] ∧
      quietEnv.encode fetchedSample = .ok [1, 1, 1, 107, 51, 100, 45, 99] := by
  refine ⟨_, fsSample.put (.file "/kube/config") [], rfl, ?_, rfl, rfl, ?_⟩
  · exact List.mem_cons_self _ _
  · rfl

/-- Claim C7, amended: on the merge path of `GetAndWriteKubeConfig` (no
`OverwriteExisting`, output not `-`) the function returns within two
iterations of the load loop, and at every step the target path holds what it
held before the call, or is the empty file the load loop created because the
target was reported missing, or holds the complete serialisation of the merged
kubeconfig, which is written to a temporary file and renamed over the
target. -/
theorem getAndWrite_merge_target_old_or_new (env : Env) (fuel : Nat) (kubeconfig : Config)
    (output path : String) (opts : WriteKubeConfigOptions) (fs : FS)
    (hover : opts.OverwriteExisting = false)
    (hpath : (if output = "" then GetDefaultKubeConfigPath env else .ok output) = .ok path)
    (hdash : path ≠ "-") :
    ∃ r, GetAndWriteKubeConfig env (fuel + 2) (.ok kubeconfig) output opts fs = some r ∧
      ∀ s ∈ r.trace,
        s.files.index path = fs.files.index path ∨
        ((∃ e, env.loadFromFile fs path = .error e ∧ e.notExist = true) ∧
          s.files.index path = some []) ∨
        (∃ existing content,
          (env.loadFromFile fs path = .ok existing ∨
            env.loadFromFile (fs.put (.file path) []) path = .ok existing) ∧
          env.encode (UpdateKubeConfig env kubeconfig existing path opts.UpdateExisting
            opts.UpdateCurrentContext fs).existing = .ok content ∧
          s.files.index path = some content) := by
  obtain ⟨trace, res, hl, hcases⟩ := loadLoop_two env path fuel fs
  have hmem : ∀ s ∈ trace,
      (∃ e, env.loadFromFile fs path = .error e ∧ e.notExist = true) ∧
        s.files.index path = some [] := by
    intro s hs
    rcases hcases with ⟨ht, _⟩ | ⟨ht, he, _⟩
    · simp [ht] at hs
    · simp only [ht, List.mem_singleton] at hs
      subst hs
      exact ⟨he, FS.put_file_index_self fs path []⟩
  unfold GetAndWriteKubeConfig
  simp only [hpath, hover, hdash, Bool.false_or, decide_False, Bool.false_eq_true, if_false, hl]
  cases res with
  | error e =>
    refine ⟨_, rfl, ?_⟩
    intro s hs
    exact Or.inr (Or.inl (hmem s hs))
  | ok existing =>
    refine ⟨_, rfl, ?_⟩
    intro s hs
    rcases List.mem_append.1 hs with hs | hs
    · exact Or.inr (Or.inl (hmem s hs))
    · rcases UpdateKubeConfig_trace env kubeconfig existing path _ _ _ hs with h | h
      · rcases hcases with ⟨ht, _⟩ | ⟨ht, he, _⟩
        · left
          rw [h, ht]
          rfl
        · right; left
          refine ⟨he, ?_⟩
          rw [h, ht]
          exact FS.put_file_index_self fs path []
      · obtain ⟨content, hc, hidx⟩ := h
        right; right
        refine ⟨existing, content, ?_, ?_, hidx⟩
        · rcases hcases with ⟨_, hok⟩ | ⟨_, _, hok⟩
          · exact Or.inl (hok existing rfl)
          · exact Or.inr (hok existing rfl)
        · rw [UpdateKubeConfig_existing_indep env env kubeconfig existing path _ _ fs
            (trace.getLastD fs)]
          exact hc

theorem getAndWrite_merge_target_old_or_new_witness :
    ∃ r, GetAndWriteKubeConfig quietEnv (0 + 2) (.ok fetchedSample) "/kube/config"
        ⟨true, false, false⟩ fsSample = some r ∧
      ∀ s ∈ r.trace,
        s.files.index "/kube/config" = fsSample.files.index "/kube/config" ∨
        ((∃ e, quietEnv.loadFromFile fsSample "/kube/config" = .error e ∧ e.notExist = true) ∧
          s.files.index "/kube/config" = some []) ∨
        (∃ existing content,
          (quietEnv.loadFromFile fsSample "/kube/config" = .ok existing ∨
            quietEnv.loadFromFile (fsSample.put (.file "/kube/config") []) "/kube/config"
              = .ok existing) ∧
          quietEnv.encode (UpdateKubeConfig quietEnv fetchedSample existing "/kube/config"
            true false fsSample).existing = .ok content ∧
          s.files.index "/kube/config" = some content) :=
  getAndWrite_merge_target_old_or_new quietEnv 0 fetchedSample "/kube/config" "/kube/config"
    ⟨true, false, false⟩ fsSample rfl (by simp) (by decide)

/-- Claim C8: after `RemoveClusterFromKubeConfig` the kubeconfig has no cluster
and no context named `<prefix>-c` and no auth-info named `admin@<prefix>-c`;
every other cluster, context and auth-info entry is present with its original
value; and the current-context is unchanged whenever it was not
`<prefix>-c`. -/
theorem removeCluster_entries_and_frame (p : String) (cluster : K3dCluster) (kc : Config) :
    (RemoveClusterFromKubeConfig p cluster kc).Clusters.index (p ++ "-" ++ cluster.Name)
      = none ∧
    (RemoveClusterFromKubeConfig p cluster kc).Contexts.index (p ++ "-" ++ cluster.Name)
      = none ∧
    (RemoveClusterFromKubeConfig p cluster kc).AuthInfos.index
      ("admin@" ++ p ++ "-" ++ cluster.Name) = none ∧
    (∀ k, k ≠ p ++ "-" ++ cluster.Name →
      (RemoveClusterFromKubeConfig p cluster kc).Clusters.index k = kc.Clusters.index k) ∧
    (∀ k, k ≠ p ++ "-" ++ cluster.Name →
      (RemoveClusterFromKubeConfig p cluster kc).Contexts.index k = kc.Contexts.index k) ∧
    (∀ k, k ≠ "admin@" ++ p ++ "-" ++ cluster.Name →
      (RemoveClusterFromKubeConfig p cluster kc).AuthInfos.index k = kc.AuthInfos.index k) ∧
    (kc.CurrentContext ≠ p ++ "-" ++ cluster.Name →
      (RemoveClusterFromKubeConfig p cluster kc).CurrentContext = kc.CurrentContext) := by
  rw [removeCluster_Clusters, removeCluster_Contexts, removeCluster_AuthInfos]
  exact ⟨GoMap.index_del_self _ _, GoMap.index_del_self _ _, GoMap.index_del_self _ _,
    fun k hk => GoMap.index_del_ne _ hk, fun k hk => GoMap.index_del_ne _ hk,
    fun k hk => GoMap.index_del_ne _ hk,
    removeCluster_CurrentContext_of_ne p cluster kc⟩

theorem removeCluster_entries_and_frame_witness :
    (RemoveClusterFromKubeConfig "k3d" ⟨"c"⟩ otherSample).Contexts.index "prod"
      = otherSample.Contexts.index "prod" ∧
    (RemoveClusterFromKubeConfig "k3d" ⟨"c"⟩ otherSample).CurrentContext
      = otherSample.CurrentContext :=
  ⟨(removeCluster_entries_and_frame "k3d" ⟨"c"⟩ otherSample).2.2.2.2.1 "prod" (by decide),
    (removeCluster_entries_and_frame "k3d" ⟨"c"⟩ otherSample).2.2.2.2.2.2 (by decide)⟩

/-- Claim C9 as stated fails: the current-context of `emptyNameSample` is the
removed context `k3d-c`, and after the removal the current-context is the
empty string although a context remains (the one whose name is the empty
string). -/
theorem removeCluster_empty_current_with_remaining_context :
    emptyNameSample.CurrentContext = "k3d" ++ "-" ++ "c" ∧
    (RemoveClusterFromKubeConfig "k3d" ⟨"c"⟩ emptyNameSample).CurrentContext = "" ∧
    (RemoveClusterFromKubeConfig "k3d" ⟨"c"⟩ emptyNameSample).Contexts
      = [("", some ⟨"prod", "alice", ""⟩)] ∧
    ¬ ((RemoveClusterFromKubeConfig "k3d" ⟨"c"⟩ emptyNameSample).CurrentContext = "" ↔
        (RemoveClusterFromKubeConfig "k3d" ⟨"c"⟩ emptyNameSample).Contexts = []) := by
  decide

/-- Claim C9, amended: for a kubeconfig whose current-context is the removed
context `<prefix>-c`, after `RemoveClusterFromKubeConfig` the current-context
is never `<prefix>-c`; it is the name of a context that is still present if at
least one context remains; it is the empty string if no context remains; and
it is the empty string only if no context remains or a remaining context is
named by the empty string. -/
theorem removeCluster_reassigns_currentContext (p : String) (cluster : K3dCluster)
    (kc : Config) (hcur : kc.CurrentContext = p ++ "-" ++ cluster.Name) :
    (RemoveClusterFromKubeConfig p cluster kc).CurrentContext ≠ p ++ "-" ++ cluster.Name ∧
    ((RemoveClusterFromKubeConfig p cluster kc).Contexts ≠ [] →
      ((RemoveClusterFromKubeConfig p cluster kc).Contexts.index
        (RemoveClusterFromKubeConfig p cluster kc).CurrentContext).isSome = true) ∧
    ((RemoveClusterFromKubeConfig p cluster kc).Contexts = [] →
      (RemoveClusterFromKubeConfig p cluster kc).CurrentContext = "") ∧
    ((RemoveClusterFromKubeConfig p cluster kc).CurrentContext = "" →
      (RemoveClusterFromKubeConfig p cluster kc).Contexts = [] ∨
      ((RemoveClusterFromKubeConfig p cluster kc).Contexts.index "").isSome = true) := by
  have hnot := GoMap.not_mem_keys_del kc.Contexts (p ++ "-" ++ cluster.Name)
  rw [removeCluster_CurrentContext_of_eq p cluster kc hcur, removeCluster_Contexts]
  cases hc : kc.Contexts.del (p ++ "-" ++ cluster.Name) with
  | nil =>
    refine ⟨?_, ?_, ?_, ?_⟩
    · simpa [GoMap.keys] using (qualified_ne_empty p cluster.Name).symm
    · intro h
      exact absurd rfl h
    · intro _
      simp [GoMap.keys]
    · intro _
      exact Or.inl rfl
  | cons e rest =>
    obtain ⟨k, v⟩ := e
    rw [hc] at hnot
    have hk : k ≠ p ++ "-" ++ cluster.Name := by
      intro hh
      apply hnot
      simp [GoMap.keys, hh]
    refine ⟨?_, ?_, ?_, ?_⟩
    · simpa [GoMap.keys] using hk
    · intro _
      simp [GoMap.keys, GoMap.index]
    · intro h
      simp at h
    · intro h
      right
      simp only [GoMap.keys, List.map_cons, List.head?_cons, Option.getD_some] at h
      simp [GoMap.index, h]

theorem removeCluster_reassigns_currentContext_witness :
    (RemoveClusterFromKubeConfig "k3d" ⟨"c"⟩ emptyNameSample).CurrentContext
      ≠ "k3d" ++ "-" ++ "c" :=
  (removeCluster_reassigns_currentContext "k3d" ⟨"c"⟩ emptyNameSample (by decide)).1

/-- Claim C10 as stated fails: `danglingSample` holds none of the three entries
of cluster `c`, but its current-context names `k3d-c`; the removal changes the
current-context to `prod`, so the result differs from the input. -/
theorem removeCluster_absent_changes_dangling_currentContext :
    danglingSample.Clusters.index ("k3d" ++ "-" ++ "c") = none ∧
    danglingSample.Contexts.index ("k3d" ++ "-" ++ "c") = none ∧
    danglingSample.AuthInfos.index ("admin@" ++ "k3d" ++ "-" ++ "c") = none ∧
    (RemoveClusterFromKubeConfig "k3d" ⟨"c"⟩ danglingSample).CurrentContext = "prod" ∧
    RemoveClusterFromKubeConfig "k3d" ⟨"c"⟩ danglingSample ≠ danglingSample := by
  decide

/-- Claim C10, amended: for a kubeconfig that holds none of the three entries
of cluster `c` and whose current-context is not `<prefix>-c`,
`RemoveClusterFromKubeConfig` returns a kubeconfig equal to its input in every
field. -/
theorem removeCluster_absent_noop (p : String) (cluster : K3dCluster) (kc : Config)
    (hC : kc.Clusters.index (p ++ "-" ++ cluster.Name) = none)
    (hX : kc.Contexts.index (p ++ "-" ++ cluster.Name) = none)
    (hA : kc.AuthInfos.index ("admin@" ++ p ++ "-" ++ cluster.Name) = none)
    (hcur : kc.CurrentContext ≠ p ++ "-" ++ cluster.Name) :
    RemoveClusterFromKubeConfig p cluster kc = kc := by
  have h1 := removeCluster_Clusters p cluster kc
  have h2 := removeCluster_Contexts p cluster kc
  have h3 := removeCluster_AuthInfos p cluster kc
  have h4 := removeCluster_CurrentContext_of_ne p cluster kc hcur
  rw [GoMap.del_eq_self _ _ hC] at h1
  rw [GoMap.del_eq_self _ _ hX] at h2
  rw [GoMap.del_eq_self _ _ hA] at h3
  cases hr : RemoveClusterFromKubeConfig p cluster kc
  cases kc
  rw [hr] at h1 h2 h3 h4
  simp only at h1 h2 h3 h4
  rw [h1, h2, h3, h4]

theorem removeCluster_absent_noop_witness :
    RemoveClusterFromKubeConfig "k3d" ⟨"c"⟩ otherSample = otherSample :=
  removeCluster_absent_noop "k3d" ⟨"c"⟩ otherSample (by decide) (by decide) (by decide)
    (by decide)

/-! ## `GetKubeconfig` -/

theorem dash_mem_qualified (s p c : String) : '-' ∈ (s ++ p ++ "-" ++ c).data := by
  simp [String.data_append]

theorem qualified_ne_default (p c : String) : p ++ "-" ++ c ≠ "default" := by
  intro h
  have hm := dash_mem_qualified "" p c
  rw [String.empty_append, h] at hm
  revert hm
  decide

theorem admin_qualified_ne_default (p c : String) : "admin@" ++ p ++ "-" ++ c ≠ "default" := by
  intro h
  have hm := dash_mem_qualified "admin@" p c
  rw [h] at hm
  revert hm
  decide

/-- The loop over the master nodes picks the first node with the port label. -/
theorem chooseMaster_eq (dport dhost : String) (nodes : List Node) :
    chooseMaster dport dhost nodes =
      match firstWithAPIPort nodes with
      | some n => (some n, (n.Labels.index "k3d.master.api.port").getD dport,
          (n.Labels.index "k3d.master.api.host").getD dhost)
      | none => (none, dport, dhost) := by
  induction nodes with
  | nil => rfl
  | cons n rest ih =>
    cases hp : n.Labels.index "k3d.master.api.port" with
    | none =>
      simp only [chooseMaster, hp, firstWithAPIPort, List.find?, Option.isSome_none]
      simpa [firstWithAPIPort] using ih
    | some port =>
      cases hh : n.Labels.index "k3d.master.api.host" with
      | none => simp [chooseMaster, hp, hh, firstWithAPIPort, List.find?]
      | some host => simp [chooseMaster, hp, hh, firstWithAPIPort, List.find?]

/-- The rewriting of a parsed kubeconfig that has a cluster and a context
entry named `default`. -/
theorem modifyKubeconfig_ok (p host port : String) (cluster : K3dCluster) (kc : Config)
    (cl : Cluster) (cx : Context)
    (hcl : kc.Clusters.index "default" = some (some cl))
    (hcx : kc.Contexts.index "default" = some (some cx)) :
    ∃ r, modifyKubeconfig p host port cluster kc = .ok r ∧
      r.Clusters.index (p ++ "-" ++ cluster.Name)
        = some (some { cl with Server := "https://" ++ host ++ ":" ++ port }) ∧
      r.Contexts.index (p ++ "-" ++ cluster.Name)
        = some (some { cx with AuthInfo := "admin@" ++ p ++ "-" ++ cluster.Name,
                               Cluster := p ++ "-" ++ cluster.Name }) ∧
      r.AuthInfos.index ("admin@" ++ p ++ "-" ++ cluster.Name)
        = some (kc.AuthInfos.index "default").join ∧
      r.Clusters.index "default" = none ∧
      r.AuthInfos.index "default" = none ∧
      r.Contexts.index "default" = none ∧
      r.CurrentContext = p ++ "-" ++ cluster.Name := by
  have hq := qualified_ne_default p cluster.Name
  have ha := admin_qualified_ne_default p cluster.Name
  have hctx : (((kc.Contexts.assign (p ++ "-" ++ cluster.Name) (some cx)).del
      "default").index (p ++ "-" ++ cluster.Name)) = some (some cx) := by
    rw [GoMap.index_del_ne _ hq, GoMap.index_assign_self]
  refine ⟨
    { Clusters := ((kc.Clusters.assign "default"
          (some { cl with Server := "https://" ++ host ++ ":" ++ port })).assign
            (p ++ "-" ++ cluster.Name)
            (some { cl with Server := "https://" ++ host ++ ":" ++ port })).del "default"
      AuthInfos := (kc.AuthInfos.assign ("admin@" ++ p ++ "-" ++ cluster.Name)
          (kc.AuthInfos.index "default").join).del "default"
      Contexts := ((kc.Contexts.assign (p ++ "-" ++ cluster.Name) (some cx)).del
          "default").assign (p ++ "-" ++ cluster.Name)
            (some { cx with AuthInfo := "admin@" ++ p ++ "-" ++ cluster.Name,
                            Cluster := p ++ "-" ++ cluster.Name })
      CurrentContext := p ++ "-" ++ cluster.Name }, ?_, ?_, ?_, ?_, ?_, ?_, ?_, ?_⟩
  · have hj1 : ∀ x : Option Context, (some x).join = x := fun _ => rfl
    have hj2 : ∀ x : Option Cluster, (some x).join = x := fun _ => rfl
    simp only [modifyKubeconfig, hcl, hcx, hj1, hj2, GoMap.index_assign_self, hctx]
  · simp only
    rw [GoMap.index_del_ne _ hq, GoMap.index_assign_self]
  · simp only
    rw [GoMap.index_assign_self]
  · simp only
    rw [GoMap.index_del_ne _ ha, GoMap.index_assign_self]
  · simp only
    rw [GoMap.index_del_self]
  · simp only
    rw [GoMap.index_del_self]
  · simp only
    rw [GoMap.index_assign_ne _ _ hq, GoMap.index_del_self]
  · rfl

theorem chooseMaster_fst (dport dhost : String) (nodes : List Node) :
    (chooseMaster dport dhost nodes).1 = firstWithAPIPort nodes := by
  rw [chooseMaster_eq]
  cases firstWithAPIPort nodes <;> rfl

theorem chooseMaster_url (dport dhost : String) (nodes : List Node) :
    "https://" ++ (chooseMaster dport dhost nodes).2.2 ++ ":" ++
        (chooseMaster dport dhost nodes).2.1
      = expectedServerURL dport dhost nodes := by
  rw [chooseMaster_eq]
  unfold expectedServerURL
  cases firstWithAPIPort nodes <;> rfl

/-- The nodes `GetKubeconfig` fetches from, once the runtime has returned a
non-empty list of master nodes. -/
theorem GetKubeconfig_fetchedFrom (runtime : Runtime) (Load : Bytes → Except OSErr Config)
    (p role dport dhost : String) (cluster : K3dCluster) (first : Node) (rest : List Node)
    (hnodes : runtime.GetNodesByLabel [("k3d.cluster", cluster.Name), ("k3d.role", role)]
      = .ok (first :: rest)) :
    (GetKubeconfig runtime Load p role dport dhost cluster).fetchedFrom
      = [(firstWithAPIPort (first :: rest)).getD first] := by
  have hfst := chooseMaster_fst dport dhost (first :: rest)
  unfold GetKubeconfig
  simp only [hnodes]
  rcases hcm : chooseMaster dport dhost (first :: rest) with ⟨chosen, port, host⟩
  rw [hcm] at hfst
  simp only at hfst
  subst hfst
  simp only
  split
  · rfl
  · rfl
  · split <;> [rfl; (split <;> rfl)]

/-- A call of `GetKubeconfig` whose fetch, read and parse succeed ends with the
rewriting of the parsed kubeconfig. -/
theorem GetKubeconfig_of_fetch (runtime : Runtime) (Load : Bytes → Except OSErr Config)
    (p role dport dhost : String) (cluster : K3dCluster) (first : Node) (rest : List Node)
    (readBytes : Bytes) (kc : Config)
    (hnodes : runtime.GetNodesByLabel [("k3d.cluster", cluster.Name), ("k3d.role", role)]
      = .ok (first :: rest))
    (hfetch : runtime.GetKubeconfig ((firstWithAPIPort (first :: rest)).getD first)
      = .ok (.ok readBytes))
    (hlen : 512 ≤ readBytes.length)
    (hload : Load (trimNul (readBytes.drop 512)) = .ok kc) :
    (GetKubeconfig runtime Load p role dport dhost cluster).result
      = modifyKubeconfig p (chooseMaster dport dhost (first :: rest)).2.2
          (chooseMaster dport dhost (first :: rest)).2.1 cluster kc := by
  have hfst := chooseMaster_fst dport dhost (first :: rest)
  unfold GetKubeconfig
  simp only [hnodes]
  rcases hcm : chooseMaster dport dhost (first :: rest) with ⟨chosen, port, host⟩
  rw [hcm] at hfst
  simp only at hfst
  subst hfst
  have hnot : ¬ readBytes.length < 512 := by omega
  simp only [hfetch, hnot, if_false, hload]

/-! ## The claims C11 to C20 -/

/-- Claim C11: when the kubeconfig fetched and parsed by `GetKubeconfig` has a
cluster, a user and a context entry named `default`, the returned kubeconfig
holds the former default cluster (with its server URL rewritten) under
`<prefix>-c`, the former default context under `<prefix>-c` with its cluster
and user fields set to the new cluster and user names, the former default user
under `admin@<prefix>-c`, no cluster, user or context named `default`, and the
current-context `<prefix>-c`. -/
theorem getKubeconfig_renames_default (runtime : Runtime)
    (Load : Bytes → Except OSErr Config) (p role dport dhost : String) (cluster : K3dCluster)
    (first : Node) (rest : List Node) (readBytes : Bytes) (kc : Config)
    (cl : Cluster) (au : Option AuthInfo) (cx : Context)
    (hnodes : runtime.GetNodesByLabel [("k3d.cluster", cluster.Name), ("k3d.role", role)]
      = .ok (first :: rest))
    (hfetch : runtime.GetKubeconfig ((firstWithAPIPort (first :: rest)).getD first)
      = .ok (.ok readBytes))
    (hlen : 512 ≤ readBytes.length)
    (hload : Load (trimNul (readBytes.drop 512)) = .ok kc)
    (hcl : kc.Clusters.index "default" = some (some cl))
    (hau : kc.AuthInfos.index "default" = some au)
    (hcx : kc.Contexts.index "default" = some (some cx)) :
    ∃ r server, (GetKubeconfig runtime Load p role dport dhost cluster).result = .ok r ∧
      r.Clusters.index (p ++ "-" ++ cluster.Name) = some (some { cl with Server := server }) ∧
      r.Contexts.index (p ++ "-" ++ cluster.Name)
        = some (some { cx with AuthInfo := "admin@" ++ p ++ "-" ++ cluster.Name,
                               Cluster := p ++ "-" ++ cluster.Name }) ∧
      r.AuthInfos.index ("admin@" ++ p ++ "-" ++ cluster.Name) = some au ∧
      r.Clusters.index "default" = none ∧
      r.AuthInfos.index "default" = none ∧
      r.Contexts.index "default" = none ∧
      r.CurrentContext = p ++ "-" ++ cluster.Name := by
  rw [GetKubeconfig_of_fetch runtime Load p role dport dhost cluster first rest readBytes kc
    hnodes hfetch hlen hload]
  obtain ⟨r, hr, h1, h2, h3, h4, h5, h6, h7⟩ :=
    modifyKubeconfig_ok p (chooseMaster dport dhost (first :: rest)).2.2
      (chooseMaster dport dhost (first :: rest)).2.1 cluster kc cl cx hcl hcx
  rw [hau] at h3
  exact ⟨r, _, hr, h1, h2, h3, h4, h5, h6, h7⟩

theorem getKubeconfig_renames_default_witness :
    ∃ r server, (GetKubeconfig sampleRuntime sampleLoad "k3d" "master" "6443" "0.0.0.0"
        ⟨"c"⟩).result = .ok r ∧
      r.Clusters.index ("k3d" ++ "-" ++ "c")
        = some (some { (⟨"https://127.0.0.1:6443", [1]⟩ : Cluster) with Server := server }) ∧
      r.Contexts.index ("k3d" ++ "-" ++ "c")
        = some (some { (⟨"default", "default", ""⟩ : Context) with
            AuthInfo := "admin@" ++ "k3d" ++ "-" ++ "c", Cluster := "k3d" ++ "-" ++ "c" }) ∧
      r.AuthInfos.index ("admin@" ++ "k3d" ++ "-" ++ "c")
        = some (some ⟨[2], [3], "admin", "secret"⟩) ∧
      r.Clusters.index "default" = none ∧
      r.AuthInfos.index "default" = none ∧
      r.Contexts.index "default" = none ∧
      r.CurrentContext = "k3d" ++ "-" ++ "c" :=
  getKubeconfig_renames_default sampleRuntime sampleLoad "k3d" "master" "6443" "0.0.0.0"
    ⟨"c"⟩ plainMaster [exposedMaster] (List.replicate 512 0 ++ [7, 7, 7]) defaultSample
    ⟨"https://127.0.0.1:6443", [1]⟩ (some ⟨[2], [3], "admin", "secret"⟩)
    ⟨"default", "default", ""⟩ rfl rfl
    (by simp only [List.length_append, List.length_replicate, List.length_cons,
      List.length_nil, Nat.le_add_right]) rfl rfl rfl rfl

/-- Claim C12 as stated fails for the host: the only master node carries the
label `k3d.master.api.host` (`example.org`) but not the port label;
`GetKubeconfig` fetches from that node and sets the server URL to the default
host and port, `https://0.0.0.0:6443`, not to the host label of the node it
fetched from. -/
theorem getKubeconfig_ignores_host_label_without_port_label :
    hostOnlyMaster.Labels.index "k3d.master.api.host" = some "example.org" ∧
    hostOnlyMaster.Labels.index "k3d.master.api.port" = none ∧
    (GetKubeconfig hostOnlyRuntime sampleLoad "k3d" "master" "6443" "0.0.0.0"
        ⟨"c"⟩).fetchedFrom = [hostOnlyMaster] ∧
    ∃ r, (GetKubeconfig hostOnlyRuntime sampleLoad "k3d" "master" "6443" "0.0.0.0"
        ⟨"c"⟩).result = .ok r ∧
      r.Clusters.index "k3d-c" = some (some ⟨"https://0.0.0.0:6443", [1]⟩) := by
  have hlen : 512 ≤ (List.replicate 512 0 ++ [7, 7, 7] : Bytes).length := by
    simp only [List.length_append, List.length_replicate, List.length_cons, List.length_nil,
      Nat.le_add_right]
  refine ⟨rfl, rfl, ?_, ?_⟩
  · exact GetKubeconfig_fetchedFrom hostOnlyRuntime sampleLoad "k3d" "master" "6443" "0.0.0.0"
      ⟨"c"⟩ hostOnlyMaster [] rfl
  · rw [GetKubeconfig_of_fetch hostOnlyRuntime sampleLoad "k3d" "master" "6443" "0.0.0.0"
      ⟨"c"⟩ hostOnlyMaster [] (List.replicate 512 0 ++ [7, 7, 7]) defaultSample rfl rfl hlen rfl]
    exact ⟨_, rfl, rfl⟩

/-- Claim C12, amended: for an empty list of master nodes `GetKubeconfig`
returns an error and fetches from no node; for a non-empty list it fetches from
exactly one node, the first that carries the label `k3d.master.api.port`, or
the first of the list if none carries it; and when fetch and parse succeed, the
server URL of the renamed cluster is `https://<host>:<port>` with the port label
of that first labelled node and its host label (default host if it has none),
or the default host and the default port if no node carries the port label. -/
theorem getKubeconfig_chooses_master (runtime : Runtime)
    (Load : Bytes → Except OSErr Config) (p role dport dhost : String)
    (cluster : K3dCluster) :
    (runtime.GetNodesByLabel [("k3d.cluster", cluster.Name), ("k3d.role", role)] = .ok [] →
      (GetKubeconfig runtime Load p role dport dhost cluster).fetchedFrom = [] ∧
      ∃ e, (GetKubeconfig runtime Load p role dport dhost cluster).result = .error e) ∧
    (∀ first rest,
      runtime.GetNodesByLabel [("k3d.cluster", cluster.Name), ("k3d.role", role)]
        = .ok (first :: rest) →
      (GetKubeconfig runtime Load p role dport dhost cluster).fetchedFrom
        = [(firstWithAPIPort (first :: rest)).getD first]) ∧
    (∀ first rest readBytes kc cl cx,
      runtime.GetNodesByLabel [("k3d.cluster", cluster.Name), ("k3d.role", role)]
        = .ok (first :: rest) →
      runtime.GetKubeconfig ((firstWithAPIPort (first :: rest)).getD first)
        = .ok (.ok readBytes) →
      512 ≤ readBytes.length →
      Load (trimNul (readBytes.drop 512)) = .ok kc →
      kc.Clusters.index "default" = some (some cl) →
      kc.Contexts.index "default" = some (some cx) →
      ∃ r, (GetKubeconfig runtime Load p role dport dhost cluster).result = .ok r ∧
        r.Clusters.index (p ++ "-" ++ cluster.Name)
          = some (some { cl with Server := expectedServerURL dport dhost (first :: rest) })) := by
  refine ⟨?_, ?_, ?_⟩
  · intro hnodes
    simp [GetKubeconfig, hnodes]
  · intro first rest hnodes
    exact GetKubeconfig_fetchedFrom runtime Load p role dport dhost cluster first rest hnodes
  · intro first rest readBytes kc cl cx hnodes hfetch hlen hload hcl hcx
    rw [GetKubeconfig_of_fetch runtime Load p role dport dhost cluster first rest readBytes kc
      hnodes hfetch hlen hload]
    obtain ⟨r, hr, h1, _⟩ :=
      modifyKubeconfig_ok p (chooseMaster dport dhost (first :: rest)).2.2
        (chooseMaster dport dhost (first :: rest)).2.1 cluster kc cl cx hcl hcx
    rw [chooseMaster_url] at h1
    exact ⟨r, hr, h1⟩

theorem getKubeconfig_chooses_master_witness :
    (GetKubeconfig sampleRuntime sampleLoad "k3d" "master" "6443" "0.0.0.0"
        ⟨"c"⟩).fetchedFrom = [exposedMaster] ∧
    ∃ r, (GetKubeconfig sampleRuntime sampleLoad "k3d" "master" "6443" "0.0.0.0"
        ⟨"c"⟩).result = .ok r ∧
      r.Clusters.index ("k3d" ++ "-" ++ "c")
        = some (some { (⟨"https://127.0.0.1:6443", [1]⟩ : Cluster) with
            Server := expectedServerURL "6443" "0.0.0.0" [plainMaster, exposedMaster] }) :=
  ⟨(getKubeconfig_chooses_master sampleRuntime sampleLoad "k3d" "master" "6443" "0.0.0.0"
      ⟨"c"⟩).2.1 plainMaster [exposedMaster] rfl,
    (getKubeconfig_chooses_master sampleRuntime sampleLoad "k3d" "master" "6443" "0.0.0.0"
      ⟨"c"⟩).2.2 plainMaster [exposedMaster] (List.replicate 512 0 ++ [7, 7, 7]) defaultSample
      ⟨"https://127.0.0.1:6443", [1]⟩ ⟨"default", "default", ""⟩ rfl rfl
      (by simp only [List.length_append, List.length_replicate, List.length_cons,
        List.length_nil, Nat.le_add_right]) rfl rfl rfl⟩

/-- Claim C13: whatever the engine does, `startContainer` attempts the creation
at most twice; it pulls the image iff the first creation fails with a
not-found error, and creates a second time iff moreover the pull succeeds;
a first creation that fails otherwise, a failed pull and a failed second
creation each end the call with an error and no further request; and a start
request is sent only for the ID a creation attempt returned, as the last
request of the call. -/
theorem startContainer_creation_attempts (docker : Docker) (verbose : Bool)
    (config : ContainerConfig) (hostConfig : HostConfig) (networkingConfig : NetworkingConfig)
    (containerName : String) :
    creations (startContainer docker verbose config hostConfig networkingConfig
      containerName).calls ≤ 2 ∧
    (pulls (startContainer docker verbose config hostConfig networkingConfig
        containerName).calls = 1 ↔
      docker.newClientErr = none ∧
        ∃ e, docker.containerCreate 0 = .error e ∧ e.notFound = true) ∧
    (creations (startContainer docker verbose config hostConfig networkingConfig
        containerName).calls = 2 ↔
      docker.newClientErr = none ∧
        (∃ e, docker.containerCreate 0 = .error e ∧ e.notFound = true) ∧
        docker.imagePull config.Image = none) ∧
    (docker.newClientErr = none →
      ∀ e, docker.containerCreate 0 = .error e → e.notFound = false →
        (startContainer docker verbose config hostConfig networkingConfig containerName).calls
          = [.create containerName] ∧
        ∃ err, (startContainer docker verbose config hostConfig networkingConfig
          containerName).result = .error err) ∧
    (docker.newClientErr = none →
      ∀ e pe, docker.containerCreate 0 = .error e → e.notFound = true →
        docker.imagePull config.Image = some pe →
        (startContainer docker verbose config hostConfig networkingConfig containerName).calls
          = [.create containerName, .pull config.Image] ∧
        ∃ err, (startContainer docker verbose config hostConfig networkingConfig
          containerName).result = .error err) ∧
    (docker.newClientErr = none →
      ∀ e e2, docker.containerCreate 0 = .error e → e.notFound = true →
        docker.imagePull config.Image = none → docker.containerCreate 1 = .error e2 →
        (startContainer docker verbose config hostConfig networkingConfig containerName).calls
          = [.create containerName, .pull config.Image, .create containerName] ∧
        ∃ err, (startContainer docker verbose config hostConfig networkingConfig
          containerName).result = .error err) ∧
    (∀ id, DockerCall.start id ∈ (startContainer docker verbose config hostConfig
        networkingConfig containerName).calls →
      (startContainer docker verbose config hostConfig networkingConfig
        containerName).calls.getLast? = some (.start id) ∧
      (docker.containerCreate 0 = .ok id ∨
        ((∃ e, docker.containerCreate 0 = .error e ∧ e.notFound = true) ∧
          docker.containerCreate 1 = .ok id))) := by
  cases hc : docker.newClientErr with
  | some ce => simp [startContainer, hc, creations, pulls]
  | none =>
    cases h0 : docker.containerCreate 0 with
    | ok id0 =>
      cases hs : docker.containerStart id0 <;>
        simp [startContainer, startCreated, hc, h0, hs, creations, pulls,
          DockerCall.isCreate, DockerCall.isPull]
    | error e0 =>
      cases hn : e0.notFound with
      | false =>
        simp only [startContainer, hc, h0, hn, creations, pulls, DockerCall.isCreate,
          DockerCall.isPull]
        refine ⟨by simp [DockerCall.isCreate], by simp [DockerCall.isPull, hn],
          by simp [DockerCall.isCreate, hn], by simp, ?_, ?_, by simp⟩
        · intro _ e pe he hnf
          cases he
          rw [hn] at hnf
          cases hnf
        · intro _ e e2 he hnf
          cases he
          rw [hn] at hnf
          cases hnf
      | true =>
        cases hp : docker.imagePull config.Image with
        | some pe =>
          simp [startContainer, hc, h0, hn, hp, creations, pulls, DockerCall.isCreate,
            DockerCall.isPull]
        | none =>
          cases h1 : docker.containerCreate 1 with
          | error e1 =>
            simp [startContainer, hc, h0, hn, hp, h1, creations, pulls,
              DockerCall.isCreate, DockerCall.isPull]
          | ok id1 =>
            cases hs : docker.containerStart id1 <;>
              simp [startContainer, startCreated, hc, h0, hn, hp, h1, hs, creations, pulls,
                DockerCall.isCreate, DockerCall.isPull]

theorem startContainer_creation_attempts_witness :
    creations (startContainer missingImageDocker false sampleContainerConfig sampleHostConfig
      ⟨[]⟩ "k3d-c-server").calls = 2 :=
  (startContainer_creation_attempts missingImageDocker false sampleContainerConfig
    sampleHostConfig ⟨[]⟩ "k3d-c-server").2.2.1.2 ⟨rfl, ⟨⟨true, "No such image"⟩, rfl, rfl⟩, rfl⟩

/-! ### `createWorker` and `createServer`: the container asked for -/

/-- The container `createWorker` asks for, once the port specs are resolved. -/
theorem createWorker_request_fields (env : CliEnv) (spec : ClusterSpec) (k : Int)
    (ports : List String) (resolved : PublishedPorts) (r : ContainerRequest)
    (hmerge : env.MergePortSpecs spec.NodeToPortSpecMap "worker"
      (env.GetContainerName "worker" spec.ClusterName k) = .ok ports)
    (hpub : env.CreatePublishedPorts ports = .ok resolved)
    (hreq : (createWorker env spec k).request = some r) :
    r.containerName = env.GetContainerName "worker" spec.ClusterName k ∧
    r.hostConfig.PortBindings
      = (if spec.PortAutoOffset > 0 then
            env.Offset resolved (wrapInt64 (k + spec.PortAutoOffset))
          else resolved).PortBindings ∧
    r.config.ExposedPorts
      = (if spec.PortAutoOffset > 0 then
            env.Offset resolved (wrapInt64 (k + spec.PortAutoOffset))
          else resolved).ExposedPorts ∧
    ∃ calls, workerNetwork env spec (env.GetContainerName "worker" spec.ClusterName k)
      = (calls, .ok (r.config.Env, r.networkingConfig)) := by
  unfold createWorker at hreq
  simp only [hmerge, hpub] at hreq
  rcases hw : workerNetwork env spec (env.GetContainerName "worker" spec.ClusterName k)
    with ⟨calls, out⟩
  rw [hw] at hreq
  cases out with
  | error e => simp at hreq
  | fatal m => simp at hreq
  | panic m => simp at hreq
  | ok pair =>
    obtain ⟨wenv, net⟩ := pair
    simp only at hreq
    split at hreq
    all_goals
      simp only [Option.some.injEq] at hreq
      subst hreq
      exact ⟨rfl, rfl, rfl, calls, rfl⟩

/-- Once the port specs are resolved and the network part succeeds,
`createWorker` asks for a container. -/
theorem createWorker_request_isSome (env : CliEnv) (spec : ClusterSpec) (k : Int)
    (ports : List String) (resolved : PublishedPorts) (calls : List DockerCall)
    (wenv : List String) (net : NetworkingConfig)
    (hmerge : env.MergePortSpecs spec.NodeToPortSpecMap "worker"
      (env.GetContainerName "worker" spec.ClusterName k) = .ok ports)
    (hpub : env.CreatePublishedPorts ports = .ok resolved)
    (hw : workerNetwork env spec (env.GetContainerName "worker" spec.ClusterName k)
      = (calls, .ok (wenv, net))) :
    ∃ r, (createWorker env spec k).request = some r := by
  unfold createWorker
  simp only [hmerge, hpub, hw]
  split <;> exact ⟨_, rfl⟩


/-- Claim C14 as stated fails for base offset 0: the worker with ordinal 1 of a
specification with `PortAutoOffset = 0` gets the resolved binding with host
port 8080, not the binding offset by 1 + 0, whose host port is 8081. -/
theorem createWorker_no_offset_without_base :
    sampleSpec.PortAutoOffset = 0 ∧
    sampleCliEnv.CreatePublishedPorts ["8080:80"] = .ok resolvedSample ∧
    (∃ r, (createWorker sampleCliEnv sampleSpec 1).request = some r ∧
      r.hostConfig.PortBindings = [("8080:80", [⟨"0.0.0.0", some 8080⟩])]) ∧
    (sampleCliEnv.Offset resolvedSample (1 + 0)).PortBindings
      = [("8080:80", [⟨"0.0.0.0", some 8081⟩])] := by
  refine ⟨rfl, rfl, ⟨_, rfl, rfl⟩, ?_⟩
  decide

/-- A sum of Go `int`s that stays in the range of `int` is the mathematical
sum. -/
theorem wrapInt64_of_range (n : Int) (hlo : -9223372036854775808 ≤ n)
    (hhi : n ≤ 9223372036854775807) : wrapInt64 n = n := by
  unfold wrapInt64
  omega

/-- Beyond the largest `int` the sum wraps around: `1 + MaxInt64` is the
smallest `int`. -/
theorem wrapInt64_overflow : wrapInt64 (1 + 9223372036854775807) = -9223372036854775808 := by
  decide

/-- Claim C14, amended: for a base offset `b > 0` and every worker ordinal
`k ≥ 0` whose sum `k + b` does not exceed the largest `int`, the exposed ports
and bindings `createWorker` gives to the container are those of the resolved
published ports offset (`PublishedPorts.Offset`) by `k + b`; in general, for
`b > 0`, they are offset by the `int` sum of `k` and `b`, which wraps around
beyond the largest `int`; for `b ≤ 0` the container gets the resolved published
ports as they are. -/
theorem createWorker_port_offset (env : CliEnv) (spec : ClusterSpec) (k : Int)
    (ports : List String) (resolved : PublishedPorts) (calls : List DockerCall)
    (wenv : List String) (net : NetworkingConfig)
    (hmerge : env.MergePortSpecs spec.NodeToPortSpecMap "worker"
      (env.GetContainerName "worker" spec.ClusterName k) = .ok ports)
    (hpub : env.CreatePublishedPorts ports = .ok resolved)
    (hw : workerNetwork env spec (env.GetContainerName "worker" spec.ClusterName k)
      = (calls, .ok (wenv, net))) :
    ∃ r, (createWorker env spec k).request = some r ∧
      (0 < spec.PortAutoOffset → 0 ≤ k → k + spec.PortAutoOffset ≤ 9223372036854775807 →
        r.hostConfig.PortBindings
          = (env.Offset resolved (k + spec.PortAutoOffset)).PortBindings ∧
        r.config.ExposedPorts
          = (env.Offset resolved (k + spec.PortAutoOffset)).ExposedPorts) ∧
      (0 < spec.PortAutoOffset →
        r.hostConfig.PortBindings
          = (env.Offset resolved (wrapInt64 (k + spec.PortAutoOffset))).PortBindings ∧
        r.config.ExposedPorts
          = (env.Offset resolved (wrapInt64 (k + spec.PortAutoOffset))).ExposedPorts) ∧
      (spec.PortAutoOffset ≤ 0 →
        r.hostConfig.PortBindings = resolved.PortBindings ∧
        r.config.ExposedPorts = resolved.ExposedPorts) := by
  obtain ⟨r, hreq⟩ := createWorker_request_isSome env spec k ports resolved calls wenv net
    hmerge hpub hw
  obtain ⟨_, hb, he, _⟩ := createWorker_request_fields env spec k ports resolved r hmerge hpub
    hreq
  refine ⟨r, hreq, ?_, ?_, ?_⟩
  · intro hpos hk hmax
    have hgt : spec.PortAutoOffset > 0 := hpos
    have hwrap : wrapInt64 (k + spec.PortAutoOffset) = k + spec.PortAutoOffset :=
      wrapInt64_of_range _ (by omega) hmax
    rw [hb, he, if_pos hgt, hwrap]
    exact ⟨rfl, rfl⟩
  · intro hpos
    have hgt : spec.PortAutoOffset > 0 := hpos
    rw [hb, he, if_pos hgt]
    exact ⟨rfl, rfl⟩
  · intro hle
    have hng : ¬ spec.PortAutoOffset > 0 := by omega
    rw [hb, he, if_neg hng]
    exact ⟨rfl, rfl⟩

theorem createWorker_port_offset_witness :
    ∃ r, (createWorker sampleCliEnv offsetSpec 1).request = some r ∧
      r.hostConfig.PortBindings
        = (sampleCliEnv.Offset resolvedSample (1 + offsetSpec.PortAutoOffset)).PortBindings ∧
      r.config.ExposedPorts
        = (sampleCliEnv.Offset resolvedSample (1 + offsetSpec.PortAutoOffset)).ExposedPorts :=
  match createWorker_port_offset sampleCliEnv offsetSpec 1 ["8080:80"] resolvedSample []
    ["A=1", "K3S_URL=https://k3d-c-server:6443"] ⟨[("k3d-c", ⟨["k3d-c-worker"]⟩)]⟩
    rfl rfl rfl with
  | ⟨r, hreq, h, _⟩ => ⟨r, hreq, h (by decide) (by decide) (by decide)⟩

/-- Claim C15: the container `createServer` asks for has the exposed ports and
the bindings that `CreatePublishedPorts` makes of the list resolved by
`MergePortSpecs` for scope `server` and the server's container name, followed
by the one API port spec `<hostIP>:<port>:<port>/tcp`, where `hostIP` is
`0.0.0.0` unless `APIPort.Host` is set (then it is `APIPort.HostIP`); and
`createServer` does not depend on `PortAutoOffset`. -/
theorem createServer_published_ports (env : CliEnv) (spec : ClusterSpec)
    (merged : List String) (published : PublishedPorts)
    (hmerge : env.MergePortSpecs spec.NodeToPortSpecMap "server"
      (env.GetContainerName "server" spec.ClusterName (-1)) = .ok merged)
    (hpub : env.CreatePublishedPorts
      (merged ++ [(if spec.APIPort.Host ≠ "" then spec.APIPort.HostIP else "0.0.0.0") ++ ":" ++
        spec.APIPort.Port ++ ":" ++ spec.APIPort.Port ++ "/tcp"]) = .ok published) :
    (∃ r, (createServer env spec).request = some r ∧
      r.config.ExposedPorts = published.ExposedPorts ∧
      r.hostConfig.PortBindings = published.PortBindings) ∧
    ∀ b : Int, createServer env { spec with PortAutoOffset := b } = createServer env spec := by
  refine ⟨?_, fun _ => rfl⟩
  unfold createServer
  simp only [hmerge, hpub]
  split <;> exact ⟨_, rfl, rfl, rfl⟩

theorem createServer_published_ports_witness :
    (∃ r, (createServer sampleCliEnv offsetSpec).request = some r ∧
      r.config.ExposedPorts = ["0.0.0.0:6443:6443/tcp"] ∧
      r.hostConfig.PortBindings = [("0.0.0.0:6443:6443/tcp", [⟨"0.0.0.0", some 8080⟩])]) ∧
    ∀ b : Int, createServer sampleCliEnv { offsetSpec with PortAutoOffset := b }
      = createServer sampleCliEnv offsetSpec :=
  createServer_published_ports sampleCliEnv offsetSpec []
    ⟨["0.0.0.0:6443:6443/tcp"], [("0.0.0.0:6443:6443/tcp", [⟨"0.0.0.0", some 8080⟩])]⟩
    rfl rfl

theorem takeWhile_append_stop {α : Type} (p : α → Bool) (l r : List α) (x : α)
    (hl : ∀ c ∈ l, p c = true) (hx : p x = false) :
    (l ++ x :: r).takeWhile p = l := by
  induction l with
  | nil => simp [List.takeWhile, hx]
  | cons c rest ih =>
    have hc : p c = true := hl c (List.mem_cons_self _ _)
    have ih2 := ih (fun d hd => hl d (List.mem_cons_of_mem _ hd))
    rw [List.cons_append, List.takeWhile_cons, hc, ih2]
    rfl

/-- The part before the first colon of `a:b`, when `a` has no colon, is `a`. -/
theorem beforeColon_of_colon (a b : String) (h : ':' ∉ a.data) :
    beforeColon (a ++ ":" ++ b) = a := by
  unfold beforeColon
  have hd : (a ++ ":" ++ b).data = a.data ++ ':' :: b.data := by
    simp [String.data_append]
  rw [hd, takeWhile_append_stop _ a.data b.data ':' _ (by simp)]
  intro c hc
  have : c ≠ ':' := fun hh => h (hh ▸ hc)
  simp [this]

/-- A string without colon is its own part before the first colon. -/
theorem beforeColon_of_no_colon (a : String) (h : ':' ∉ a.data) : beforeColon a = a := by
  unfold beforeColon
  have : a.data.takeWhile (fun c => decide (c ≠ ':')) = a.data := by
    rw [List.takeWhile_eq_self_iff]
    intro c hc
    have : c ≠ ':' := fun hh => h (hh ▸ hc)
    simp [this]
  rw [this]

/-- The requests `createWorker` sends start with those of its network part. -/
theorem createWorker_calls (env : CliEnv) (spec : ClusterSpec) (k : Int)
    (ports : List String) (resolved : PublishedPorts) (calls : List DockerCall)
    (wenv : List String) (net : NetworkingConfig)
    (hmerge : env.MergePortSpecs spec.NodeToPortSpecMap "worker"
      (env.GetContainerName "worker" spec.ClusterName k) = .ok ports)
    (hpub : env.CreatePublishedPorts ports = .ok resolved)
    (hw : workerNetwork env spec (env.GetContainerName "worker" spec.ClusterName k)
      = (calls, .ok (wenv, net))) :
    ∃ later, (createWorker env spec k).calls = calls ++ later := by
  unfold createWorker
  simp only [hmerge, hpub, hw]
  split <;> exact ⟨_, rfl⟩

/-- Claim C16 as stated fails where no container is created: for an agent-only
specification whose server container cannot be inspected, `createWorker`
returns the error and asks for no container; and when no network carries the
server's cluster label, `createWorker` ends outside its error result
(`serverNetworks[0]` of an empty list) and asks for no container. In both
cases the worker is attached to no network. -/
theorem createWorker_agent_only_without_network :
    unknownServerSpec.AgentOnly = true ∧ unknownServerSpec.ServerURL = "k3d-gone-server:6443" ∧
    (createWorker sampleCliEnv unknownServerSpec 0).request = none ∧
    (createWorker sampleCliEnv unknownServerSpec 0).result
      = .error (.engine ⟨true, "No such container"⟩) ∧
    agentOnlySpec.AgentOnly = true ∧ agentOnlySpec.ServerURL = "k3d-other-server:6443" ∧
    (createWorker noNetworkCliEnv agentOnlySpec 0).request = none ∧
    (createWorker noNetworkCliEnv agentOnlySpec 0).result
      = .panic "index out of range [0] with length 0" := by
  refine ⟨rfl, rfl, rfl, rfl, rfl, rfl, rfl, rfl⟩

/-- Claim C16, amended: once the worker's port specs are resolved, the container
`createWorker` asks for is attached to exactly one network. Unless `AgentOnly`
is set with a non-empty `ServerURL`, it is the cluster's own network, under an
alias equal to the worker's container name, and the environment is `spec.Env`
followed by `K3S_URL=https://k3d-<cluster>-server:<api-port>`. With
`AgentOnly` and a `ServerURL` of the form `<server>` or `<server>:<rest>`
(`<server>` without colon), when the container `<server>` is inspected and
at least one network is listed for the label `cluster=<cluster label of the
server>`, `createWorker` sends these two requests first, the one network is
the first of those listed, with no alias, and the environment is `spec.Env`. -/
theorem createWorker_network (env : CliEnv) (spec : ClusterSpec) (k : Int)
    (ports : List String) (resolved : PublishedPorts)
    (hmerge : env.MergePortSpecs spec.NodeToPortSpecMap "worker"
      (env.GetContainerName "worker" spec.ClusterName k) = .ok ports)
    (hpub : env.CreatePublishedPorts ports = .ok resolved) :
    (¬ (spec.AgentOnly = true ∧ spec.ServerURL ≠ "") →
      ∃ r, (createWorker env spec k).request = some r ∧
        r.containerName = env.GetContainerName "worker" spec.ClusterName k ∧
        r.networkingConfig.EndpointsConfig
          = [(env.k3dNetworkName spec.ClusterName, ⟨[r.containerName]⟩)] ∧
        r.config.Env = spec.Env ++
          ["K3S_URL=https://k3d-" ++ spec.ClusterName ++ "-server:" ++ spec.APIPort.Port]) ∧
    (spec.AgentOnly = true → spec.ServerURL ≠ "" →
      ∀ server rest labels network others,
        (spec.ServerURL = server ∨ spec.ServerURL = server ++ ":" ++ rest) →
        ':' ∉ server.data →
        env.docker.newClientErr = none →
        env.docker.containerInspect server = .ok labels →
        env.docker.networkList ("cluster=" ++ (labels.index "cluster").getD "")
          = .ok (network :: others) →
        ∃ r later, (createWorker env spec k).request = some r ∧
          (createWorker env spec k).calls
            = [.inspect server,
                .networkList ("cluster=" ++ (labels.index "cluster").getD "")] ++ later ∧
          r.networkingConfig.EndpointsConfig = [(network, ⟨[]⟩)] ∧
          r.config.Env = spec.Env) := by
  refine ⟨?_, ?_⟩
  · intro hno
    have hcond : (spec.AgentOnly && decide (spec.ServerURL ≠ "")) = false := by
      cases ha : spec.AgentOnly with
      | false => rfl
      | true =>
        have : ¬ spec.ServerURL ≠ "" := fun h => hno ⟨ha, h⟩
        simp [this]
    have hw : workerNetwork env spec (env.GetContainerName "worker" spec.ClusterName k)
        = ([], .ok (spec.Env ++
            ["K3S_URL=https://k3d-" ++ spec.ClusterName ++ "-server:" ++ spec.APIPort.Port],
          ⟨[(env.k3dNetworkName spec.ClusterName,
              ⟨[env.GetContainerName "worker" spec.ClusterName k]⟩)]⟩)) := by
      unfold workerNetwork
      rw [hcond]
      rfl
    obtain ⟨r, hreq⟩ := createWorker_request_isSome env spec k ports resolved _ _ _
      hmerge hpub hw
    obtain ⟨hn, _, _, calls, hw2⟩ :=
      createWorker_request_fields env spec k ports resolved r hmerge hpub hreq
    rw [hw] at hw2
    have hpair := (Prod.mk.inj hw2).2
    injection hpair with hpair
    obtain ⟨henv, hnet⟩ := Prod.mk.inj hpair
    refine ⟨r, hreq, hn, ?_, henv.symm⟩
    rw [← hnet, hn]
  · intro ha hurl server rest labels network others hform hcolon hclient hinspect hlist
    have hname : beforeColon spec.ServerURL = server := by
      rcases hform with h | h
      · rw [h]
        exact beforeColon_of_no_colon server hcolon
      · rw [h]
        exact beforeColon_of_colon server rest hcolon
    have hcond : (spec.AgentOnly && decide (spec.ServerURL ≠ "")) = true := by
      simp [ha, hurl]
    have hw : workerNetwork env spec (env.GetContainerName "worker" spec.ClusterName k)
        = ([.inspect server,
            .networkList ("cluster=" ++ (labels.index "cluster").getD "")],
          .ok (spec.Env, ⟨[(network, ⟨[]⟩)]⟩)) := by
      unfold workerNetwork
      rw [hcond]
      simp only [if_true, hclient, hname, hinspect, hlist]
    obtain ⟨r, hreq⟩ := createWorker_request_isSome env spec k ports resolved _ _ _
      hmerge hpub hw
    obtain ⟨later, hcalls⟩ := createWorker_calls env spec k ports resolved _ _ _
      hmerge hpub hw
    obtain ⟨_, _, _, calls, hw2⟩ :=
      createWorker_request_fields env spec k ports resolved r hmerge hpub hreq
    rw [hw] at hw2
    have hpair := (Prod.mk.inj hw2).2
    injection hpair with hpair
    obtain ⟨henv, hnet⟩ := Prod.mk.inj hpair
    exact ⟨r, later, hreq, hcalls, by rw [← hnet], henv.symm⟩

theorem createWorker_network_witness :
    (∃ r, (createWorker sampleCliEnv sampleSpec 0).request = some r ∧
        r.containerName = sampleCliEnv.GetContainerName "worker" sampleSpec.ClusterName 0 ∧
        r.networkingConfig.EndpointsConfig
          = [(sampleCliEnv.k3dNetworkName sampleSpec.ClusterName, ⟨[r.containerName]⟩)] ∧
        r.config.Env = sampleSpec.Env ++
          ["K3S_URL=https://k3d-" ++ sampleSpec.ClusterName ++ "-server:" ++
            sampleSpec.APIPort.Port]) ∧
    (∃ r later, (createWorker sampleCliEnv agentOnlySpec 0).request = some r ∧
        (createWorker sampleCliEnv agentOnlySpec 0).calls
          = [.inspect "k3d-other-server",
              .networkList ("cluster=" ++
                (GoMap.index [("cluster", "other")] "cluster").getD "")] ++ later ∧
        r.networkingConfig.EndpointsConfig = [("k3d-other", ⟨[]⟩)] ∧
        r.config.Env = agentOnlySpec.Env) :=
  ⟨(createWorker_network sampleCliEnv sampleSpec 0 ["8080:80"] resolvedSample rfl rfl).1
      (by decide),
    (createWorker_network sampleCliEnv agentOnlySpec 0 ["8080:80"] resolvedSample rfl rfl).2
      rfl (by decide) "k3d-other-server" "6443" [("cluster", "other")] "k3d-other" []
      (Or.inr (by decide)) (by decide) rfl rfl rfl⟩

/-- Claim C18: `GetRuntime` succeeds exactly for the names `docker`,
`containerd` and `k3c`, returning the runtime registered under the name; for
every other string, such as the empty string or `Docker`, it returns the error
"Runtime '<rt>' not supported". -/
theorem getRuntime_registered (rt : String) :
    ((∃ runtime, GetRuntime rt = .ok runtime) ↔
      rt = "docker" ∨ rt = "containerd" ∨ rt = "k3c") ∧
    GetRuntime "docker" = .ok .Docker ∧
    GetRuntime "containerd" = .ok .Containerd ∧
    GetRuntime "k3c" = .ok .K3c ∧
    (∀ runtime, GetRuntime rt = .ok runtime → Runtimes.index rt = some runtime) ∧
    (¬ (rt = "docker" ∨ rt = "containerd" ∨ rt = "k3c") →
      GetRuntime rt = .error (.other ("Runtime '" ++ rt ++ "' not supported")) ∧
      (Err.other ("Runtime '" ++ rt ++ "' not supported")).message
        = "Runtime '" ++ rt ++ "' not supported") ∧
    (∃ e, GetRuntime "" = .error e) ∧
    (∃ e, GetRuntime "Docker" = .error e) := by
  have hcases : rt = "docker" ∨ rt = "containerd" ∨ rt = "k3c" ∨
      (rt ≠ "docker" ∧ rt ≠ "containerd" ∧ rt ≠ "k3c") := by
    by_cases h1 : rt = "docker"
    · exact Or.inl h1
    · by_cases h2 : rt = "containerd"
      · exact Or.inr (Or.inl h2)
      · by_cases h3 : rt = "k3c"
        · exact Or.inr (Or.inr (Or.inl h3))
        · exact Or.inr (Or.inr (Or.inr ⟨h1, h2, h3⟩))
  have hnone : rt ≠ "docker" → rt ≠ "containerd" → rt ≠ "k3c" → Runtimes.index rt = none := by
    intro h1 h2 h3
    simp [Runtimes, GoMap.index, Ne.symm h1, Ne.symm h2, Ne.symm h3]
  refine ⟨?_, rfl, rfl, rfl, ?_, ?_, ⟨_, rfl⟩, ⟨_, rfl⟩⟩
  · rcases hcases with h | h | h | ⟨h1, h2, h3⟩
    · subst h
      exact ⟨fun _ => Or.inl rfl, fun _ => ⟨_, rfl⟩⟩
    · subst h
      exact ⟨fun _ => Or.inr (Or.inl rfl), fun _ => ⟨_, rfl⟩⟩
    · subst h
      exact ⟨fun _ => Or.inr (Or.inr rfl), fun _ => ⟨_, rfl⟩⟩
    · constructor
      · rintro ⟨runtime, hr⟩
        simp [GetRuntime, hnone h1 h2 h3] at hr
      · rintro (h | h | h)
        · exact absurd h h1
        · exact absurd h h2
        · exact absurd h h3
  · intro runtime hr
    unfold GetRuntime at hr
    split at hr
    · rename_i r hidx
      cases hr
      exact hidx
    · cases hr
  · intro hnot
    have h1 : rt ≠ "docker" := fun h => hnot (Or.inl h)
    have h2 : rt ≠ "containerd" := fun h => hnot (Or.inr (Or.inl h))
    have h3 : rt ≠ "k3c" := fun h => hnot (Or.inr (Or.inr h))
    refine ⟨?_, rfl⟩
    simp [GetRuntime, hnone h1 h2 h3]

theorem getRuntime_registered_witness :
    GetRuntime "podman" = .error (.other ("Runtime '" ++ "podman" ++ "' not supported")) :=
  ((getRuntime_registered "podman").2.2.2.2.2.1 (by decide)).1

theorem stopLoop_spec (StopCluster : K3dCluster → Option Err) (clusters : List K3dCluster) :
    (stopLoop StopCluster clusters).invoked
      = clusters.takeWhile (fun c => (StopCluster c).isNone) ++
          (clusters.dropWhile (fun c => (StopCluster c).isNone)).take 1 ∧
    (stopLoop StopCluster clusters).fatal
      = ((clusters.dropWhile (fun c => (StopCluster c).isNone)).head?).bind StopCluster := by
  induction clusters with
  | nil => exact ⟨rfl, rfl⟩
  | cons c rest ih =>
    cases hc : StopCluster c with
    | some err => simp [stopLoop, hc, List.takeWhile, List.dropWhile]
    | none => simpa [stopLoop, hc, List.takeWhile, List.dropWhile] using ih

/-- Claim C19: the stop-cluster command invokes `StopCluster` on the clusters in
list order, up to and including the first cluster whose stop fails and on none
after it, and then ends with that error; nothing else is invoked, so clusters
stopped before the failure stay as they are; with no failure `StopCluster` is
invoked once for every cluster of the list, in order. -/
theorem stopClusterRun_until_first_failure (StopCluster : K3dCluster → Option Err)
    (clusters : List K3dCluster) :
    (stopClusterRun StopCluster clusters).invoked
      = clusters.takeWhile (fun c => (StopCluster c).isNone) ++
          (clusters.dropWhile (fun c => (StopCluster c).isNone)).take 1 ∧
    (stopClusterRun StopCluster clusters).fatal
      = ((clusters.dropWhile (fun c => (StopCluster c).isNone)).head?).bind StopCluster ∧
    ((∀ c ∈ clusters, StopCluster c = none) →
      (stopClusterRun StopCluster clusters).invoked = clusters ∧
      (stopClusterRun StopCluster clusters).fatal = none) := by
  have hrun : stopClusterRun StopCluster clusters = stopLoop StopCluster clusters := by
    unfold stopClusterRun
    cases clusters with
    | nil => rfl
    | cons c rest => simp
  rw [hrun]
  obtain ⟨h1, h2⟩ := stopLoop_spec StopCluster clusters
  refine ⟨h1, h2, ?_⟩
  intro hall
  have htw : clusters.takeWhile (fun c => (StopCluster c).isNone) = clusters := by
    rw [List.takeWhile_eq_self_iff]
    intro c hc
    simp [hall c hc]
  have hdw : clusters.dropWhile (fun c => (StopCluster c).isNone) = [] := by
    rw [List.dropWhile_eq_nil_iff]
    intro c hc
    simp [hall c hc]
  rw [h1, h2, htw, hdw]
  simp

theorem stopClusterRun_until_first_failure_witness :
    (stopClusterRun (fun c => if c.Name = "b" then some (.other "cannot stop") else none)
        [⟨"a"⟩, ⟨"b"⟩, ⟨"c"⟩]).invoked = [⟨"a"⟩, ⟨"b"⟩] ∧
    (stopClusterRun (fun _ => none) [⟨"a"⟩, ⟨"b"⟩]).invoked = [⟨"a"⟩, ⟨"b"⟩] :=
  ⟨(stopClusterRun_until_first_failure
      (fun c => if c.Name = "b" then some (.other "cannot stop") else none)
      [⟨"a"⟩, ⟨"b"⟩, ⟨"c"⟩]).1,
    ((stopClusterRun_until_first_failure (fun _ => none) [⟨"a"⟩, ⟨"b"⟩]).2.2
      (fun _ _ => rfl)).1⟩

/-- Claim C20: `TranslateNodeToContainer` fails iff the node's port specs fail
to parse (with the parser's error); when it succeeds the command is `node.Cmd`
followed by `node.Args`, hostname, image, environment, labels and volume binds
are those of the node, the container is privileged, it is attached to exactly
the network `node.Network`, and the restart policy is `unless-stopped` if
`node.Restart` is set and empty otherwise. -/
theorem translateNodeToContainer_spec (env : TranslateEnv) (node : Node) :
    ((∃ err, TranslateNodeToContainer env node = .error err) ↔
      ∃ err, env.ParsePortSpecs node.Ports = .error err) ∧
    (∀ err, env.ParsePortSpecs node.Ports = .error err →
      TranslateNodeToContainer env node = .error err) ∧
    (∀ c, TranslateNodeToContainer env node = .ok c →
      c.ContainerConfig.Cmd = node.Cmd ++ node.Args ∧
      c.ContainerConfig.Hostname = node.Name ∧
      c.ContainerConfig.Image = node.Image ∧
      c.ContainerConfig.Env = node.Env ∧
      c.ContainerConfig.Labels = node.Labels ∧
      c.HostConfig.Binds = node.Volumes ∧
      c.HostConfig.Privileged = true ∧
      c.NetworkingConfig.EndpointsConfig = [(node.Network, ⟨[]⟩)] ∧
      c.HostConfig.RestartPolicy = (if node.Restart then "unless-stopped" else "") ∧
      env.ParsePortSpecs node.Ports
        = .ok (c.ContainerConfig.ExposedPorts, c.HostConfig.PortBindings)) := by
  cases hp : env.ParsePortSpecs node.Ports with
  | error e =>
    simp [TranslateNodeToContainer, hp]
  | ok parsed =>
    obtain ⟨exposed, bindings⟩ := parsed
    refine ⟨?_, ?_, ?_⟩
    · simp [TranslateNodeToContainer, hp]
    · intro err h
      cases h
    · intro c hc
      simp only [TranslateNodeToContainer, hp, Except.ok.injEq] at hc
      subst hc
      simp

theorem translateNodeToContainer_spec_witness :
    ∃ c, TranslateNodeToContainer sampleTranslateEnv restartNode = .ok c ∧
      c.ContainerConfig.Cmd = ["server", "--tls-san", "0.0.0.0"] ∧
      c.HostConfig.RestartPolicy = "unless-stopped" ∧
      c.NetworkingConfig.EndpointsConfig = [("k3d-c", ⟨[]⟩)] :=
  ⟨_, rfl,
    ((translateNodeToContainer_spec sampleTranslateEnv restartNode).2.2 _ rfl).1,
    ((translateNodeToContainer_spec sampleTranslateEnv restartNode).2.2 _ rfl).2.2.2.2.2.2.2.2.1,
    ((translateNodeToContainer_spec sampleTranslateEnv restartNode).2.2 _ rfl).2.2.2.2.2.2.2.1⟩

/-! ## The claims C21 to C23 -/

/-- Claim C21, the code as it is: `GetKubeconfig` panics, instead of returning
an error, when the payload of the chosen node is shorter than the 512 bytes it
drops (here three bytes), and when the payload parses to a kubeconfig without a
cluster entry named `default` (here a kubeconfig without entries). -/
theorem getKubeconfig_panics_outside_error_result :
    (GetKubeconfig shortPayloadRuntime sampleLoad "k3d" "master" "6443" "0.0.0.0"
        ⟨"c"⟩).result = .panic "slice bounds out of range" ∧
    (GetKubeconfig sampleRuntime emptyLoad "k3d" "master" "6443" "0.0.0.0" ⟨"c"⟩).result
      = .panic "invalid memory address or nil pointer dereference" ∧
    emptyConfig.Clusters.index "default" = none := by
  refine ⟨rfl, ?_, rfl⟩
  have hlen : ¬ (List.replicate 512 0 ++ [7, 7, 7] : Bytes).length < 512 := by
    simp only [List.length_append, List.length_replicate, List.length_cons, List.length_nil]
    omega
  simp only [GetKubeconfig, sampleRuntime, emptyLoad, hlen, if_false]
  rfl

/-- Without overwrite the first loop never changes the value of a cluster
entry the target already has, whether it ends with an error or not. -/
theorem mergeClusters_keeps (new : List (String × Option Cluster)) (ex : Config)
    {k : String} {v : Option Cluster} (h : ex.Clusters.index k = some v) :
    (mergeClusters false new ex).1.Clusters.index k = some v := by
  induction new generalizing ex with
  | nil => simpa [mergeClusters] using h
  | cons e rest ih =>
    obtain ⟨k0, v0⟩ := e
    unfold mergeClusters
    split_ifs with hc
    · exact h
    · apply ih
      have hnone : ex.Clusters.index k0 = none := by
        cases hidx : ex.Clusters.index k0 with
        | none => rfl
        | some x => simp [hidx] at hc
      have hne : k0 ≠ k := by
        intro hh
        rw [hh, h] at hnone
        cases hnone
      simp only
      rw [GoMap.index_assign_ne _ _ hne]
      exact h

theorem mergeAuthInfos_keeps (new : List (String × Option AuthInfo)) (ex : Config)
    {k : String} {v : Option AuthInfo} (h : ex.AuthInfos.index k = some v) :
    (mergeAuthInfos false new ex).1.AuthInfos.index k = some v := by
  induction new generalizing ex with
  | nil => simpa [mergeAuthInfos] using h
  | cons e rest ih =>
    obtain ⟨k0, v0⟩ := e
    unfold mergeAuthInfos
    split_ifs with hc
    · exact h
    · apply ih
      have hnone : ex.AuthInfos.index k0 = none := by
        cases hidx : ex.AuthInfos.index k0 with
        | none => rfl
        | some x => simp [hidx] at hc
      have hne : k0 ≠ k := by
        intro hh
        rw [hh, h] at hnone
        cases hnone
      simp only
      rw [GoMap.index_assign_ne _ _ hne]
      exact h

/-- Claim C22 as stated fails: merging `conflictingUserSample` into
`otherSample` without overwrite returns the name conflict of the user `alice`
and writes nothing, but the in-memory target already holds the new cluster
`staging`, so it is not equal to what it was before the call. -/
theorem updateKubeConfig_conflict_leaves_added_entries :
    (UpdateKubeConfig quietEnv conflictingUserSample otherSample "/kube/config" false false
        fsSample).run.err = some (.nameConflict .authInfo "alice") ∧
    (UpdateKubeConfig quietEnv conflictingUserSample otherSample "/kube/config" false false
        fsSample).run.trace = [] ∧
    otherSample.Clusters.index "staging" = none ∧
    (UpdateKubeConfig quietEnv conflictingUserSample otherSample "/kube/config" false false
        fsSample).existing.Clusters.index "staging"
      = some (some ⟨"https://staging:443", [4]⟩) ∧
    (UpdateKubeConfig quietEnv conflictingUserSample otherSample "/kube/config" false false
        fsSample).existing ≠ otherSample := by
  refine ⟨rfl, rfl, rfl, rfl, ?_⟩
  decide

/-- An error of the first loop is a conflict of kind cluster. -/
theorem mergeClusters_err_kind (ow : Bool) (new : List (String × Option Cluster))
    (ex : Config) {e : Err} (h : (mergeClusters ow new ex).2 = some e) :
    ∃ k, e = .nameConflict .cluster k := by
  induction new generalizing ex with
  | nil => simp [mergeClusters] at h
  | cons entry rest ih =>
    obtain ⟨k0, v0⟩ := entry
    unfold mergeClusters at h
    split_ifs at h
    · simp only [Option.some.injEq] at h
      exact ⟨k0, h.symm⟩
    · exact ih _ h

/-- An error of the third loop is reported as a conflict of kind cluster. -/
theorem mergeContexts_err_kind (ow : Bool) (new : List (String × Option Context))
    (ex : Config) {e : Err} (h : (mergeContexts ow new ex).2 = some e) :
    ∃ k, e = .nameConflict .cluster k := by
  induction new generalizing ex with
  | nil => simp [mergeContexts] at h
  | cons entry rest ih =>
    obtain ⟨k0, v0⟩ := entry
    unfold mergeContexts at h
    split_ifs at h
    · simp only [Option.some.injEq] at h
      exact ⟨k0, h.symm⟩
    · exact ih _ h

/-- Claim C22, amended: if `UpdateKubeConfig` returns a name-conflict error,
then nothing is written (the call makes no file-system step), the
current-context of the in-memory target is what it was before the call, and
every cluster and auth-info entry the target had before the call still has its
value; but the in-memory target is not restored: when the conflict is reported
for an auth-info, every cluster entry of the new kubeconfig has already been
added to it (its clusters are the target's clusters overridden by the new
ones). -/
theorem updateKubeConfig_conflict_effect (env : Env) (new existing : Config) (out : String)
    (ow upd : Bool) (fs : FS) (e : Err)
    (hC : GoMap.WF new.Clusters)
    (herr : (UpdateKubeConfig env new existing out ow upd fs).run.err = some e)
    (hconf : e.isNameConflict = true) :
    (UpdateKubeConfig env new existing out ow upd fs).run.trace = [] ∧
    (UpdateKubeConfig env new existing out ow upd fs).existing.CurrentContext
      = existing.CurrentContext ∧
    (∀ k v, existing.Clusters.index k = some v →
      (UpdateKubeConfig env new existing out ow upd fs).existing.Clusters.index k = some v) ∧
    (∀ k v, existing.AuthInfos.index k = some v →
      (UpdateKubeConfig env new existing out ow upd fs).existing.AuthInfos.index k
        = some v) ∧
    (∀ name, e = .nameConflict .authInfo name →
      ∀ k, (UpdateKubeConfig env new existing out ow upd fs).existing.Clusters.index k
        = GoMap.override existing.Clusters new.Clusters k) := by
  have hwrite : ∀ kc : Config, (WriteKubeConfig env kc out fs).err = some e → False := by
    intro kc h
    have := WriteKubeConfig_err env kc out fs h
    rw [hconf] at this
    cases this
  rcases h1 : mergeClusters ow new.Clusters existing with ⟨ex1, _ | e1⟩
  · rcases h2 : mergeAuthInfos ow new.AuthInfos ex1 with ⟨ex2, _ | e2⟩
    · rcases h3 : mergeContexts ow new.Contexts ex2 with ⟨ex3, _ | e3⟩
      · rw [UpdateKubeConfig_of_merges env new existing out ow upd fs h1 h2 h3] at herr
        exact absurd herr (fun h => hwrite _ h)
      · cases ow with
        | true =>
          have := mergeContexts_overwrite new.Contexts ex2
          rw [h3] at this
          cases this
        | false =>
          have f1 := mergeClusters_frame false new.Clusters existing
          have f2 := mergeAuthInfos_frame false new.AuthInfos ex1
          have f3 := mergeContexts_frame false new.Contexts ex2
          have hkind := mergeContexts_err_kind false new.Contexts ex2 (e := e3) (by rw [h3])
          rw [h1] at f1
          rw [h2] at f2
          rw [h3] at f3
          simp only at f1 f2 f3
          simp only [UpdateKubeConfig, h1, h2, h3, Option.some.injEq] at herr ⊢
          refine ⟨trivial, ?_, ?_, ?_, ?_⟩
          · rw [f3.2.2, f2.2.2, f1.2.2]
          · intro k v hk
            have := mergeClusters_keeps new.Clusters existing hk
            rw [h1] at this
            rw [f3.1, f2.1]
            exact this
          · intro k v hk
            rw [← f1.1] at hk
            have := mergeAuthInfos_keeps new.AuthInfos ex1 hk
            rw [h2] at this
            rw [f3.2.1]
            exact this
          · intro name hname
            obtain ⟨k0, hk0⟩ := hkind
            rw [← herr, hk0] at hname
            cases hname
    · cases ow with
      | true =>
        have := mergeAuthInfos_overwrite new.AuthInfos ex1
        rw [h2] at this
        cases this
      | false =>
        have f1 := mergeClusters_frame false new.Clusters existing
        have f2 := mergeAuthInfos_frame false new.AuthInfos ex1
        have i1 := mergeClusters_index false new.Clusters existing hC (by rw [h1])
        rw [h1] at f1 i1
        rw [h2] at f2
        simp only at f1 f2 i1
        simp only [UpdateKubeConfig, h1, h2]
        refine ⟨trivial, ?_, ?_, ?_, ?_⟩
        · rw [f2.2.2, f1.2.2]
        · intro k v hk
          have := mergeClusters_keeps new.Clusters existing hk
          rw [h1] at this
          rw [f2.1]
          exact this
        · intro k v hk
          rw [← f1.1] at hk
          have := mergeAuthInfos_keeps new.AuthInfos ex1 hk
          rw [h2] at this
          exact this
        · intro name _ k
          rw [f2.1]
          exact i1 k
  · cases ow with
    | true =>
      have := mergeClusters_overwrite new.Clusters existing
      rw [h1] at this
      cases this
    | false =>
      have f1 := mergeClusters_frame false new.Clusters existing
      have hkind := mergeClusters_err_kind false new.Clusters existing (e := e1) (by rw [h1])
      rw [h1] at f1
      simp only at f1
      simp only [UpdateKubeConfig, h1, Option.some.injEq] at herr ⊢
      refine ⟨trivial, f1.2.2, ?_, ?_, ?_⟩
      · intro k v hk
        have := mergeClusters_keeps new.Clusters existing hk
        rw [h1] at this
        exact this
      · intro k v hk
        rw [f1.1]
        exact hk
      · intro name hname
        obtain ⟨k0, hk0⟩ := hkind
        rw [← herr, hk0] at hname
        cases hname

theorem updateKubeConfig_conflict_effect_witness :
    (UpdateKubeConfig quietEnv conflictingUserSample otherSample "/kube/config" false false
        fsSample).run.trace = [] ∧
    (UpdateKubeConfig quietEnv conflictingUserSample otherSample "/kube/config" false false
        fsSample).existing.CurrentContext = otherSample.CurrentContext ∧
    (∀ k v, otherSample.Clusters.index k = some v →
      (UpdateKubeConfig quietEnv conflictingUserSample otherSample "/kube/config" false false
        fsSample).existing.Clusters.index k = some v) ∧
    (∀ k v, otherSample.AuthInfos.index k = some v →
      (UpdateKubeConfig quietEnv conflictingUserSample otherSample "/kube/config" false false
        fsSample).existing.AuthInfos.index k = some v) ∧
    (∀ name, Err.nameConflict .authInfo "alice" = .nameConflict .authInfo name →
      ∀ k, (UpdateKubeConfig quietEnv conflictingUserSample otherSample "/kube/config" false
          false fsSample).existing.Clusters.index k
        = GoMap.override otherSample.Clusters conflictingUserSample.Clusters k) :=
  updateKubeConfig_conflict_effect quietEnv conflictingUserSample otherSample "/kube/config"
    false false fsSample (.nameConflict .authInfo "alice") (by decide) rfl rfl

/-- Claim C23: for every behaviour of the environment the load loop of
`GetAndWriteKubeConfig` ends within two iterations, each of which loads the
target once, so `GetAndWriteKubeConfig` returns. A first load that succeeds, a
first failure that is not file-not-found, and a failure to create the
directory or the file end the loop in the first iteration; only after a first
failure with file-not-found, once the directory and the empty file are
created, does the loop load a second time, and the result of that second load,
success or failure of any kind, ends the loop. -/
theorem loadLoop_at_most_two_attempts (env : Env) (output : String) (fs : FS) (fuel : Nat) :
    loadLoop env output (fuel + 2) true fs [] = loadLoop env output 2 true fs [] ∧
    (∃ res, loadLoop env output 2 true fs [] = some res) ∧
    (∀ fetched opts, ∃ r,
      GetAndWriteKubeConfig env (fuel + 2) fetched output opts fs = some r) ∧
    (∀ cfg, env.loadFromFile fs output = .ok cfg →
      loadLoop env output (fuel + 1) true fs [] = some ([], .ok cfg)) ∧
    (∀ e, env.loadFromFile fs output = .error e → e.notExist = false →
      loadLoop env output (fuel + 1) true fs [] = some ([], .error (.os e))) ∧
    (∀ e em, env.loadFromFile fs output = .error e → e.notExist = true →
      env.mkdirAllErr (env.dir output) = some em →
      loadLoop env output (fuel + 1) true fs [] = some ([], .error (.os em))) ∧
    (∀ e ec, env.loadFromFile fs output = .error e → e.notExist = true →
      env.mkdirAllErr (env.dir output) = none → env.createErr output = some ec →
      loadLoop env output (fuel + 1) true fs [] = some ([], .error (.os ec))) ∧
    (∀ e, env.loadFromFile fs output = .error e → e.notExist = true →
      env.mkdirAllErr (env.dir output) = none → env.createErr output = none →
      loadLoop env output 1 true fs [] = none ∧
      (∀ cfg, env.loadFromFile (fs.put (.file output) []) output = .ok cfg →
        loadLoop env output (fuel + 2) true fs []
          = some ([fs.put (.file output) []], .ok cfg)) ∧
      (∀ e2, env.loadFromFile (fs.put (.file output) []) output = .error e2 →
        loadLoop env output (fuel + 2) true fs []
          = some ([fs.put (.file output) []], .error (.os e2)))) := by
  have hsecond : ∀ n : Nat, loadLoop env output (n + 1) false (fs.put (.file output) [])
        ([] ++ [fs.put (.file output) []])
      = loadLoop env output 1 false (fs.put (.file output) [])
        ([] ++ [fs.put (.file output) []]) := by
    intro n
    cases h1 : env.loadFromFile (fs.put (.file output) []) output <;>
      simp [loadLoop, h1, Err.isNotExist]
  have hsame : loadLoop env output (fuel + 2) true fs [] = loadLoop env output 2 true fs [] := by
    cases h0 : env.loadFromFile fs output with
    | ok cfg0 => simp [loadLoop, h0]
    | error e0 =>
      cases hne : e0.notExist with
      | false => simp [loadLoop, h0, Err.isNotExist, hne]
      | true =>
        cases hm : env.mkdirAllErr (env.dir output) with
        | some em => simp [loadLoop, h0, Err.isNotExist, hne, hm]
        | none =>
          cases hc : env.createErr output with
          | some ec => simp [loadLoop, h0, Err.isNotExist, hne, hm, hc]
          | none =>
            have hstep : ∀ n : Nat, loadLoop env output (n + 2) true fs []
                = loadLoop env output (n + 1) false (fs.put (.file output) [])
                    ([] ++ [fs.put (.file output) []]) := by
              intro n
              simp [loadLoop, h0, Err.isNotExist, hne, hm, hc]
            rw [hstep fuel, hstep 0, hsecond fuel, hsecond 0]
  obtain ⟨trace, res, hl, _⟩ := loadLoop_two env output 0 fs
  refine ⟨hsame, ⟨_, hl⟩, ?_, ?_, ?_, ?_, ?_, ?_⟩
  · intro fetched opts
    obtain ⟨trace2, res2, hl2, _⟩ := loadLoop_two env
      (match (if output = "" then GetDefaultKubeConfigPath env else Except.ok output) with
        | .ok path => path
        | .error _ => output) fuel fs
    unfold GetAndWriteKubeConfig
    cases fetched with
    | error e => exact ⟨_, rfl⟩
    | ok kubeconfig =>
      simp only
      cases hpath : (if output = "" then GetDefaultKubeConfigPath env else Except.ok output) with
      | error e => exact ⟨_, rfl⟩
      | ok path =>
        rw [hpath] at hl2
        simp only at hl2 ⊢
        split_ifs
        · exact ⟨_, rfl⟩
        · rw [hl2]
          cases res2 with
          | error e => exact ⟨_, rfl⟩
          | ok cfg => exact ⟨_, rfl⟩
  · intro cfg h0
    simp [loadLoop, h0]
  · intro e h0 hne
    simp [loadLoop, h0, Err.isNotExist, hne]
  · intro e em h0 hne hm
    simp [loadLoop, h0, Err.isNotExist, hne, hm]
  · intro e ec h0 hne hm hc
    simp [loadLoop, h0, Err.isNotExist, hne, hm, hc]
  · intro e h0 hne hm hc
    refine ⟨?_, ?_, ?_⟩
    · simp [loadLoop, h0, Err.isNotExist, hne, hm, hc]
    · intro cfg h1
      simp [loadLoop, h0, Err.isNotExist, hne, hm, hc, h1]
    · intro e2 h1
      simp [loadLoop, h0, Err.isNotExist, hne, hm, hc, h1]

theorem loadLoop_at_most_two_attempts_witness :
    loadLoop quietEnv "/kube/config" 1 true noFileFS [] = none ∧
    loadLoop quietEnv "/kube/config" (0 + 2) true noFileFS []
      = some ([noFileFS.put (.file "/kube/config") []], .ok otherSample) :=
  ⟨((loadLoop_at_most_two_attempts quietEnv "/kube/config" noFileFS 0).2.2.2.2.2.2.2
      ⟨true, "no such file or directory"⟩ rfl rfl rfl rfl).1,
    ((loadLoop_at_most_two_attempts quietEnv "/kube/config" noFileFS 0).2.2.2.2.2.2.2
      ⟨true, "no such file or directory"⟩ rfl rfl rfl rfl).2.1 otherSample rfl⟩

/-! ## Claim C5 on targets whose maps may be nil -/

theorem mergeClustersNilable_ofConfig (ow : Bool) (new : List (String × Option Cluster))
    (ex : Config) :
    mergeClustersNilable ow new (.ofConfig ex)
      = (.ofConfig (mergeClusters ow new ex).1, Outcome.ofErr (mergeClusters ow new ex).2) := by
  induction new generalizing ex with
  | nil => rfl
  | cons entry rest ih =>
    obtain ⟨k, v⟩ := entry
    unfold mergeClustersNilable mergeClusters
    have hidx : nilIndex (NilableConfig.ofConfig ex).Clusters k = ex.Clusters.index k := rfl
    rw [hidx]
    split_ifs
    · rfl
    · exact ih { ex with Clusters := ex.Clusters.assign k v }

theorem mergeAuthInfosNilable_ofConfig (ow : Bool) (new : List (String × Option AuthInfo))
    (ex : Config) :
    mergeAuthInfosNilable ow new (.ofConfig ex)
      = (.ofConfig (mergeAuthInfos ow new ex).1,
          Outcome.ofErr (mergeAuthInfos ow new ex).2) := by
  induction new generalizing ex with
  | nil => rfl
  | cons entry rest ih =>
    obtain ⟨k, v⟩ := entry
    unfold mergeAuthInfosNilable mergeAuthInfos
    have hidx : nilIndex (NilableConfig.ofConfig ex).AuthInfos k = ex.AuthInfos.index k := rfl
    rw [hidx]
    split_ifs
    · rfl
    · exact ih { ex with AuthInfos := ex.AuthInfos.assign k v }

theorem mergeContextsNilable_ofConfig (ow : Bool) (new : List (String × Option Context))
    (ex : Config) :
    mergeContextsNilable ow new (.ofConfig ex)
      = (.ofConfig (mergeContexts ow new ex).1,
          Outcome.ofErr (mergeContexts ow new ex).2) := by
  induction new generalizing ex with
  | nil => rfl
  | cons entry rest ih =>
    obtain ⟨k, v⟩ := entry
    unfold mergeContextsNilable mergeContexts
    have hidx : nilIndex (NilableConfig.ofConfig ex).Clusters k = ex.Clusters.index k := rfl
    rw [hidx]
    split_ifs
    · rfl
    · exact ih { ex with Contexts := ex.Contexts.assign k v }

/-- On a target with allocated maps, `UpdateKubeConfig` never panics and does
what it does on the entries. -/
theorem UpdateKubeConfigNilable_ofConfig (env : Env) (new ex : Config) (out : String)
    (ow upd : Bool) (fs : FS) :
    UpdateKubeConfigNilable env new (.ofConfig ex) out ow upd fs
      = ⟨.ofConfig (UpdateKubeConfig env new ex out ow upd fs).existing,
          (UpdateKubeConfig env new ex out ow upd fs).run.trace,
          Outcome.ofErr (UpdateKubeConfig env new ex out ow upd fs).run.err⟩ := by
  unfold UpdateKubeConfigNilable
  rw [mergeClustersNilable_ofConfig]
  rcases h1 : mergeClusters ow new.Clusters ex with ⟨ex1, _ | e1⟩
  · simp only [Outcome.ofErr]
    rw [mergeAuthInfosNilable_ofConfig]
    rcases h2 : mergeAuthInfos ow new.AuthInfos ex1 with ⟨ex2, _ | e2⟩
    · simp only [Outcome.ofErr]
      rw [mergeContextsNilable_ofConfig]
      rcases h3 : mergeContexts ow new.Contexts ex2 with ⟨ex3, _ | e3⟩
      · simp only [Outcome.ofErr]
        rw [UpdateKubeConfig_of_merges env new ex out ow upd fs h1 h2 h3]
        have hcc : (NilableConfig.ofConfig ex3).CurrentContext = ex3.CurrentContext := rfl
        by_cases hc : ex3.CurrentContext = ""
        · simp only [hcc, hc, if_true, true_or]
          rfl
        · cases upd with
          | true =>
            simp only [hcc, hc, if_false, if_true, or_true]
            rfl
          | false =>
            simp only [hcc, hc, if_false, Bool.false_eq_true, or_self]
            rfl
      · simp [Outcome.ofErr, UpdateKubeConfig, h1, h2, h3]
    · simp [Outcome.ofErr, UpdateKubeConfig, h1, h2]
  · simp [Outcome.ofErr, UpdateKubeConfig, h1]

theorem Outcome.ofErr_error {err : Option Err} {e : Err}
    (h : Outcome.ofErr err = .error e) : err = some e := by
  cases err with
  | none => cases h
  | some e2 =>
    simp only [Outcome.ofErr, Outcome.error.injEq] at h
    rw [h]

theorem Outcome.ofErr_ok {err : Option Err} (h : Outcome.ofErr err = .ok ()) : err = none := by
  cases err with
  | none => rfl
  | some e2 => cases h

/-- Claim C5 as stated fails on a target with a nil map: merging the fetched
kubeconfig into the zero value `Config{}` with overwrite requested panics at the
first assignment, so the call yields no merged kubeconfig. -/
theorem updateKubeConfig_panics_on_nil_map :
    (UpdateKubeConfigNilable quietEnv fetchedSample zeroConfig "/kube/config" true false
        fsSample).result = .panic "assignment to entry in nil map" ∧
    (UpdateKubeConfigNilable quietEnv fetchedSample zeroConfig "/kube/config" true false
        fsSample).trace = [] := by
  exact ⟨rfl, rfl⟩

/-- Claim C5, amended: for every target whose three maps are allocated,
`UpdateKubeConfig` with overwrite requested is idempotent: merging the new
kubeconfig into the result of a first merge leaves that result as it is (same
clusters, auth-infos, contexts and current-context), neither merge panics or
returns a name conflict, and when both merges succeed the output path holds the
same content after each. -/
theorem updateKubeConfig_overwrite_idempotent_allocated (env : Env) (new existing : Config)
    (out : String) (upd : Bool) (fs₁ fs₂ : FS)
    (hC : GoMap.WF new.Clusters) (hA : GoMap.WF new.AuthInfos) (hX : GoMap.WF new.Contexts) :
    (UpdateKubeConfigNilable env new
        (UpdateKubeConfigNilable env new (.ofConfig existing) out true upd fs₁).existing
        out true upd fs₂).existing
      = (UpdateKubeConfigNilable env new (.ofConfig existing) out true upd fs₁).existing ∧
    (∀ m, (UpdateKubeConfigNilable env new (.ofConfig existing) out true upd fs₁).result
      ≠ .panic m) ∧
    (∀ m, (UpdateKubeConfigNilable env new
        (UpdateKubeConfigNilable env new (.ofConfig existing) out true upd fs₁).existing
        out true upd fs₂).result ≠ .panic m) ∧
    (∀ e, (UpdateKubeConfigNilable env new (.ofConfig existing) out true upd fs₁).result
      = .error e → e.isNameConflict = false) ∧
    (∀ e, (UpdateKubeConfigNilable env new
        (UpdateKubeConfigNilable env new (.ofConfig existing) out true upd fs₁).existing
        out true upd fs₂).result = .error e → e.isNameConflict = false) ∧
    ((UpdateKubeConfigNilable env new (.ofConfig existing) out true upd fs₁).result = .ok () →
      (UpdateKubeConfigNilable env new
        (UpdateKubeConfigNilable env new (.ofConfig existing) out true upd fs₁).existing
        out true upd fs₂).result = .ok () →
      ((UpdateKubeConfigNilable env new
        (UpdateKubeConfigNilable env new (.ofConfig existing) out true upd fs₁).existing
        out true upd fs₂).trace.getLastD fs₂).files.index out
        = ((UpdateKubeConfigNilable env new (.ofConfig existing) out true upd
            fs₁).trace.getLastD fs₁).files.index out) := by
  obtain ⟨hsame, hn1, hn2, hfile⟩ :=
    updateKubeConfig_overwrite_idempotent env new existing out upd fs₁ fs₂ hC hA hX
  rw [UpdateKubeConfigNilable_ofConfig env new existing out true upd fs₁]
  simp only
  rw [UpdateKubeConfigNilable_ofConfig env new _ out true upd fs₂]
  simp only
  refine ⟨by rw [hsame], ?_, ?_, ?_, ?_, ?_⟩
  · intro m h
    cases herr : (UpdateKubeConfig env new existing out true upd fs₁).run.err <;>
      simp [herr, Outcome.ofErr] at h
  · intro m h
    cases herr : (UpdateKubeConfig env new
        (UpdateKubeConfig env new existing out true upd fs₁).existing out true upd
        fs₂).run.err <;> simp [herr, Outcome.ofErr] at h
  · intro e h
    exact hn1 e (Outcome.ofErr_error h)
  · intro e h
    exact hn2 e (Outcome.ofErr_error h)
  · intro h1 h2
    exact hfile (Outcome.ofErr_ok h1) (Outcome.ofErr_ok h2)

theorem updateKubeConfig_overwrite_idempotent_allocated_witness :
    (UpdateKubeConfigNilable quietEnv fetchedSample
        (UpdateKubeConfigNilable quietEnv fetchedSample (.ofConfig otherSample) "/kube/config"
          true false fsSample).existing
        "/kube/config" true false fsSample).existing
      = (UpdateKubeConfigNilable quietEnv fetchedSample (.ofConfig otherSample) "/kube/config"
          true false fsSample).existing :=
  (updateKubeConfig_overwrite_idempotent_allocated quietEnv fetchedSample otherSample
    "/kube/config" false fsSample fsSample (by decide) (by decide) (by decide)).1

/-! ## Claim C17: `importImage` -/

/-- An import unit whose exec is created but whose attach fails ends with a
panic, whatever the other calls do. -/
theorem ctrImageImport_attach_error (env : ImportEnv) (container : Container)
    (imageTarPath : String) (images : List String) (name : String) (others : List String)
    (execID : String) (e : DockerErr)
    (hnames : container.Names = name :: others) (hname : name ≠ "")
    (hclient : env.unitClientErr container.ID = none)
    (hcreate : env.execCreate container.ID = .ok execID)
    (hattach : env.execAttach execID = .error e) :
    ctrImageImport env container imageTarPath images
      = .panic "invalid memory address or nil pointer dereference" := by
  unfold ctrImageImport
  simp only [hnames, hname, if_false, hclient, hcreate, hattach]

/-- Once the archive is saved and the nodes are enumerated, `importImage` runs
one unit for the server and one for each worker, in this order; if no unit
panics, it removes the archive and returns the error of the removal only. -/
theorem importImage_of_enumerated (env : ImportEnv) (clusterName : String)
    (images : List String) (dir : String) (clusters : GoMap ClusterContainers)
    (found : ClusterContainers)
    (hclient : env.newEnvClientErr = none)
    (hdir : env.getClusterDir clusterName = .ok dir)
    (hsave : env.imageSaveErr images = none)
    (hcreate : env.createErr
      (dir ++ "/images/" ++ ("k3d-" ++ clusterName ++ "-images-" ++ env.now ++ ".tar")) = none)
    (hcopy : env.copyErr = none)
    (hclusters : env.getClusters clusterName = .ok clusters)
    (hfound : clusters.index clusterName = some found) :
    (importImage env clusterName images).units
      = (found.server :: found.workers).map (fun container =>
          (container.ID, ctrImageImport env container
            (imageBasePathRemote ++ ("k3d-" ++ clusterName ++ "-images-" ++ env.now ++ ".tar"))
            images)) ∧
    ((∀ u ∈ (importImage env clusterName images).units, u.2.isPanic = false) →
      (importImage env clusterName images).removed = true ∧
      (importImage env clusterName images).result
        = (match env.removeErr
            (dir ++ "/images/" ++ ("k3d-" ++ clusterName ++ "-images-" ++ env.now ++ ".tar"))
            with
          | some e =>
            .error (.other ("ERROR: Couldn't remove tarball [" ++ (dir ++ "/images/") ++
              ("k3d-" ++ clusterName ++ "-images-" ++ env.now ++ ".tar") ++ "]\n" ++ e.msg))
          | none => .ok ())) ∧
    ((∃ u ∈ (importImage env clusterName images).units, u.2.isPanic = true) →
      (importImage env clusterName images).removed = false ∧
      ∃ msg, (importImage env clusterName images).result = .panic msg) := by
  unfold importImage
  simp only [hclient, hdir, hsave, hcreate, hcopy, hclusters, hfound, Option.getD_some,
    List.singleton_append]
  generalize hunits : (found.server :: found.workers).map (fun container =>
      (container.ID, ctrImageImport env container
        (imageBasePathRemote ++ ("k3d-" ++ clusterName ++ "-images-" ++ env.now ++ ".tar"))
        images)) = units
  cases hfind : units.find? (fun u => u.2.isPanic) with
  | some u =>
    have hu := List.find?_some hfind
    have hmem := List.mem_of_find?_eq_some hfind
    dsimp only
    refine ⟨rfl, ?_, ?_⟩
    · intro hall
      have := hall u hmem
      simp only at hu
      rw [this] at hu
      cases hu
    · intro _
      exact ⟨rfl, _, rfl⟩
  | none =>
    have hnone := List.find?_eq_none.1 hfind
    cases hrm : env.removeErr
        (dir ++ "/images/" ++ ("k3d-" ++ clusterName ++ "-images-" ++ env.now ++ ".tar")) with
    | some e =>
      dsimp only
      refine ⟨rfl, fun _ => ⟨rfl, rfl⟩, ?_⟩
      rintro ⟨u, hmem, hp⟩
      have := hnone u hmem
      simp only [hp, not_true_eq_false] at this
    | none =>
      dsimp only
      refine ⟨rfl, fun _ => ⟨rfl, rfl⟩, ?_⟩
      rintro ⟨u, hmem, hp⟩
      have := hnone u hmem
      simp only [hp, not_true_eq_false] at this

/-- Claim C17, the code as it is: for the cluster `c` with server `s1` and
worker `w1`, when attaching to the exec of `w1` fails, the import unit of `w1`
panics, `importImage` ends with that panic and the archive is not removed;
whereas a failed exec start and an output without the completion marker are
only logged: the archive is removed and `importImage` returns no error. -/
theorem importImage_attach_error_panics :
    (importImage attachFailsEnv "c" ["nginx:latest"]).result
      = .panic "invalid memory address or nil pointer dereference" ∧
    (importImage attachFailsEnv "c" ["nginx:latest"]).removed = false ∧
    (importImage attachFailsEnv "c" ["nginx:latest"]).units.map Prod.fst = ["s1", "w1"] ∧
    (importImage markerMissingEnv "c" ["nginx:latest"]).result = .ok () ∧
    (importImage markerMissingEnv "c" ["nginx:latest"]).removed = true ∧
    (importImage markerMissingEnv "c" ["nginx:latest"]).units.map Prod.fst = ["s1", "w1"] := by
  refine ⟨rfl, rfl, rfl, rfl, rfl, rfl⟩

end K3d
